import Mathlib

/-!
# Avatar actions (`avatar_action.cpp`) and the locale bootstrap (`language.cpp`)

A shallow embedding of `avatar_action::move`, `avatar_action::ramp_move`,
`avatar_action::swim`, `can_fire_turret`, `avatar_action::eat_here`,
`avatar_action::plthrow`, and of `get_lang_info` and `update_global_locale`.

* The world (`world`) holds what the code reads through `const` accessors: the
  avatar's fields, the map's terrain and flags, vehicles, creatures, options.
* Every call into a collaborator whose body lives elsewhere (game, map, vehicle,
  character methods that are not `const`) goes through `services.run`, which may
  change the world arbitrarily and returns the call's boolean result.  Each such
  call is recorded, in program order, in the `trace` of the `state`, together with
  messages and prompts.  Collaborators cannot touch the trace.
* C++ `int` is embedded as `Int`; signed overflow is undefined behaviour in the
  source and is not modelled.
-/

namespace cata

/-! ## Data model -/

/-- Map coordinates (`tripoint`). -/
structure tripoint where
  x : Int
  y : Int
  z : Int
deriving DecidableEq

/-- Effects the code of this file asks about. -/
inductive efftype_id where
  | amigara | glowing | harnessed | onfire | pet | relax_gas | ridden | stunned
deriving DecidableEq

/-- Traits and mutations the code of this file asks about. -/
inductive trait_id where
  | BURROW | GRAZER | RUMINANT | SHELL2
deriving DecidableEq

/-- Terrain flags (both the `TFLAG_` enumerators and the string flags). -/
inductive ter_flag where
  | RAMP_UP | RAMP_DOWN | MINEABLE | DEEP_WATER | RAMP | RAMP_END | SWIMMABLE
deriving DecidableEq

/-- Terrain ids compared against in this file; `other` stands for the rest. -/
inductive ter_id where
  | t_fault
  | t_door_locked | t_door_locked_peep | t_door_locked_alarm | t_door_locked_interior
  | t_door_bar_locked
  | t_underbrush | t_shrub | t_grass | t_grass_long | t_grass_tall | t_dirt
  | t_grass_golf | t_grass_dead | t_grass_white
  | other (n : Nat)
deriving DecidableEq

/-- Furniture ids compared against in this file. -/
inductive furn_id where
  | f_safe_c
  | other (n : Nat)
deriving DecidableEq

/-- Sprite facing. -/
inductive facing_direction where
  | FD_LEFT | FD_RIGHT
deriving DecidableEq

/-- Message classes of `add_msg`; the one-argument overload is `m_neutral`. -/
inductive game_message_type where
  | m_neutral | m_warning | m_info | m_good | m_bad
deriving DecidableEq

/-- Body parts named in `swim`. -/
inductive body_part where
  | bp_leg_l | bp_leg_r | bp_torso | bp_arm_l | bp_arm_r | bp_foot_l | bp_foot_r
  | bp_hand_l | bp_hand_r | bp_head | bp_eyes | bp_mouth
deriving DecidableEq

/-- What `move` and `plthrow` read from an item. -/
structure item where
  flag_DIG_TOOL : Bool
  can_use_JACKHAMMER : Bool
  ammo_sufficient : Bool
  can_use_PICKAXE : Bool
  charges : Int
  count_by_charges : Bool
  flag_NO_UNWIELD : Bool
  two_handed : Bool
  tname : String
  typeId : Nat
deriving DecidableEq

/-- Where an item is (`item_location`): nowhere, the avatar's weapon slot
`you.weapon`, or any other place, told apart by a number. -/
inductive item_location where
  | nowhere
  | weapon
  | slot (id : Nat)
deriving DecidableEq

/-- The two foods `eat_here` makes. -/
inductive food_kind where
  | underbrush | grass
deriving DecidableEq

/-- The avatar: public fields and the answers of its `const` accessors. -/
structure avatar where
  position : tripoint
  moves : Int
  facing : facing_direction
  oxygen : Int
  str_cur : Int
  in_vehicle : Bool
  underwater : Bool
  effects : efftype_id → Bool
  active_mutation : trait_id → Bool
  trait : trait_id → Bool
  mounted_creature : Option Nat
  auto_moving : Bool
  blind : Bool
  mode_walk : Bool
  swim_speed : Int
  size : Int
  swim_fins : Int
  weapon : item
  armed : Bool
  stored_kcal : Int
  max_stored_kcal : Int
  working_arm_count : Int
  throw_range : item → Int
  is_wielding : item_location → Bool
  is_wearing : Nat → Bool
  can_takeoff : item → Bool × String
  item_handling_cost : item → Int

/-- A monster, as far as this file looks at it. -/
structure monster where
  friendly : Int
  effects : efftype_id → Bool
  immobile : Bool
  hallucination : Bool
  dead : Bool
  facing : facing_direction
  swims : Bool
  size : Int
  name : String
  get_name : String
  rideable_mech : Bool
  mech_powered : Bool

/-- An NPC, as far as this file looks at it. -/
structure npc where
  enemy : Bool

/-- A vehicle, as far as this file looks at it. -/
structure vehicle where
  velocity : Int
  in_water : Bool
  name : String
  next_part_to_open : Int → Bool → Int
  part_open : Int → Bool
  part_name : Int → String

/-- The value of `optional_vpart_position` when a vehicle part is present:
the vehicle (by identity), the part index and whether an enabled BOARDABLE
part is found there. -/
structure vpart_position where
  veh : Nat
  part_index : Int
  boardable : Bool

/-- The map: terrain, furniture, flags, vehicles (`const` reads only).
`MAPSIZE_X`, `MAPSIZE_Y` and the two point ranges come from headers outside
this file and are carried as data. -/
structure map where
  ter : tripoint → ter_id
  furn : tripoint → furn_id
  has_flag : ter_flag → tripoint → Bool
  veh_at : tripoint → Option vpart_position
  vehicles : Nat → vehicle
  passable : tripoint → Bool
  passable_ter_furn : tripoint → Bool
  has_floor_or_support : tripoint → Bool
  is_outside : tripoint → Bool
  obstacle_name : tripoint → String
  tername : tripoint → String
  ter_name : ter_id → String
  MAPSIZE_X : Int
  MAPSIZE_Y : Int
  points_in_rectangle : tripoint → tripoint → List tripoint
  points_in_radius : tripoint → Nat → List tripoint

/-- The game object and global options (`const` reads only). -/
structure game where
  critter_at : tripoint → Bool
  monster_at : tripoint → Option Nat
  npc_at : tripoint → Option Nat
  monsters : Nat → monster
  npcs : Nat → npc
  mostseen : Int
  tile_iso : Bool
  trigdist : Bool
  AUTO_FEATURES : Bool
  AUTO_MINING : Bool
  press_x_MOVE_DOWN : String
  press_x_MOVE_UP : String
  kcal_underbrush : Int
  kcal_grass : Int

/-- Everything collaborators can read and change.  `rng_draws` is the stream of
raw values the random engine will produce, `answers` the stream of answers the
player will give to yes/no prompts, `items` the items lying in the places other
than the avatar's weapon slot. -/
structure world where
  you : avatar
  m : map
  g : game
  rng_draws : Nat → Nat
  answers : Nat → Bool
  items : Nat → Option item

/-- Calls into collaborators that are not `const`. -/
inductive call where
  | check_safe_mode_allowed
  | invoke_item_weapon (method : String) (p : tripoint)
  | invoke_item_fake_burrowing (method : String) (p : tripoint)
  | defer_move (p : tripoint)
  | disable_robot (p : tripoint)
  | move_effects (attacking : Bool)
  | clear_destination
  | melee_attack_monster (id : Nat) (allow_special : Bool)
  | melee_attack_npc (id : Nat) (allow_special : Bool)
  | monster_die (id : Nat)
  | draw_hit_mon (p : tripoint) (id : Nat) (dead : Bool)
  | npc_menu (id : Nat)
  | make_angry (id : Nat)
  | moving_vehicle_dismount (p : tripoint)
  | check_mount_will_move (p : tripoint)
  | on_move_effects
  | open_door (p : tripoint) (inside : Bool)
  | walk_move (p : tripoint) (via_ramp : Bool)
  | handle_potential_theft (veh : Nat)
  | open_all_at (veh : Nat) (part : Int)
  | veh_open (veh : Nat) (part : Int)
  | practice_swimming (amount : Int)
  | unboard_vehicle (p : tripoint)
  | update_map
  | avatar_moves (p : tripoint)
  | board_vehicle (p : tripoint)
  | rust_iron_items
  | burn_move_stamina (moves : Int)
  | drench (saturation : Int) (flags : List body_part) (ignore_waterproof : Bool)
  | eat (food : food_kind)
  | titled_menu
  | wield (loc : item_location)
  | mode_throw (loc : item_location) (blind : Bool)
  | throw_item (target : tripoint) (thrown : item) (blind_throw_from_pos : Option tripoint)
  | reenter_fullscreen
  | gunmode_checks_common (mode : Nat)
deriving DecidableEq

/-- The observable record of one run. -/
inductive event where
  | msg (type : game_message_type) (text : String)
  | debugmsg (text : String)
  | popup (text : String)
  | query_yn (text : String) (answer : Bool)
  | called (c : call)
deriving DecidableEq

/-- The collaborators: what each call does to the world and what it returns
(the result of a `void` call is ignored), and the distance `rl_dist`.  Three
calls return more than a truth value: `pick_item` is the location the item menu
returns, `pick_trajectory` the trajectory target selection returns, and
`check_messages` the messages a gun-mode check appends to its output vector;
each is read off the world in which the call is made. -/
structure services where
  run : call → world → Bool × world
  rl_dist : tripoint → tripoint → Int
  pick_item : world → item_location
  pick_trajectory : item_location → Bool → world → List tripoint
  check_messages : Nat → world → List String

/-- World plus the trace of events so far (oldest first). -/
structure state where
  w : world
  trace : List event

/-- Outcome of a segment of `move`: it has returned, or control goes on with
the locals `x`. -/
inductive flow (α : Type) where
  | done (ret : Bool) (st : state)
  | next (st : state) (x : α)

/-- Run the rest of the function when a segment has not returned. -/
def flow.finish {α : Type} (f : flow α) (k : state → α → Bool × state) : Bool × state :=
  match f with
  | flow.done r st => (r, st)
  | flow.next st x => k st x

/-- Chain two segments. -/
def flow.andThen {α β : Type} (f : flow α) (k : state → α → flow β) : flow β :=
  match f with
  | flow.done r st => flow.done r st
  | flow.next st x => k st x

/-! ## Primitives -/

/-- The constant `INT_MAX` of a 32-bit `int`. -/
def INT_MAX : Int := 2147483647

/-- The value a 32-bit `int` holds after an operation whose exact result is
`v`: the representative of `v` modulo 2^32 between -2^31 and 2^31 - 1. -/
def wrap_int (v : Int) : Int :=
  (v + 2147483648) % 4294967296 - 2147483648

/-- The function `std::abs` on a 32-bit `int`: the negation is made in `int`,
so that the most negative value is returned as it is. -/
def std_abs (v : Int) : Int :=
  wrap_int (if v < 0 then -v else v)

/-- Record an event. -/
def emit (e : event) (st : state) : state :=
  { st with trace := st.trace ++ [e] }

/-- The message log: `add_msg( type, text )`. -/
def add_msg (t : game_message_type) (text : String) (st : state) : state :=
  emit (event.msg t text) st

/-- A collaborator call: recorded, then run on the world. -/
def invoke (sv : services) (c : call) (st : state) : Bool × state :=
  ((sv.run c st.w).1, { w := (sv.run c st.w).2, trace := st.trace ++ [event.called c] })

/-- Modelled from the spec: `rng( lo, hi )` (rng.h, not in this file) draws an
integer between `lo` and `hi` inclusive (the bounds are swapped when given in
the wrong order); here it takes the next raw value of the engine. -/
def rng (lo hi : Int) (st : state) : Int × state :=
  (min lo hi + ((st.w.rng_draws 0 : Int) % (max lo hi - min lo hi + 1)),
   { st with w := { st.w with rng_draws := fun n => st.w.rng_draws (n + 1) } })

/-- Modelled from the spec: `one_in( chance )` (rng.h, not in this file) is
true with probability one in `chance`: always when `chance <= 1`, otherwise when
`rng( 0, chance - 1 )` is zero. -/
def one_in (chance : Int) (st : state) : Bool × state :=
  if chance ≤ 1 then (true, st)
  else (decide ((rng 0 (chance - 1) st).1 = 0), (rng 0 (chance - 1) st).2)

/-- The yes/no prompt: takes the player's next answer and records the prompt. -/
def query_yn (text : String) (st : state) : Bool × state :=
  (st.w.answers 0,
   { w := { st.w with answers := fun n => st.w.answers (n + 1) },
     trace := st.trace ++ [event.query_yn text (st.w.answers 0)] })

/-- Assignment to `you.moves`. -/
def set_moves (v : Int) (st : state) : state :=
  { st with w := { st.w with you := { st.w.you with moves := v } } }

/-- The statement `you.moves -= n` for an integer `n`. -/
def sub_moves (n : Int) (st : state) : state :=
  set_moves (st.w.you.moves - n) st

/-- The call `you.setpos( p )`. -/
def setpos (p : tripoint) (st : state) : state :=
  { st with w := { st.w with you := { st.w.you with position := p } } }

/-- Assignment to `you.facing`. -/
def set_facing (f : facing_direction) (st : state) : state :=
  { st with w := { st.w with you := { st.w.you with facing := f } } }

/-- Assignment to the facing of monster `id`. -/
def set_monster_facing (id : Nat) (f : facing_direction) (st : state) : state :=
  { st with w := { st.w with g := { st.w.g with
      monsters := fun i => if i = id then { st.w.g.monsters i with facing := f }
                           else st.w.g.monsters i } } }

/-- The statement `you.mounted_creature->facing = f` under `if( is_riding )`. -/
def set_mount_facing (is_riding : Bool) (f : facing_direction) (st : state) : state :=
  if is_riding then
    match st.w.you.mounted_creature with
    | some id => set_monster_facing id f st
    | none => st
  else st

/-- The accessor `you.is_mounted()`: the avatar has a mounted creature. -/
def is_mounted (st : state) : Bool := st.w.you.mounted_creature.isSome

/-- The expression `veh_pointer_or_null( m.veh_at( p ) )`: the vehicle at `p`, by identity. -/
def veh_pointer_or_null (st : state) (p : tripoint) : Option Nat :=
  (st.w.m.veh_at p).map (fun vp => vp.veh)

/-- The expression `m.veh_at( p ).part_with_feature( BOARDABLE, true )` as a truth value. -/
def boardable_at (st : state) (p : tripoint) : Bool :=
  match st.w.m.veh_at p with
  | some vp => vp.boardable
  | none => false

/-! ## `avatar_action::swim` -/

/-- The value `static_cast<int>( moves - c * M_SQRT2 )`, computed in exact
arithmetic (the conversion to `int` truncates toward zero).  `Nat.sqrt` of
twice the square is the integer part of the product with the square root of
two. -/
def sub_times_sqrt2 (moves c : Int) : Int :=
  if c = 0 then moves
  else if 0 < c then
    (if moves - (Nat.sqrt (2 * c.natAbs * c.natAbs) : Int) ≤ 0
      then moves - (Nat.sqrt (2 * c.natAbs * c.natAbs) : Int)
      else moves - (Nat.sqrt (2 * c.natAbs * c.natAbs) : Int) - 1)
  else
    (if 0 ≤ moves + (Nat.sqrt (2 * c.natAbs * c.natAbs) : Int)
      then moves + (Nat.sqrt (2 * c.natAbs * c.natAbs) : Int)
      else moves + (Nat.sqrt (2 * c.natAbs * c.natAbs) : Int) + 1)

/-- The statement
`you.moves -= ( movecost > 200 ? 200 : movecost ) * ( trigdist && diagonal ? M_SQRT2 : 1 )`. -/
def swim_pay (movecost : Int) (diagonal : Bool) (st : state) : state :=
  if st.w.g.trigdist && diagonal then
    set_moves (sub_times_sqrt2 st.w.you.moves (if movecost > 200 then 200 else movecost)) st
  else
    sub_moves (if movecost > 200 then 200 else movecost) st

/-- Removal of an effect from the avatar (`you.remove_effect( e )`). -/
def remove_effect (e : efftype_id) (st : state) : state :=
  { st with w := { st.w with you := { st.w.you with
      effects := fun x => if x = e then false else st.w.you.effects x } } }

/-- Removal of an effect from monster `id` (`mon->remove_effect( e )`). -/
def monster_remove_effect (id : Nat) (e : efftype_id) (st : state) : state :=
  { st with w := { st.w with g := { st.w.g with
      monsters := fun i => if i = id then
          { st.w.g.monsters i with
            effects := fun x => if x = e then false else (st.w.g.monsters i).effects x }
        else st.w.g.monsters i } } }

/-- Lines 495-508 of `swim`: the water puts out fire and washes off glowing goo. -/
def swim_wash (st : state) : state :=
  let s1 :=
    if st.w.you.effects efftype_id.onfire then
      let a := remove_effect efftype_id.onfire
                (add_msg game_message_type.m_neutral "The water puts out the flames!" st)
      match a.w.you.mounted_creature with
      | some id =>
        if (a.w.g.monsters id).effects efftype_id.onfire
          then monster_remove_effect id efftype_id.onfire a else a
      | none => a
    else st
  if s1.w.you.effects efftype_id.glowing then
    remove_effect efftype_id.glowing
      (add_msg game_message_type.m_neutral "The water washes off the glowing goo!" s1)
  else s1

/-- The body of the sinking branch (lines 515-518); the sum
`30 + 2 * you.str_cur` is made in 32-bit `int`. -/
def swim_sink_body (st : state) : state :=
  let a := add_msg game_message_type.m_bad "You sink like a rock!" st
  { a with w := { a.w with you := { a.w.you with
      underwater := true, oxygen := wrap_int (30 + 2 * a.w.you.str_cur) } } }

/-- Lines 511-520 of `swim`: a poor swimmer without fins sinks. -/
def swim_sink (movecost : Int) (st : state) : state :=
  if movecost ≥ 500 then
    if st.w.you.underwater then st
    else if st.w.you.swim_fins = 2 then st
    else if st.w.you.swim_fins = 1 then
      (if (one_in 2 st).1 then (one_in 2 st).2 else swim_sink_body (one_in 2 st).2)
    else swim_sink_body st
  else st

/-- Lines 521-527 of `swim`: the out-of-breath popups. -/
def swim_breath (movecost : Int) (st : state) : state :=
  if st.w.you.oxygen ≤ 5 && st.w.you.underwater then
    if movecost < 500 then
      emit (event.popup ("You need to breathe!  (" ++ st.w.g.press_x_MOVE_UP ++ " to surface.)")) st
    else
      emit (event.popup "You need to breathe but you can't swim!  Get to dry land, quick!") st
  else st

/-- The body-part set passed to `drench` (lines 556-564). -/
def drenchFlags (underwater : Bool) : List body_part :=
  [body_part.bp_leg_l, body_part.bp_leg_r, body_part.bp_torso, body_part.bp_arm_l,
   body_part.bp_arm_r, body_part.bp_foot_l, body_part.bp_foot_r, body_part.bp_hand_l,
   body_part.bp_hand_r] ++
  (if underwater then [body_part.bp_head, body_part.bp_eyes, body_part.bp_mouth] else [])

/-- Lines 541-565 of `swim`: the move itself, its cost and the drenching. -/
def swim_arrive (sv : services) (movecost : Int) (diagonal : Bool) (p : tripoint)
    (st : state) : state :=
  let s1 := (invoke sv (call.avatar_moves p) (invoke sv call.update_map (setpos p st)).2).2
  let s2 := if boardable_at s1 s1.w.you.position
            then (invoke sv (call.board_vehicle s1.w.you.position) s1).2 else s1
  let s3 := (invoke sv call.rust_iron_items (swim_pay movecost diagonal s2)).2
  let s4 := if !is_mounted s3 then (invoke sv (call.burn_move_stamina movecost) s3).2 else s3
  (invoke sv (call.drench 100 (drenchFlags s4.w.you.underwater) true) s4).2

/-- Lines 528-540 of `swim`: leaving a vehicle and the two early returns. -/
def swim_board (sv : services) (movecost : Int) (p : tripoint) (st : state) : state :=
  let diagonal : Bool := decide (p.x ≠ st.w.you.position.x) && decide (p.y ≠ st.w.you.position.y)
  let s1 := if st.w.you.in_vehicle
            then (invoke sv (call.unboard_vehicle st.w.you.position) st).2 else st
  if is_mounted s1 && boardable_at s1 s1.w.you.position then
    add_msg game_message_type.m_warning "You cannot board a vehicle while mounted." s1
  else
    match s1.w.m.veh_at p with
    | some vp =>
      if vp.boardable then
        (if !(invoke sv (call.handle_potential_theft vp.veh) s1).1
          then (invoke sv (call.handle_potential_theft vp.veh) s1).2
          else swim_arrive sv movecost diagonal p
                 (invoke sv (call.handle_potential_theft vp.veh) s1).2)
      else swim_arrive sv movecost diagonal p s1
    | none => swim_arrive sv movecost diagonal p s1

/-- The function `avatar_action::swim( m, you, p )`. -/
def swim (sv : services) (st : state) (p : tripoint) : state :=
  if !st.w.m.has_flag ter_flag.SWIMMABLE p then
    emit (event.debugmsg ("Tried to swim in " ++ st.w.m.tername p ++ "!")) st
  else
    let s1 := swim_wash st
    let movecost := s1.w.you.swim_speed
    let s2 := (invoke sv (call.practice_swimming (if s1.w.you.underwater then 2 else 1)) s1).2
    swim_board sv movecost p (swim_breath movecost (swim_sink movecost s2))

/-! ## `avatar_action::move` -/

/-- Locals of `move` that live across its segments. -/
structure locals where
  dest_loc : tripoint
  via_ramp : Bool
  is_riding : Bool

/-- Locals of the vehicle pre-action check (lines 306-318). -/
structure veh_locals where
  veh0 : Option Nat
  vp1 : Option vpart_position
  dpart : Int
  veh_closed_door : Bool
  outside_vehicle : Bool

/-- Lines 99-108: the destination before any ramp adjustment. -/
def move_dest (st : state) (d : tripoint) : tripoint × state :=
  if d.z = 0 ∧ st.w.you.effects efftype_id.stunned = true then
    let rx := rng (st.w.you.position.x - 1) (st.w.you.position.x + 1) st
    let ry := rng (rx.2.w.you.position.y - 1) (rx.2.w.you.position.y + 1) rx.2
    (⟨rx.1, ry.1, ry.2.w.you.position.z⟩, ry.2)
  else
    (⟨st.w.you.position.x + d.x, st.w.you.position.y + d.y, st.w.you.position.z + d.z⟩, st)

/-- Lines 90-113: safe mode, the shell, the destination, the trivial move. -/
def move_begin (sv : services) (st : state) (d : tripoint) : flow locals :=
  let c := invoke sv call.check_safe_mode_allowed st
  if !c.1 || c.2.w.you.active_mutation trait_id.SHELL2 then
    flow.done false
      (if c.2.w.you.active_mutation trait_id.SHELL2 then
        add_msg game_message_type.m_warning
          "You can't move while in your shell.  Deactivate it to go mobile." c.2
       else c.2)
  else
    let dd := move_dest c.2 d
    if dd.1 = dd.2.w.you.position then flow.done true dd.2
    else flow.next dd.2 { dest_loc := dd.1, via_ramp := false, is_riding := is_mounted c.2 }

/-- Lines 114-121: a ramp at the destination shifts it one level. -/
def move_ramp (st : state) (l : locals) : locals :=
  if st.w.m.has_flag ter_flag.RAMP_UP l.dest_loc then
    { l with dest_loc := { l.dest_loc with z := l.dest_loc.z + 1 }, via_ramp := true }
  else if st.w.m.has_flag ter_flag.RAMP_DOWN l.dest_loc then
    { l with dest_loc := { l.dest_loc with z := l.dest_loc.z - 1 }, via_ramp := true }
  else l

/-- Lines 123-147: automatic mining with a tool or by burrowing. -/
def move_mining (sv : services) (st : state) (l : locals) : flow locals :=
  if st.w.m.has_flag ter_flag.MINEABLE l.dest_loc && decide (st.w.g.mostseen = 0) &&
     st.w.g.AUTO_FEATURES && st.w.g.AUTO_MINING &&
     (st.w.m.veh_at l.dest_loc).isNone && !st.w.you.underwater &&
     !st.w.you.effects efftype_id.stunned && !l.is_riding then
    if st.w.you.weapon.flag_DIG_TOOL &&
       (st.w.you.weapon.can_use_JACKHAMMER && st.w.you.weapon.ammo_sufficient) then
      flow.done true (invoke sv (call.defer_move l.dest_loc)
        (invoke sv (call.invoke_item_weapon "JACKHAMMER" l.dest_loc) st).2).2
    else if st.w.you.weapon.flag_DIG_TOOL && st.w.you.weapon.can_use_PICKAXE then
      flow.done true (invoke sv (call.defer_move l.dest_loc)
        (invoke sv (call.invoke_item_weapon "PICKAXE" l.dest_loc) st).2).2
    else if st.w.you.trait trait_id.BURROW then
      flow.done true (invoke sv (call.defer_move l.dest_loc)
        (invoke sv (call.invoke_item_fake_burrowing "BURROW" l.dest_loc) st).2).2
    else flow.next st l
  else flow.next st l

/-- Lines 149-209: the sprite (and the mount) turn toward the attempted step. -/
def move_facing (st : state) (l : locals) : state :=
  let new_d_x := l.dest_loc.x + -st.w.you.position.x
  let new_d_y := l.dest_loc.y + -st.w.you.position.y
  if !st.w.g.tile_iso then
    if new_d_x > 0 then
      set_mount_facing l.is_riding facing_direction.FD_RIGHT
        (set_facing facing_direction.FD_RIGHT st)
    else if new_d_x < 0 then
      set_mount_facing l.is_riding facing_direction.FD_LEFT
        (set_facing facing_direction.FD_LEFT st)
    else st
  else
    let s1 :=
      if new_d_x ≥ 0 ∧ new_d_y ≥ 0 then
        set_mount_facing l.is_riding facing_direction.FD_RIGHT
          (set_facing facing_direction.FD_RIGHT st)
      else st
    if new_d_y ≤ 0 ∧ new_d_x ≤ 0 then
      set_mount_facing l.is_riding facing_direction.FD_LEFT
        (set_facing facing_direction.FD_LEFT s1)
    else s1

/-- One iteration of the loop of lines 216-227 on the pair `(curdist, newdist)`. -/
def fault_step (sv : services) (st : state) (dest_loc : tripoint)
    (acc : Int × Int) (pt : tripoint) : Int × Int :=
  if st.w.m.ter pt = ter_id.t_fault then
    (if sv.rl_dist pt st.w.you.position < acc.1 then sv.rl_dist pt st.w.you.position else acc.1,
     if sv.rl_dist pt dest_loc < acc.2 then sv.rl_dist pt dest_loc else acc.2)
  else acc

/-- Lines 212-227: `(curdist, newdist)` after the loop over the z-level. -/
def fault_dists (sv : services) (st : state) (dest_loc : tripoint) : Int × Int :=
  (st.w.m.points_in_rectangle ⟨0, 0, st.w.you.position.z⟩
      ⟨st.w.m.MAPSIZE_X, st.w.m.MAPSIZE_Y, st.w.you.position.z⟩).foldl
    (fault_step sv st dest_loc) (INT_MAX, INT_MAX)

/-- Lines 211-232: the pull of the faultline. -/
def move_amigara (sv : services) (st : state) (l : locals) : flow locals :=
  if st.w.you.effects efftype_id.amigara then
    if (fault_dists sv st l.dest_loc).2 > (fault_dists sv st l.dest_loc).1 then
      flow.done false
        (add_msg game_message_type.m_info "You cannot pull yourself away from the faultline…" st)
    else flow.next st l
  else flow.next st l

/-- Lines 234-238: a robot to disable at the destination. -/
def move_robot (sv : services) (st : state) (l : locals) : flow locals :=
  if (invoke sv (call.disable_robot l.dest_loc) st).1
    then flow.done false (invoke sv (call.disable_robot l.dest_loc) st).2
    else flow.next (invoke sv (call.disable_robot l.dest_loc) st).2 l

/-- Lines 243-251: effects that hold the avatar in place. -/
def move_effects_check (sv : services) (st : state) (l : locals) : flow locals :=
  if !(invoke sv (call.move_effects (st.w.g.critter_at l.dest_loc)) st).1 then
    flow.done false
      (sub_moves 100 (invoke sv (call.move_effects (st.w.g.critter_at l.dest_loc)) st).2)
  else flow.next (invoke sv (call.move_effects (st.w.g.critter_at l.dest_loc)) st).2 l

/-- Lines 273-277: the melee attack on monster `id` and its aftermath. -/
def move_melee (sv : services) (dest_loc : tripoint) (id : Nat) (st : state) : state :=
  let s1 := (invoke sv (call.melee_attack_monster id true) st).2
  let s2 := if (s1.w.g.monsters id).hallucination
            then (invoke sv (call.monster_die id) s1).2 else s1
  (invoke sv (call.draw_hit_mon dest_loc id (s2.w.g.monsters id).dead) s2).2

/-- Lines 264-278: moving into a hostile monster when not auto-moving. -/
def move_attack (sv : services) (dest_loc : tripoint) (id : Nat) (st : state) : state :=
  if st.w.you.effects efftype_id.relax_gas then
    if (one_in 8 st).1 then
      move_melee sv dest_loc id
        (add_msg game_message_type.m_good "Your willpower asserts itself, and so do you!"
          (one_in 8 st).2)
    else
      add_msg game_message_type.m_bad "You're too pacified to strike anything…"
        (sub_moves ((rng 2 8 (one_in 8 st).2).1 * 10) (rng 2 8 (one_in 8 st).2).2)
  else move_melee sv dest_loc id st

/-- Lines 253-285: a monster at the destination. -/
def move_monster (sv : services) (st : state) (l : locals) : flow locals :=
  match st.w.g.monster_at l.dest_loc with
  | none => flow.next st l
  | some id =>
    if (st.w.g.monsters id).friendly = 0 ∧
       (st.w.g.monsters id).effects efftype_id.pet = false then
      if st.w.you.auto_moving then
        flow.done false (invoke sv call.clear_destination
          (add_msg game_message_type.m_info "Move into the monster to attack."
            (add_msg game_message_type.m_warning "Monster in the way.  Auto-move canceled." st))).2
      else flow.done false (move_attack sv l.dest_loc id st)
    else if (st.w.g.monsters id).immobile ||
            (st.w.g.monsters id).effects efftype_id.harnessed ||
            (st.w.g.monsters id).effects efftype_id.ridden then
      flow.done false (add_msg game_message_type.m_info
        ("You can't displace your " ++ (st.w.g.monsters id).name ++ ".") st)
    else flow.next st l

/-- Lines 286-304: an NPC at the destination. -/
def move_npc (sv : services) (st : state) (l : locals) : flow locals :=
  match st.w.g.npc_at l.dest_loc with
  | none => flow.next st l
  | some id =>
    if st.w.you.auto_moving then
      flow.done false (invoke sv call.clear_destination
        (add_msg game_message_type.m_info "Move into the NPC to interact or attack."
          (add_msg game_message_type.m_neutral "NPC in the way, Auto-move canceled." st))).2
    else if !(st.w.g.npcs id).enemy then
      flow.done false (invoke sv (call.npc_menu id) st).2
    else
      flow.done false (invoke sv (call.make_angry id)
        (invoke sv (call.melee_attack_npc id true) st).2).2

/-- The statement `if( you.is_auto_moving() ) { you.defer_move( dest_loc ); }`. -/
def defer_if_auto (sv : services) (dest_loc : tripoint) (st : state) : state :=
  if st.w.you.auto_moving then (invoke sv (call.defer_move dest_loc) st).2 else st

/-- Lines 306-318: which vehicles the step leaves and enters, and the door to open. -/
def veh_check (st : state) (dest_loc : tripoint) : veh_locals :=
  let veh0 := veh_pointer_or_null st st.w.you.position
  let vp1 := st.w.m.veh_at dest_loc
  let veh1 := veh_pointer_or_null st dest_loc
  let outside_vehicle : Bool := decide (veh0 = none) || decide (veh0 ≠ veh1)
  let dpart : Int :=
    match vp1 with
    | some vp => (st.w.m.vehicles vp.veh).next_part_to_open vp.part_index outside_vehicle
    | none => -1
  let veh_closed_door : Bool :=
    match vp1 with
    | some vp => decide (dpart ≥ 0) && !(st.w.m.vehicles vp.veh).part_open dpart
    | none => false
  { veh0 := veh0, vp1 := vp1, dpart := dpart, veh_closed_door := veh_closed_door,
    outside_vehicle := outside_vehicle }

/-- Lines 320-333: no stepping around on a fast vehicle. -/
def move_fast_vehicle (sv : services) (st : state) (l : locals) (v : veh_locals) :
    flow (locals × veh_locals) :=
  match v.veh0 with
  | none => flow.next st (l, v)
  | some v0 =>
    if std_abs (st.w.m.vehicles v0).velocity > 100 then
      match v.vp1 with
      | none =>
        flow.done false
          (if (query_yn "Dive from moving vehicle?" st).1
            then (invoke sv (call.moving_vehicle_dismount l.dest_loc)
                    (query_yn "Dive from moving vehicle?" st).2).2
            else (query_yn "Dive from moving vehicle?" st).2)
      | some p1 =>
        if p1.veh ≠ v0 then
          flow.done false
            (add_msg game_message_type.m_info "There is another vehicle in the way." st)
        else if !p1.boardable then
          flow.done false
            (add_msg game_message_type.m_info "That part of the vehicle is currently unsafe." st)
        else flow.next st (l, v)
    else flow.next st (l, v)

/-- Lines 306-333: the vehicle pre-action check. -/
def move_vehicle (sv : services) (st : state) (l : locals) : flow (locals × veh_locals) :=
  move_fast_vehicle sv st l (veh_check st l.dest_loc)

/-- Whether vehicle `v` is present and in water (`veh != nullptr && veh->is_in_water()`). -/
def is_boat (st : state) (v : Option Nat) : Bool :=
  match v with
  | some id => (st.w.m.vehicles id).in_water
  | none => false

/-- Line 354: the mount refuses deep water (it cannot swim or is too small). -/
def mount_cannot_swim (st : state) : Bool :=
  match st.w.you.mounted_creature with
  | some id => !(st.w.g.monsters id).swims ||
               decide ((st.w.g.monsters id).size < st.w.you.size + 2)
  | none => false

/-- The name used in the message of line 355. -/
def mount_name (st : state) : String :=
  match st.w.you.mounted_creature with
  | some id => (st.w.g.monsters id).get_name
  | none => ""

/-- Lines 360-364: the hint shown to a capable swimmer entering from the surface;
`surface` is `!fromDeepWater || fromBoat`. -/
def dive_announce (surface : Bool) (st : state) : state :=
  if surface && decide (st.w.you.swim_speed < 500) then
    add_msg game_message_type.m_info (st.w.g.press_x_MOVE_DOWN ++ " to dive underwater.")
      (add_msg game_message_type.m_neutral "You start swimming." st)
  else st

/-- Lines 359-369: the dive itself; `already` is
`fromSwimmable && fromDeepWater && !fromBoat`, `surface` is `!fromDeepWater || fromBoat`.
The prompt is only evaluated when `already` is false. -/
def move_dive (sv : services) (st : state) (dest_loc : tripoint) (already surface : Bool) :
    state :=
  if already then
    (invoke sv call.on_move_effects (swim sv (dive_announce surface st) dest_loc)).2
  else if (query_yn "Dive into the water?" st).1 then
    (invoke sv call.on_move_effects
      (swim sv (dive_announce surface (query_yn "Dive into the water?" st).2) dest_loc)).2
  else (invoke sv call.on_move_effects (query_yn "Dive into the water?" st).2).2

/-- Lines 340-341: the mount, if any, is asked whether it will move. -/
def mount_consent (sv : services) (st : state) (l : locals) : Bool × state :=
  if l.is_riding then invoke sv (call.check_mount_will_move l.dest_loc) st else (true, st)

/-- Lines 334-370: the mount's consent and diving into deep water. -/
def move_water (sv : services) (st : state) (x : locals × veh_locals) :
    flow (locals × veh_locals) :=
  let toSwimmable := st.w.m.has_flag ter_flag.SWIMMABLE x.1.dest_loc
  let toDeepWater := st.w.m.has_flag ter_flag.DEEP_WATER x.1.dest_loc
  let fromSwimmable := st.w.m.has_flag ter_flag.SWIMMABLE st.w.you.position
  let fromDeepWater := st.w.m.has_flag ter_flag.DEEP_WATER st.w.you.position
  let fromBoat := is_boat st x.2.veh0
  let toBoat := is_boat st (x.2.vp1.map (fun vp => vp.veh))
  let c := mount_consent sv st x.1
  if !c.1 then
    flow.done false
      (sub_moves 20 (if c.2.w.you.auto_moving then (invoke sv call.clear_destination c.2).2
                     else c.2))
  else if toSwimmable && toDeepWater && !toBoat then
    if x.1.is_riding && mount_cannot_swim c.2 then
      flow.done false (add_msg game_message_type.m_warning
        ("The " ++ mount_name c.2 ++ " cannot swim while it is carrying you!") c.2)
    else
      flow.done true (move_dive sv c.2 x.1.dest_loc
        (fromSwimmable && fromDeepWater && !fromBoat) (!fromDeepWater || fromBoat))
  else flow.next c.2 x

/-- Lines 388-406: a closed vehicle door at the destination (`veh1` is not null
whenever `veh_closed_door` is set). -/
def move_veh_door (sv : services) (st : state) (l : locals) (v : veh_locals) (veh1 : Nat) :
    state :=
  let t := invoke sv (call.handle_potential_theft veh1) st
  if !t.1 then t.2
  else
    defer_if_auto sv l.dest_loc (sub_moves 100
      (if v.outside_vehicle then (invoke sv (call.open_all_at veh1 v.dpart) t.2).2
       else
        add_msg game_message_type.m_neutral
          ("You open the " ++ ((invoke sv (call.veh_open veh1 v.dpart) t.2).2.w.m.vehicles veh1).name
            ++ "'s " ++
            ((invoke sv (call.veh_open veh1 v.dpart) t.2).2.w.m.vehicles veh1).part_name v.dpart
            ++ ".")
          (invoke sv (call.veh_open veh1 v.dpart) t.2).2))

/-- Lines 372-415: doors, walking, vehicle doors. -/
def move_doors (sv : services) (st : state) (x : locals × veh_locals) : flow locals :=
  let a := if st.w.m.passable_ter_furn x.1.dest_loc && st.w.you.mode_walk
           then invoke sv (call.open_door x.1.dest_loc (!st.w.m.is_outside st.w.you.position)) st
           else (false, st)
  if a.1 then flow.done true (defer_if_auto sv x.1.dest_loc (sub_moves 100 a.2))
  else
    let wm := invoke sv (call.walk_move x.1.dest_loc x.1.via_ramp) a.2
    if wm.1 then flow.done true wm.2
    else
      match (if x.2.veh_closed_door then x.2.vp1 else none) with
      | some vp => flow.done true (move_veh_door sv wm.2 x.1 x.2 vp.veh)
      | none =>
        let b := if wm.2.w.m.furn x.1.dest_loc ≠ furn_id.f_safe_c
                 then invoke sv (call.open_door x.1.dest_loc
                        (!wm.2.w.m.is_outside wm.2.w.you.position)) wm.2
                 else (false, wm.2)
        if b.1 then flow.done true (defer_if_auto sv x.1.dest_loc (sub_moves 100 b.2))
        else flow.next b.2 x.1

/-- Lines 417-432: the invalid move. -/
def move_tail (st : state) (l : locals) : Bool × state :=
  let waste_moves := st.w.you.blind || st.w.you.effects efftype_id.stunned
  if waste_moves || decide (l.dest_loc.z ≠ st.w.you.position.z) then
    let s1 := add_msg game_message_type.m_neutral
                ("You bump into the " ++ st.w.m.obstacle_name l.dest_loc ++ "!") st
    (false, if waste_moves then sub_moves 100 s1 else s1)
  else if st.w.m.ter l.dest_loc = ter_id.t_door_locked ∨
          st.w.m.ter l.dest_loc = ter_id.t_door_locked_peep ∨
          st.w.m.ter l.dest_loc = ter_id.t_door_locked_alarm ∨
          st.w.m.ter l.dest_loc = ter_id.t_door_locked_interior then
    (false, add_msg game_message_type.m_neutral "That door is locked!" st)
  else if st.w.m.ter l.dest_loc = ter_id.t_door_bar_locked then
    (false, add_msg game_message_type.m_neutral "You rattle the bars but the door is locked!" st)
  else (false, st)

/-- Lines 90-209: `move` up to the faultline check. -/
def move_upto_amigara (sv : services) (st : state) (d : tripoint) : flow locals :=
  ((move_begin sv st d).andThen (fun s l => move_mining sv s (move_ramp s l))).andThen
    (fun s l => flow.next (move_facing s l) l)

/-- Lines 90-251: `move` up to the check for a monster at the destination. -/
def move_upto_monster (sv : services) (st : state) (d : tripoint) : flow locals :=
  (((move_upto_amigara sv st d).andThen (move_amigara sv)).andThen (move_robot sv)).andThen
    (move_effects_check sv)

/-- Lines 90-304: `move` up to the vehicle pre-action check. -/
def move_upto_vehicle (sv : services) (st : state) (d : tripoint) : flow locals :=
  ((move_upto_monster sv st d).andThen (move_monster sv)).andThen (move_npc sv)

/-- Lines 90-333: `move` up to the water check. -/
def move_upto_water (sv : services) (st : state) (d : tripoint) : flow (locals × veh_locals) :=
  (move_upto_vehicle sv st d).andThen (move_vehicle sv)

/-- Lines 90-415: `move` up to the invalid-move tail. -/
def move_upto_tail (sv : services) (st : state) (d : tripoint) : flow locals :=
  ((move_upto_water sv st d).andThen (move_water sv)).andThen (move_doors sv)

/-- The function `avatar_action::move( you, m, d )`: result and final state. -/
def move (sv : services) (st : state) (d : tripoint) : Bool × state :=
  (move_upto_tail sv st d).finish move_tail

/-! ## `avatar_action::ramp_move` -/

/-- Lines 464-470: is there a ramp end next to the avatar and next to the destination? -/
def aligned_ramps (sv : services) (st : state) (dest_loc : tripoint) : Bool :=
  (st.w.m.points_in_radius st.w.you.position 1).any
    (fun pt => decide (sv.rl_dist pt dest_loc < 2) && st.w.m.has_flag ter_flag.RAMP_END pt)

/-- Lines 478-486: the climb. -/
def ramp_climb (sv : services) (st : state) (dest_loc : tripoint) : Bool × state :=
  let old_pos := st.w.you.position
  let r := move sv st ⟨dest_loc.x - st.w.you.position.x, dest_loc.y - st.w.you.position.y, 1⟩
  (true,
   if r.2.w.you.position ≠ old_pos
     then sub_moves (50 + (if aligned_ramps sv st dest_loc then 0 else 50)) r.2
     else r.2)

/-- The function `avatar_action::ramp_move( you, m, dest_loc )`. -/
def ramp_move (sv : services) (st : state) (dest_loc : tripoint) : Bool × state :=
  if dest_loc.z ≠ st.w.you.position.z then (false, st)
  else if !st.w.m.has_floor_or_support dest_loc then
    if st.w.m.has_flag ter_flag.RAMP ⟨dest_loc.x, dest_loc.y, dest_loc.z - 1⟩ then
      (true, (move sv st
        ⟨dest_loc.x - st.w.you.position.x, dest_loc.y - st.w.you.position.y, -1⟩).2)
    else (false, st)
  else if !st.w.m.has_flag ter_flag.RAMP st.w.you.position || st.w.m.passable dest_loc then
    (false, st)
  else if st.w.m.has_floor_or_support
      ⟨st.w.you.position.x, st.w.you.position.y, st.w.you.position.z + 1⟩ then
    (false, add_msg game_message_type.m_warning
      "You can't climb here - there's a ceiling above." st)
  else ramp_climb sv st dest_loc

/-! ## `can_fire_turret` -/

/-- The values of `turret_data::status` the code tells apart; `other` stands for
the rest (the `default` label of the switch). -/
inductive turret_status where
  | no_ammo | no_power | ready
  | other (n : Nat)
deriving DecidableEq

/-- A turret, as far as `can_fire_turret` looks at it: whether its base item is
a gun, the answer of `query()`, its name, and the gun modes of the base item in
the order `gun_all_modes()` lists them. -/
structure turret_data where
  base_is_gun : Bool
  query : turret_status
  name : String
  gun_all_modes : List Nat

/-- Lines 686-691: the loop over the gun modes.  It returns whether some mode
passed `gunmode_checks_common` (the loop stops at the first that does), the
messages collected so far, and the state. -/
def turret_modes (sv : services) (modes : List Nat) (messages : List String) (st : state) :
    Bool × List String × state :=
  match modes with
  | [] => (false, messages, st)
  | m :: rest =>
    if (invoke sv (call.gunmode_checks_common m) st).1 then
      (true, messages ++ sv.check_messages m st.w, (invoke sv (call.gunmode_checks_common m) st).2)
    else
      turret_modes sv rest (messages ++ sv.check_messages m st.w)
        (invoke sv (call.gunmode_checks_common m) st).2

/-- Lines 693-695: every collected message is shown. -/
def show_messages (messages : List String) (st : state) : state :=
  messages.foldl (fun s text => add_msg game_message_type.m_info text s) st

/-- Lines 674-682: relax gas may keep the avatar from aiming. -/
def turret_relax (st : state) : flow Unit :=
  if st.w.you.effects efftype_id.relax_gas then
    if (one_in 5 st).1 then
      flow.next (add_msg game_message_type.m_good "Your eyes steel, and you aim your weapon!"
        (one_in 5 st).2) ()
    else
      flow.done false
        (add_msg game_message_type.m_bad "You are too pacified to aim the turret…"
          (sub_moves ((rng 2 5 (one_in 5 st).2).1 * 10) (rng 2 5 (one_in 5 st).2).2))
  else flow.next st ()

/-- Lines 684-696: the gun modes are tried; the messages are shown if none passes. -/
def turret_try_modes (sv : services) (turret : turret_data) (st : state) : Bool × state :=
  if (turret_modes sv turret.gun_all_modes [] st).1 then
    (true, (turret_modes sv turret.gun_all_modes [] st).2.2)
  else
    (false, show_messages (turret_modes sv turret.gun_all_modes [] st).2.1
      (turret_modes sv turret.gun_all_modes [] st).2.2)

/-- The function `can_fire_turret( you, m, turret )`. -/
def can_fire_turret (sv : services) (st : state) (turret : turret_data) : Bool × state :=
  if !turret.base_is_gun then
    (false, emit (event.debugmsg "Expected turret base to be a gun.") st)
  else
    match turret.query with
    | turret_status.no_ammo =>
      (false, add_msg game_message_type.m_bad ("The " ++ turret.name ++ " is out of ammo.") st)
    | turret_status.no_power =>
      (false, add_msg game_message_type.m_bad ("The " ++ turret.name ++ " is not powered.") st)
    | turret_status.ready =>
      (turret_relax st).finish (fun s _ => turret_try_modes sv turret s)
    | turret_status.other _ =>
      (false, emit (event.debugmsg "Unknown turret status") st)

/-! ## `avatar_action::eat_here` -/

/-- The call `here.ter_set( p, t )`: the terrain at `p` becomes `t`. -/
def ter_set (p : tripoint) (t : ter_id) (st : state) : state :=
  { st with w := { st.w with m := { st.w.m with
      ter := fun q => if q = p then t else st.w.m.ter q } } }

/-- The test of lines 768-769 and 783-784: the stored kcal exceed the maximum
minus the default kcal of the food. -/
def too_full (st : state) (kcal : Int) : Bool :=
  decide (st.w.you.stored_kcal > st.w.you.max_stored_kcal - kcal)

/-- Lines 791-797: the grass under the avatar gets one step shorter. -/
def graze_down (st : state) : state :=
  if st.w.m.ter st.w.you.position = ter_id.t_grass_tall then
    ter_set st.w.you.position ter_id.t_grass_long st
  else if st.w.m.ter st.w.you.position = ter_id.t_grass_long then
    ter_set st.w.you.position ter_id.t_grass st
  else ter_set st.w.you.position ter_id.t_dirt st

/-- The function `avatar_action::eat_here( you )`. -/
def eat_here (sv : services) (st : state) : Bool × state :=
  if (st.w.you.active_mutation trait_id.RUMINANT || st.w.you.active_mutation trait_id.GRAZER) &&
     (decide (st.w.m.ter st.w.you.position = ter_id.t_underbrush) ||
      decide (st.w.m.ter st.w.you.position = ter_id.t_shrub)) then
    if too_full st st.w.g.kcal_underbrush then
      (true, add_msg game_message_type.m_neutral
        ("You're too full to eat the leaves from the " ++
          st.w.m.ter_name (st.w.m.ter st.w.you.position) ++ ".") st)
    else
      (true, (invoke sv (call.eat food_kind.underbrush)
        (add_msg game_message_type.m_neutral "You eat the underbrush."
          (ter_set st.w.you.position ter_id.t_grass (sub_moves 400 st)))).2)
  else if st.w.you.active_mutation trait_id.GRAZER &&
     (decide (st.w.m.ter st.w.you.position = ter_id.t_grass) ||
      decide (st.w.m.ter st.w.you.position = ter_id.t_grass_long) ||
      decide (st.w.m.ter st.w.you.position = ter_id.t_grass_tall)) then
    if too_full st st.w.g.kcal_grass then
      (true, add_msg game_message_type.m_neutral "You're too full to graze." st)
    else
      (true, graze_down (invoke sv (call.eat food_kind.grass)
        (add_msg game_message_type.m_neutral "You eat the grass." (sub_moves 400 st))).2)
  else if st.w.you.active_mutation trait_id.GRAZER then
    if st.w.m.ter st.w.you.position = ter_id.t_grass_golf then
      (true, add_msg game_message_type.m_neutral "This grass is too short to graze." st)
    else if st.w.m.ter st.w.you.position = ter_id.t_grass_dead then
      (true, add_msg game_message_type.m_neutral
        "This grass is dead and too mangled for you to graze." st)
    else if st.w.m.ter st.w.you.position = ter_id.t_grass_white then
      (true, add_msg game_message_type.m_neutral
        "This grass is tainted with paint and thus inedible." st)
    else (false, st)
  else (false, st)

/-! ## `avatar_action::plthrow` -/

/-- The value of a default-constructed `item`. -/
def null_item : item :=
  { flag_DIG_TOOL := false, can_use_JACKHAMMER := false, ammo_sufficient := false,
    can_use_PICKAXE := false, charges := 0, count_by_charges := false, flag_NO_UNWIELD := false,
    two_handed := false, tname := "none", typeId := 0 }

/-- The item a location points to, if any; the weapon slot holds an item when
the avatar is armed.  A location is valid (`if( loc )`) when this is not `none`. -/
def item_at (w : world) (loc : item_location) : Option item :=
  match loc with
  | item_location.nowhere => none
  | item_location.weapon => if w.you.armed then some w.you.weapon else none
  | item_location.slot i => w.items i

/-- The item read through a location (`*loc`). -/
def deref (w : world) (loc : item_location) : item :=
  (item_at w loc).getD null_item

/-- Modelled from the spec: `item::mod_charges` (item.h, not in this file); with
`-1` the item the location points to loses exactly one charge. -/
def mod_charges (loc : item_location) (n : Int) (st : state) : state :=
  match loc with
  | item_location.nowhere => st
  | item_location.weapon =>
    { st with w := { st.w with you := { st.w.you with
        weapon := { st.w.you.weapon with charges := st.w.you.weapon.charges + n } } } }
  | item_location.slot i =>
    { st with w := { st.w with
        items := fun j => if j = i then
            (st.w.items j).map (fun it => { it with charges := it.charges + n })
          else st.w.items j } }

/-- Modelled from the spec: `item_location::remove_item` (item_location.h, not
in this file); the item is removed from its location. -/
def remove_item (loc : item_location) (st : state) : state :=
  match loc with
  | item_location.nowhere => st
  | item_location.weapon =>
    { st with w := { st.w with you := { st.w.you with armed := false, weapon := null_item } } }
  | item_location.slot i =>
    { st with w := { st.w with items := fun j => if j = i then none else st.w.items j } }

/-- Lines 853-862: a mech without power refuses to move. -/
def mech_drained (st : state) : Bool :=
  match st.w.you.mounted_creature with
  | some id => (st.w.g.monsters id).rideable_mech && !(st.w.g.monsters id).mech_powered
  | none => false

/-- Lines 892-923: relax gas, taking the item off, and wielding it when the
avatar lacks a free hand.  `thrown` is the copy made at line 876. -/
def plthrow_ready (sv : services) (st : state) (loc : item_location) (thrown : item) :
    flow (item_location × item) :=
  let r : flow Unit :=
    if st.w.you.effects efftype_id.relax_gas then
      if (one_in 5 st).1 then
        flow.next (add_msg game_message_type.m_good
          "You concentrate mightily, and your body obeys!" (one_in 5 st).2) ()
      else
        flow.done false
          (add_msg game_message_type.m_bad "You can't muster up the effort to throw anything…"
            (sub_moves ((rng 2 5 (one_in 5 st).2).1 * 10) (rng 2 5 (one_in 5 st).2).2))
    else flow.next st ()
  r.andThen (fun s _ =>
    if s.w.you.is_wearing (deref s.w loc).typeId &&
       !(s.w.you.can_takeoff (deref s.w loc)).1 then
      flow.done false
        (add_msg game_message_type.m_info (s.w.you.can_takeoff (deref s.w loc)).2 s)
    else if !s.w.you.is_wielding loc &&
        decide (s.w.you.working_arm_count - (if s.w.you.armed then 1 else 0) -
                  (if s.w.you.weapon.two_handed then 1 else 0) <
                (if (deref s.w loc).two_handed then 2 else 1)) then
      if !(invoke sv (call.wield loc) s).1 then
        flow.done false
          (add_msg game_message_type.m_info
            ("You do not have enough free hands to throw " ++
              (deref (invoke sv (call.wield loc) s).2.w loc).tname ++ " without wielding it.")
            (invoke sv (call.wield loc) s).2)
      else flow.next (invoke sv (call.wield loc) s).2 (item_location.weapon, thrown)
    else flow.next s (loc, thrown))

/-- Lines 849-923: `plthrow` up to target selection.  The result holds the
location and the copy `thrown` of the item. -/
def plthrow_upto_aim (sv : services) (st : state) (loc : item_location) :
    flow (item_location × item) :=
  if st.w.you.active_mutation trait_id.SHELL2 then
    flow.done false (add_msg game_message_type.m_info
      "You can't effectively throw while you're in your shell." st)
  else if mech_drained st then
    flow.done false (add_msg game_message_type.m_bad
      ("Your " ++ mount_name st ++ " refuses to move as its batteries have been drained.") st)
  else
    let chosen : item_location × state :=
      if (item_at st.w loc).isNone
        then (sv.pick_item st.w, (invoke sv call.titled_menu st).2) else (loc, st)
    match item_at chosen.2.w chosen.1 with
    | none => flow.done false (add_msg game_message_type.m_neutral "Never mind." chosen.2)
    | some thrown =>
      if chosen.2.w.you.throw_range thrown < 0 then
        flow.done false
          (add_msg game_message_type.m_info "You don't have that item." chosen.2)
      else if chosen.2.w.you.throw_range thrown = 0 then
        flow.done false
          (add_msg game_message_type.m_info "That is too heavy to throw." chosen.2)
      else if chosen.2.w.you.is_wielding chosen.1 && thrown.flag_NO_UNWIELD then
        flow.done false
          (add_msg game_message_type.m_info "That's part of your body, you can't throw that!"
            chosen.2)
      else plthrow_ready sv chosen.2 chosen.1 thrown

/-- Lines 925-939: target selection, from the peeking position for a blind
throw.  The result is the trajectory and the state. -/
def plthrow_aim (sv : services) (st : state) (loc : item_location)
    (blind_throw_from_pos : Option tripoint) : List tripoint × state :=
  let original_player_position := st.w.you.position
  let s1 := match blind_throw_from_pos with
    | some p => setpos p st
    | none => st
  let s2 := (invoke sv (call.mode_throw loc blind_throw_from_pos.isSome) s1).2
  (sv.pick_trajectory loc blind_throw_from_pos.isSome s1.w,
   match blind_throw_from_pos with
   | some _ => setpos original_player_position s2
   | none => s2)

/-- Lines 945-949: the cost of handling an item that is not the wielded one
(`you.mod_moves( -extra_cost )`). -/
def plthrow_handle (st : state) (loc : item_location) : state :=
  if loc ≠ item_location.weapon
    then sub_moves (st.w.you.item_handling_cost (deref st.w loc)) st else st

/-- Lines 951-956: one charge leaves the stack, or the item leaves its place. -/
def plthrow_take (st : state) (loc : item_location) : state :=
  if (deref st.w loc).count_by_charges && decide ((deref st.w loc).charges > 1)
    then mod_charges loc (-1) st else remove_item loc st

/-- Lines 951-956: the copy that is thrown. -/
def plthrow_thrown (st : state) (loc : item_location) (thrown : item) : item :=
  if (deref st.w loc).count_by_charges && decide ((deref st.w loc).charges > 1)
    then { thrown with charges := 1 } else thrown

/-- Lines 945-958: the throw, at `target` (the value of `trajectory.back()`). -/
def plthrow_release (sv : services) (st : state) (loc : item_location) (thrown : item)
    (target : tripoint) (blind_throw_from_pos : Option tripoint) : state :=
  (invoke sv call.reenter_fullscreen
    (invoke sv (call.throw_item target
        (plthrow_thrown (plthrow_handle st loc) loc thrown) blind_throw_from_pos)
      (plthrow_take (plthrow_handle st loc) loc)).2).2

/-- Lines 925-958: target selection and, unless it was cancelled, the throw. -/
def plthrow_from_aim (sv : services) (st : state) (x : item_location × item)
    (blind_throw_from_pos : Option tripoint) : state :=
  match (plthrow_aim sv st x.1 blind_throw_from_pos).1.getLast? with
  | none => (plthrow_aim sv st x.1 blind_throw_from_pos).2
  | some target =>
    plthrow_release sv (plthrow_aim sv st x.1 blind_throw_from_pos).2 x.1 x.2 target
      blind_throw_from_pos

/-- The function `avatar_action::plthrow( you, loc, blind_throw_from_pos )`; it
returns nothing, so only the state is kept. -/
def plthrow (sv : services) (st : state) (loc : item_location)
    (blind_throw_from_pos : Option tripoint) : state :=
  ((plthrow_upto_aim sv st loc).finish
    (fun s x => (true, plthrow_from_aim sv s x blind_throw_from_pos))).2

/-! ## `language.cpp` -/

/-- One entry of `lang_options`. -/
structure language_info where
  id : String
  name : String
  locale : String
deriving DecidableEq

/-- The table `lang_options`; `LOCALIZE` tells whether the build is localized. -/
def lang_options (LOCALIZE : Bool) : List language_info :=
  { id := "en", name := "English", locale := "en_US.UTF-8" } ::
  (if LOCALIZE then
    [{ id := "de", name := "Deutsch", locale := "de_DE.UTF-8" },
     { id := "es_AR", name := "Español (Argentina)", locale := "es_AR.UTF-8" },
     { id := "es_ES", name := "Español (España)", locale := "es_ES.UTF-8" },
     { id := "fr", name := "Français", locale := "fr_FR.UTF-8" },
     { id := "hu", name := "Magyar", locale := "hu_HU.UTF-8" },
     { id := "ja", name := "日本語", locale := "ja_JP.UTF-8" },
     { id := "ko", name := "한국어", locale := "ko_KR.UTF-8" },
     { id := "pl", name := "Polski", locale := "pl_PL.UTF-8" },
     { id := "pt_BR", name := "Português (Brasil)", locale := "pt_BR.UTF-8" },
     { id := "ru", name := "Русский", locale := "ru_RU.UTF-8" },
     { id := "zh_CN", name := "中文 (天朝)", locale := "zh_CN.UTF-8" },
     { id := "zh_TW", name := "中文 (台灣)", locale := "zh_TW.UTF-8" }]
   else [])

/-- The loop of `get_lang_info` over a table: the first entry with the id. -/
def find_lang (table : List language_info) (lang : String) : Option language_info :=
  match table with
  | [] => none
  | li :: rest => if li.id = lang then some li else find_lang rest lang

/-- The function `get_lang_info( lang )`: the entry found and the debug messages
reported.  The fallback is `lang_options[0]`. -/
def get_lang_info (LOCALIZE : Bool) (lang : String) : language_info × List event :=
  match find_lang (lang_options LOCALIZE) lang with
  | some li => (li, [])
  | none =>
    ((lang_options LOCALIZE).headD { id := "", name := "", locale := "" },
     [event.debugmsg ("'" ++ lang ++ "' is not a valid language")])

/-- What `update_global_locale` works on: the option `USE_LANG`, the global C++
locale (by name), which locale names the system can construct (`std::locale( name )`
throws `std::runtime_error` for the others), and the debug messages so far. -/
structure locale_state where
  USE_LANG : String
  global_locale : String
  constructible : String → Bool
  trace : List event

/-- The function `update_global_locale()`.  In the `catch` branch the global
locale is set to `std::locale()`, a copy of the current global locale.  The two
lines written to the debug log at the end are left out. -/
def update_global_locale (LOCALIZE : Bool) (s : locale_state) : locale_state :=
  if s.USE_LANG ≠ "" then
    if s.constructible (get_lang_info LOCALIZE s.USE_LANG).1.locale then
      { s with global_locale := (get_lang_info LOCALIZE s.USE_LANG).1.locale,
               trace := s.trace ++ (get_lang_info LOCALIZE s.USE_LANG).2 }
    else
      { s with global_locale := s.global_locale,
               trace := s.trace ++ (get_lang_info LOCALIZE s.USE_LANG).2 }
  else s

/-! ## Notions used to state the claims -/

/-- The collaborator calls that `move` makes on the way to, and during, an
attack on a hostile monster. -/
def attack_path_call (c : call) : Bool :=
  match c with
  | call.check_safe_mode_allowed => true
  | call.disable_robot _ => true
  | call.move_effects _ => true
  | call.clear_destination => true
  | call.melee_attack_monster _ _ => true
  | call.monster_die _ => true
  | call.draw_hit_mon _ _ _ => true
  | _ => false

/-- Pacified by relax gas: the avatar has the effect and the one-in-eight roll
of willpower fails. -/
def pacified (st : state) : Bool :=
  st.w.you.effects efftype_id.relax_gas && !(one_in 8 st).1

/-- The `t_fault` tiles of the avatar's z-level: those of
`points_in_rectangle( (0, 0, z), (MAPSIZE_X, MAPSIZE_Y, z) )`. -/
def fault_tiles (st : state) : List tripoint :=
  (st.w.m.points_in_rectangle ⟨0, 0, st.w.you.position.z⟩
      ⟨st.w.m.MAPSIZE_X, st.w.m.MAPSIZE_Y, st.w.you.position.z⟩).filter
    (fun pt => decide (st.w.m.ter pt = ter_id.t_fault))

/-- The minimum `rl_dist` from `target` to any `t_fault` tile of the avatar's
z-level; it is `INT_MAX` when there is none. -/
def min_fault_dist (sv : services) (st : state) (target : tripoint) : Int :=
  ((fault_tiles st).map (fun pt => sv.rl_dist pt target)).foldr min INT_MAX

/-- Whether an event is a yes/no prompt. -/
def event.is_prompt (e : event) : Bool :=
  match e with
  | event.query_yn _ _ => true
  | _ => false

/-- The prompts shown so far, oldest first. -/
def prompts_shown (st : state) : List event :=
  st.trace.filter event.is_prompt

/-- The avatar stands in swimmable deep water and not on a boat (`veh0` is the
vehicle under the avatar, if any). -/
def in_open_deep_water (st : state) (veh0 : Option Nat) : Bool :=
  st.w.m.has_flag ter_flag.SWIMMABLE st.w.you.position &&
  st.w.m.has_flag ter_flag.DEEP_WATER st.w.you.position && !is_boat st veh0

/-- The collaborator calls that `swim` makes. -/
def swim_call (c : call) : Bool :=
  match c with
  | call.practice_swimming _ => true
  | call.unboard_vehicle _ => true
  | call.handle_potential_theft _ => true
  | call.update_map => true
  | call.avatar_moves _ => true
  | call.board_vehicle _ => true
  | call.rust_iron_items => true
  | call.burn_move_stamina _ => true
  | call.drench _ _ _ => true
  | _ => false

/-- What sinking is about: the underwater flag and the oxygen. -/
def avatar.breath (a : avatar) : Bool × Int :=
  (a.underwater, a.oxygen)

/-- What the sinking test reads after the swimming practice, besides the
underwater flag: the strength and the swim fins worn. -/
def avatar.sink_inputs (a : avatar) : Int × Int :=
  (a.str_cur, a.swim_fins)

/-- What the cost of a swimming step is about: the move points and the
`trigdist` option. -/
def world.purse (w : world) : Int × Bool :=
  (w.you.moves, w.g.trigdist)

/-- The step from the avatar's tile to `p` is diagonal. -/
def diagonal_step (st : state) (p : tripoint) : Bool :=
  decide (p.x ≠ st.w.you.position.x) && decide (p.y ≠ st.w.you.position.y)

/-- The run of `swim` went through to its last statement, the drenching. -/
def swim_completed (after : state) : Prop :=
  ∃ flags, after.trace.getLast? = some (event.called (call.drench 100 flags true))

/-- Too pacified by relax gas to aim: the avatar has the effect and the
one-in-five roll fails. -/
def pacified_aim (st : state) : Bool :=
  st.w.you.effects efftype_id.relax_gas && !(one_in 5 st).1

/-- Grass one step shorter: tall grass becomes long grass, long grass becomes
grass, grass becomes dirt. -/
def grass_step (t : ter_id) : ter_id :=
  match t with
  | ter_id.t_grass_tall => ter_id.t_grass_long
  | ter_id.t_grass_long => ter_id.t_grass
  | _ => ter_id.t_dirt

/-- The terrain is one of the three kinds of grass that can be grazed. -/
def is_grazing_grass (t : ter_id) : Bool :=
  decide (t = ter_id.t_grass) || decide (t = ter_id.t_grass_long) ||
    decide (t = ter_id.t_grass_tall)

/-- Eating (`you.eat( food )`) does not move the avatar and does not alter the
terrain. -/
def eating_keeps_place (sv : services) : Prop :=
  ∀ f w, (sv.run (call.eat f) w).2.you.position = w.you.position ∧
    (sv.run (call.eat f) w).2.m.ter = w.m.ter

/-- Eating (`you.eat( food )`) does not itself take or give move points. -/
def eating_keeps_moves (sv : services) : Prop :=
  ∀ f w, (sv.run (call.eat f) w).2.you.moves = w.you.moves

/-- The state at line 951 of `plthrow`, where the charges are looked at: after
target selection from `st` and the handling cost. -/
def plthrow_at_take (sv : services) (st : state) (x : item_location × item)
    (blind_throw_from_pos : Option tripoint) : state :=
  plthrow_handle (plthrow_aim sv st x.1 blind_throw_from_pos).2 x.1

/-! ## A small concrete world

Used to run the definitions on explicit inputs. -/

/-- Chebyshev distance, the value of `rl_dist` when `trigdist` is off. -/
def square_dist (a b : tripoint) : Int :=
  max (max ((a.x - b.x).natAbs : Int) ((a.y - b.y).natAbs : Int)) ((a.z - b.z).natAbs : Int)

/-- The points of the rectangle between two corners, on the level of the first. -/
def rectangle_points (a b : tripoint) : List tripoint :=
  (List.range (b.x - a.x + 1).toNat).flatMap
    (fun i => (List.range (b.y - a.y + 1).toNat).map
      (fun j => (⟨a.x + (i : Int), a.y + (j : Int), a.z⟩ : tripoint)))

/-- A stack of five rocks. -/
def example_rock : item :=
  { flag_DIG_TOOL := false, can_use_JACKHAMMER := false, ammo_sufficient := false,
    can_use_PICKAXE := false, charges := 5, count_by_charges := true, flag_NO_UNWIELD := false,
    two_handed := false, tname := "rock", typeId := 1 }

/-- An unarmed, healthy avatar at `(5, 5, 0)` with 100 move points. -/
def example_avatar : avatar :=
  { position := ⟨5, 5, 0⟩, moves := 100, facing := facing_direction.FD_LEFT, oxygen := 10,
    str_cur := 8, in_vehicle := false, underwater := false, effects := fun _ => false,
    active_mutation := fun _ => false, trait := fun _ => false, mounted_creature := none,
    auto_moving := false, blind := false, mode_walk := true, swim_speed := 100, size := 3,
    swim_fins := 0, weapon := example_rock, armed := false, stored_kcal := 1000,
    max_stored_kcal := 2000, working_arm_count := 2, throw_range := fun _ => 10,
    is_wielding := fun loc => decide (loc = item_location.weapon), is_wearing := fun _ => false,
    can_takeoff := fun _ => (true, ""), item_handling_cost := fun _ => 10 }

/-- A parked car. -/
def example_vehicle : vehicle :=
  { velocity := 0, in_water := false, name := "car", next_part_to_open := fun _ _ => -1,
    part_open := fun _ => false, part_name := fun _ => "door" }

/-- A zombie. -/
def example_monster : monster :=
  { friendly := 0, effects := fun _ => false, immobile := false, hallucination := false,
    dead := false, facing := facing_direction.FD_LEFT, swims := false, size := 3,
    name := "zombie", get_name := "zombie", rideable_mech := false, mech_powered := false }

/-- An empty 11 x 11 level of walls: nothing is passable, no vehicles. -/
def example_map : map :=
  { ter := fun _ => ter_id.other 0, furn := fun _ => furn_id.other 0,
    has_flag := fun _ _ => false, veh_at := fun _ => none, vehicles := fun _ => example_vehicle,
    passable := fun _ => false, passable_ter_furn := fun _ => false,
    has_floor_or_support := fun _ => true, is_outside := fun _ => true,
    obstacle_name := fun _ => "wall", tername := fun _ => "wall", ter_name := fun _ => "ground",
    MAPSIZE_X := 10, MAPSIZE_Y := 10,
    points_in_rectangle := rectangle_points,
    points_in_radius := fun c r =>
      rectangle_points ⟨c.x - r, c.y - r, c.z⟩ ⟨c.x + r, c.y + r, c.z⟩ }

/-- No creatures, square tiles, automatic features off. -/
def example_game : game :=
  { critter_at := fun _ => false, monster_at := fun _ => none, npc_at := fun _ => none,
    monsters := fun _ => example_monster, npcs := fun _ => ⟨false⟩, mostseen := 0,
    tile_iso := false, trigdist := false, AUTO_FEATURES := false, AUTO_MINING := false,
    press_x_MOVE_DOWN := "Press >", press_x_MOVE_UP := "Press <", kcal_underbrush := 50,
    kcal_grass := 30 }

/-- The example world: the random engine yields 0, 1, 2, ..., the player
answers yes to every prompt, and a stack of rocks lies in place 3. -/
def example_world : world :=
  { you := example_avatar, m := example_map, g := example_game,
    rng_draws := fun n => n, answers := fun _ => true,
    items := fun i => if i = 3 then some example_rock else none }

/-- Collaborators that leave the world alone: safe mode allows, effects do not
hold the avatar, every other call answers false. -/
def example_services : services :=
  { run := fun c w =>
      (match c with
       | call.check_safe_mode_allowed => true
       | call.move_effects _ => true
       | _ => false, w),
    rl_dist := square_dist,
    pick_item := fun _ => item_location.nowhere,
    pick_trajectory := fun _ _ _ => [],
    check_messages := fun _ _ => [] }

/-- The state in which a segment left off. -/
def flow.state {α : Type} (f : flow α) : state :=
  match f with
  | flow.done _ st => st
  | flow.next st _ => st

/-- Collaborators under which walking succeeds: `walk_move` puts the avatar on
the destination and answers true; the rest is as in `example_services`. -/
def walking_services : services :=
  { run := fun c w =>
      match c with
      | call.walk_move p _ => (true, { w with you := { w.you with position := p } })
      | _ => example_services.run c w,
    rl_dist := square_dist,
    pick_item := fun _ => item_location.nowhere,
    pick_trajectory := fun _ _ _ => [],
    check_messages := fun _ _ => [] }

/-- The example world with a zombie (monster 7) east of the avatar. -/
def hostile_world : world :=
  { example_world with g := { example_game with
      monster_at := fun p => if p = ⟨6, 5, 0⟩ then some 7 else none,
      critter_at := fun p => decide (p = ⟨6, 5, 0⟩) } }

/-- The example world with a faultline tile two steps west of an avatar under
the amigara effect. -/
def fault_world : world :=
  { example_world with
    you := { example_avatar with effects := fun e => decide (e = efftype_id.amigara) },
    m := { example_map with
      ter := fun p => if p = ⟨3, 5, 0⟩ then ter_id.t_fault else ter_id.other 0 } }

/-- The example world with a stunned (not blind) avatar. -/
def stunned_world : world :=
  { example_world with
    you := { example_avatar with effects := fun e => decide (e = efftype_id.stunned) } }

/-- The example world with a locked door east of the avatar. -/
def door_world : world :=
  { example_world with
    m := { example_map with
      ter := fun p => if p = ⟨6, 5, 0⟩ then ter_id.t_door_locked else ter_id.other 0 } }

/-- The world `door_world` with a blind avatar. -/
def blind_door_world : world :=
  { door_world with you := { example_avatar with blind := true } }

/-- The example world with swimmable deep water east of the avatar. -/
def shore_world : world :=
  { example_world with
    m := { example_map with
      has_flag := fun f p =>
        (decide (f = ter_flag.SWIMMABLE) || decide (f = ter_flag.DEEP_WATER)) &&
          decide (p = ⟨6, 5, 0⟩) } }

/-- The example world with the avatar on vehicle 1, which moves at velocity 500;
the vehicle covers only the avatar's tile. -/
def speeding_world : world :=
  { example_world with
    m := { example_map with
      veh_at := fun p => if p = ⟨5, 5, 0⟩ then some ⟨1, 0, true⟩ else none,
      vehicles := fun _ => { example_vehicle with velocity := 500 } } }

/-- The example world with the avatar on a ramp, open air above it, and a ramp
end on the tile east of it. -/
def ramp_world : world :=
  { example_world with
    m := { example_map with
      has_flag := fun f p =>
        (decide (f = ter_flag.RAMP) && decide (p = ⟨5, 5, 0⟩)) ||
        (decide (f = ter_flag.RAMP_END) && decide (p = ⟨6, 5, 0⟩)),
      has_floor_or_support := fun p => decide (p.z = 0) } }

/-- The world `shore_world` with an avatar that cannot swim (swim speed 600). -/
def sinking_world : world :=
  { shore_world with you := { example_avatar with swim_speed := 600 } }

/-- A ready gun turret with two gun modes, 0 and 1. -/
def example_turret : turret_data :=
  { base_is_gun := true, query := turret_status.ready, name := "turret", gun_all_modes := [0, 1] }

/-- Collaborators under which gun mode 1 (and no other) passes the common checks,
mode 0 leaving the message "no"; the rest is as in `example_services`. -/
def turret_services : services :=
  { run := fun c w =>
      match c with
      | call.gunmode_checks_common m => (decide (m = 1), w)
      | _ => example_services.run c w,
    rl_dist := square_dist,
    pick_item := fun _ => item_location.nowhere,
    pick_trajectory := fun _ _ _ => [],
    check_messages := fun m _ => if m = 0 then ["no"] else [] }

/-- The example world with a grazer standing in tall grass, far from full. -/
def meadow_world : world :=
  { example_world with
    you := { example_avatar with
      active_mutation := fun t => decide (t = trait_id.GRAZER) },
    m := { example_map with
      ter := fun p => if p = ⟨5, 5, 0⟩ then ter_id.t_grass_tall else ter_id.other 0 } }

/-- The world `meadow_world` with a grazer that is too full: 1990 of 2000 kcal
stored, the grass being worth 30. -/
def full_meadow_world : world :=
  { meadow_world with you := { meadow_world.you with stored_kcal := 1990 } }

/-- Collaborators under which target selection picks the trajectory
`(7, 5, 0), (8, 5, 0)`; the rest is as in `example_services`. -/
def throwing_services : services :=
  { run := example_services.run,
    rl_dist := square_dist,
    pick_item := fun _ => item_location.nowhere,
    pick_trajectory := fun _ _ _ => [⟨7, 5, 0⟩, ⟨8, 5, 0⟩],
    check_messages := fun _ _ => [] }

/-- A system where every locale can be constructed, the global locale is "C" and
the option `USE_LANG` is the unknown language "xx". -/
def example_locale_state : locale_state :=
  { USE_LANG := "xx", global_locale := "C", constructible := fun _ => true, trace := [] }

/-- The world `shore_world` with the avatar on boat 1, which moves at velocity
500 and covers only the avatar's tile. -/
def fast_boat_world : world :=
  { shore_world with
    m := { shore_world.m with
      veh_at := fun p => if p = ⟨5, 5, 0⟩ then some ⟨1, 0, true⟩ else none,
      vehicles := fun _ => { example_vehicle with velocity := 500, in_water := true } } }

/-- A pickaxe. -/
def example_pickaxe : item :=
  { example_rock with
    flag_DIG_TOOL := true, can_use_PICKAXE := true, charges := 0, count_by_charges := false,
    tname := "pickaxe", typeId := 2 }

/-- The world `speeding_world` with automatic mining switched on, a pickaxe in
the avatar's hands and mineable rock east of the avatar. -/
def mining_world : world :=
  { speeding_world with
    you := { example_avatar with weapon := example_pickaxe, armed := true },
    m := { speeding_world.m with
      has_flag := fun f p => decide (f = ter_flag.MINEABLE) && decide (p = ⟨6, 5, 0⟩) },
    g := { example_game with AUTO_FEATURES := true, AUTO_MINING := true } }

/-- Collaborators under which eating takes 250 move points and changes nothing
else; the rest is as in `example_services`. -/
def slow_eating_services : services :=
  { run := fun c w =>
      match c with
      | call.eat _ => (true, { w with you := { w.you with moves := w.you.moves - 250 } })
      | _ => example_services.run c w,
    rl_dist := square_dist,
    pick_item := fun _ => item_location.nowhere,
    pick_trajectory := fun _ _ _ => [],
    check_messages := fun _ _ => [] }

/-- The world `meadow_world` with a shrub instead of the tall grass. -/
def shrub_world : world :=
  { meadow_world with
    m := { example_map with
      ter := fun p => if p = ⟨5, 5, 0⟩ then ter_id.t_shrub else ter_id.other 0 } }

/-! ## Basic facts about the primitives -/

@[simp]
theorem flow_done_andThen {α β : Type} (r : Bool) (st : state)
    (k : state → α → flow β) : (flow.done r st : flow α).andThen k = flow.done r st := rfl

@[simp]
theorem flow_next_andThen {α β : Type} (st : state) (x : α)
    (k : state → α → flow β) : (flow.next st x).andThen k = k st x := rfl

@[simp]
theorem flow_done_finish {α : Type} (r : Bool) (st : state)
    (k : state → α → Bool × state) : (flow.done r st : flow α).finish k = (r, st) := rfl

@[simp]
theorem flow_next_finish {α : Type} (st : state) (x : α)
    (k : state → α → Bool × state) : (flow.next st x).finish k = k st x := rfl

theorem flow_andThen_eq_next {α β : Type} (f : flow α) (k : state → α → flow β)
    (s : state) (y : β) (h : f.andThen k = flow.next s y) :
    ∃ s0 x0, f = flow.next s0 x0 ∧ k s0 x0 = flow.next s y := by
  cases f with
  | done r st => simp at h
  | next st x => exact ⟨st, x, rfl, by simpa using h⟩

@[simp]
theorem emit_w (e : event) (st : state) : (emit e st).w = st.w := rfl

@[simp]
theorem emit_trace (e : event) (st : state) :
    (emit e st).trace = st.trace ++ [e] := rfl

@[simp]
theorem add_msg_w (t : game_message_type) (s : String) (st : state) :
    (add_msg t s st).w = st.w := rfl

@[simp]
theorem add_msg_trace (t : game_message_type) (s : String) (st : state) :
    (add_msg t s st).trace = st.trace ++ [event.msg t s] := rfl

@[simp]
theorem invoke_fst (sv : services) (c : call) (st : state) :
    (invoke sv c st).1 = (sv.run c st.w).1 := rfl

@[simp]
theorem invoke_w (sv : services) (c : call) (st : state) :
    (invoke sv c st).2.w = (sv.run c st.w).2 := rfl

@[simp]
theorem invoke_trace (sv : services) (c : call) (st : state) :
    (invoke sv c st).2.trace = st.trace ++ [event.called c] := rfl

@[simp]
theorem sub_moves_trace (n : Int) (st : state) :
    (sub_moves n st).trace = st.trace := rfl

@[simp]
theorem sub_moves_moves (n : Int) (st : state) :
    (sub_moves n st).w.you.moves = st.w.you.moves - n := rfl

@[simp]
theorem sub_moves_position (n : Int) (st : state) :
    (sub_moves n st).w.you.position = st.w.you.position := rfl

@[simp]
theorem sub_moves_facing (n : Int) (st : state) :
    (sub_moves n st).w.you.facing = st.w.you.facing := rfl

@[simp]
theorem set_facing_position (f : facing_direction) (st : state) :
    (set_facing f st).w.you.position = st.w.you.position := rfl

@[simp]
theorem set_facing_moves (f : facing_direction) (st : state) :
    (set_facing f st).w.you.moves = st.w.you.moves := rfl

@[simp]
theorem set_facing_trace (f : facing_direction) (st : state) :
    (set_facing f st).trace = st.trace := rfl

@[simp]
theorem set_mount_facing_position (b : Bool) (f : facing_direction) (st : state) :
    (set_mount_facing b f st).w.you.position = st.w.you.position := by
  unfold set_mount_facing
  split
  · split <;> rfl
  · rfl

@[simp]
theorem set_mount_facing_moves (b : Bool) (f : facing_direction) (st : state) :
    (set_mount_facing b f st).w.you.moves = st.w.you.moves := by
  unfold set_mount_facing
  split
  · split <;> rfl
  · rfl

@[simp]
theorem set_mount_facing_trace (b : Bool) (f : facing_direction) (st : state) :
    (set_mount_facing b f st).trace = st.trace := by
  unfold set_mount_facing
  split
  · split <;> rfl
  · rfl

@[simp]
theorem rng_position (lo hi : Int) (st : state) :
    (rng lo hi st).2.w.you = st.w.you := rfl

@[simp]
theorem rng_trace (lo hi : Int) (st : state) :
    (rng lo hi st).2.trace = st.trace := rfl

/-- A draw of `rng( lo, hi )` with `lo <= hi` lies between the bounds. -/
theorem rng_bounds (lo hi : Int) (st : state) (h : lo ≤ hi) :
    lo ≤ (rng lo hi st).1 ∧ (rng lo hi st).1 ≤ hi := by
  have hpos : 0 < hi - lo + 1 := by omega
  have h1 := Int.emod_nonneg (st.w.rng_draws 0 : Int) (ne_of_gt hpos)
  have h2 := Int.emod_lt_of_pos (st.w.rng_draws 0 : Int) hpos
  simp only [rng, min_eq_left h, max_eq_right h]
  constructor <;> omega

/-! ## Claims about `avatar_action::move` -/

/-- When safe mode refuses or the shell is active, `move_begin` returns false
at once; the state is the one the safe-mode check left, plus the shell warning. -/
theorem move_begin_refused (sv : services) (st : state) (d : tripoint)
    (hframe : (sv.run call.check_safe_mode_allowed st.w).2.you = st.w.you)
    (h : st.w.you.active_mutation trait_id.SHELL2 = true ∨
         (sv.run call.check_safe_mode_allowed st.w).1 = false) :
    move_begin sv st d = flow.done false
      (if st.w.you.active_mutation trait_id.SHELL2 = true then
        add_msg game_message_type.m_warning
          "You can't move while in your shell.  Deactivate it to go mobile."
          (invoke sv call.check_safe_mode_allowed st).2
       else (invoke sv call.check_safe_mode_allowed st).2) := by
  unfold move_begin
  simp only [invoke_fst, invoke_w, hframe]
  rcases h with h | h
  · simp [h]
  · simp [h]

/-- C1: if the avatar has the SHELL2 mutation active, or safe mode does not allow
the action, `move` returns false and leaves the avatar's position, move points and
facing unchanged; the world is the one the safe-mode check left (which does not
touch the avatar), and the only event besides that check is the shell warning. -/
theorem move_refused_in_shell_or_safe_mode (sv : services) (st : state) (d : tripoint)
    (hframe : (sv.run call.check_safe_mode_allowed st.w).2.you = st.w.you)
    (h : st.w.you.active_mutation trait_id.SHELL2 = true ∨
         (sv.run call.check_safe_mode_allowed st.w).1 = false) :
    (move sv st d).1 = false ∧
    (move sv st d).2.w.you.position = st.w.you.position ∧
    (move sv st d).2.w.you.moves = st.w.you.moves ∧
    (move sv st d).2.w.you.facing = st.w.you.facing ∧
    (move sv st d).2.w = (sv.run call.check_safe_mode_allowed st.w).2 ∧
    (move sv st d).2.trace =
      st.trace ++ [event.called call.check_safe_mode_allowed] ++
        (if st.w.you.active_mutation trait_id.SHELL2 = true then
          [event.msg game_message_type.m_warning
            "You can't move while in your shell.  Deactivate it to go mobile."]
         else []) := by
  have hb := move_begin_refused sv st d hframe h
  simp only [move, move_upto_tail, move_upto_water, move_upto_vehicle, move_upto_monster,
    move_upto_amigara, hb, flow_done_andThen, flow_done_finish]
  by_cases hs : st.w.you.active_mutation trait_id.SHELL2 = true
  · simp [hs, hframe]
  · simp [hs, hframe]

/-- C1 on an avatar in its shell stepping east in the example world. -/
theorem move_refused_in_shell_or_safe_mode_witness :
    (move example_services
      ⟨{ example_world with you := { example_avatar with active_mutation := fun _ => true } }, []⟩
      ⟨1, 0, 0⟩).1 = false ∧
    (move example_services
      ⟨{ example_world with you := { example_avatar with active_mutation := fun _ => true } }, []⟩
      ⟨1, 0, 0⟩).2.w.you.position = ⟨5, 5, 0⟩ ∧
    (move example_services
      ⟨{ example_world with you := { example_avatar with active_mutation := fun _ => true } }, []⟩
      ⟨1, 0, 0⟩).2.trace =
      [event.called call.check_safe_mode_allowed,
       event.msg game_message_type.m_warning
         "You can't move while in your shell.  Deactivate it to go mobile."] :=
  have h := move_refused_in_shell_or_safe_mode example_services
    ⟨{ example_world with you := { example_avatar with active_mutation := fun _ => true } }, []⟩
    ⟨1, 0, 0⟩ rfl (Or.inl rfl)
  ⟨h.1, h.2.1, h.2.2.2.2.2⟩

/-- C3: when `d.z == 0` and the avatar is stunned, the destination does not depend
on `d` and, whatever the random engine yields, its x and y are within 1 of the
avatar's and its z is the avatar's; in every other case the destination is the
avatar's position plus `d`, componentwise. -/
theorem move_dest_stunned_or_exact (st : state) (d : tripoint) :
    (d.z = 0 ∧ st.w.you.effects efftype_id.stunned = true →
      (∀ d2 : tripoint, d2.z = 0 → move_dest st d2 = move_dest st d) ∧
      st.w.you.position.x - 1 ≤ (move_dest st d).1.x ∧
      (move_dest st d).1.x ≤ st.w.you.position.x + 1 ∧
      st.w.you.position.y - 1 ≤ (move_dest st d).1.y ∧
      (move_dest st d).1.y ≤ st.w.you.position.y + 1 ∧
      (move_dest st d).1.z = st.w.you.position.z) ∧
    (¬ (d.z = 0 ∧ st.w.you.effects efftype_id.stunned = true) →
      (move_dest st d).1 =
        ⟨st.w.you.position.x + d.x, st.w.you.position.y + d.y, st.w.you.position.z + d.z⟩) := by
  constructor
  · intro h
    have hx := rng_bounds (st.w.you.position.x - 1) (st.w.you.position.x + 1) st (by omega)
    have hy := rng_bounds (st.w.you.position.y - 1) (st.w.you.position.y + 1)
      (rng (st.w.you.position.x - 1) (st.w.you.position.x + 1) st).2 (by omega)
    refine ⟨?_, ?_⟩
    · intro d2 hd2
      simp [move_dest, h.1, h.2, hd2]
    · simp only [move_dest, h.1, h.2, and_self, if_true, rng_position] at hx hy ⊢
      exact ⟨hx.1, hx.2, hy.1, hy.2, trivial⟩
  · intro h
    simp only [move_dest, if_neg h]

/-- C3 in `stunned_world`, the avatar at `(5, 5, 0)` asked to step east: with the engine
yielding 0 then 1 the destination is `(4, 5, 0)`, the same as for a step west. -/
theorem move_dest_stunned_or_exact_witness :
    (move_dest ⟨stunned_world, []⟩ ⟨1, 0, 0⟩).1 = ⟨4, 5, 0⟩ ∧
    move_dest ⟨stunned_world, []⟩ ⟨-1, 0, 0⟩ = move_dest ⟨stunned_world, []⟩ ⟨1, 0, 0⟩ :=
  ⟨by decide,
   ((move_dest_stunned_or_exact ⟨stunned_world, []⟩ ⟨1, 0, 0⟩).1 ⟨rfl, rfl⟩).1 ⟨-1, 0, 0⟩ rfl⟩

/-! ### The path to the creature checks -/

@[simp]
theorem move_dest_you (st : state) (d : tripoint) : (move_dest st d).2.w.you = st.w.you := by
  unfold move_dest
  split <;> rfl

@[simp]
theorem move_dest_trace (st : state) (d : tripoint) : (move_dest st d).2.trace = st.trace := by
  unfold move_dest
  split <;> rfl

theorem move_begin_next (sv : services) (st s : state) (d : tripoint) (l : locals)
    (h : move_begin sv st d = flow.next s l) :
    s = (move_dest (invoke sv call.check_safe_mode_allowed st).2 d).2 := by
  unfold move_begin at h
  simp only at h
  split at h
  · cases h
  · split at h
    · cases h
    · injection h with h1 h2
      exact h1.symm

theorem move_mining_next (sv : services) (st s : state) (l l2 : locals)
    (h : move_mining sv st l = flow.next s l2) : s = st ∧ l2 = l := by
  unfold move_mining at h
  split at h
  · split at h
    · cases h
    · split at h
      · cases h
      · split at h
        · cases h
        · injection h with h1 h2
          exact ⟨h1.symm, h2.symm⟩
  · injection h with h1 h2
    exact ⟨h1.symm, h2.symm⟩

@[simp]
theorem move_facing_position (st : state) (l : locals) :
    (move_facing st l).w.you.position = st.w.you.position := by
  unfold move_facing
  simp only
  split
  · split
    · simp
    · split <;> simp
  · split <;> split <;> simp

@[simp]
theorem move_facing_moves (st : state) (l : locals) :
    (move_facing st l).w.you.moves = st.w.you.moves := by
  unfold move_facing
  simp only
  split
  · split
    · simp
    · split <;> simp
  · split <;> split <;> simp

@[simp]
theorem move_facing_trace (st : state) (l : locals) :
    (move_facing st l).trace = st.trace := by
  unfold move_facing
  simp only
  split
  · split
    · simp
    · split <;> simp
  · split <;> split <;> simp

theorem move_amigara_next (sv : services) (st s : state) (l l2 : locals)
    (h : move_amigara sv st l = flow.next s l2) : s = st ∧ l2 = l := by
  unfold move_amigara at h
  split at h
  · split at h
    · cases h
    · injection h with h1 h2
      exact ⟨h1.symm, h2.symm⟩
  · injection h with h1 h2
    exact ⟨h1.symm, h2.symm⟩

theorem move_robot_next (sv : services) (st s : state) (l l2 : locals)
    (h : move_robot sv st l = flow.next s l2) :
    s = (invoke sv (call.disable_robot l.dest_loc) st).2 ∧ l2 = l := by
  unfold move_robot at h
  split at h
  · cases h
  · injection h with h1 h2
    exact ⟨h1.symm, h2.symm⟩

theorem move_effects_check_next (sv : services) (st s : state) (l l2 : locals)
    (h : move_effects_check sv st l = flow.next s l2) :
    s = (invoke sv (call.move_effects (st.w.g.critter_at l.dest_loc)) st).2 ∧ l2 = l := by
  unfold move_effects_check at h
  split at h
  · cases h
  · injection h with h1 h2
    exact ⟨h1.symm, h2.symm⟩

/-- A run that reaches the faultline check has made one collaborator call, the
safe-mode check, and has not itself written the position or the move points. -/
theorem move_upto_amigara_next (sv : services) (st s : state) (d : tripoint) (l : locals)
    (h : move_upto_amigara sv st d = flow.next s l) :
    s.w.you.position = (sv.run call.check_safe_mode_allowed st.w).2.you.position ∧
    s.w.you.moves = (sv.run call.check_safe_mode_allowed st.w).2.you.moves ∧
    s.trace = st.trace ++ [event.called call.check_safe_mode_allowed] := by
  unfold move_upto_amigara at h
  obtain ⟨s1, l1, h1, h2⟩ := flow_andThen_eq_next _ _ _ _ h
  obtain ⟨s0, l0, h0, h3⟩ := flow_andThen_eq_next _ _ _ _ h1
  have e0 := move_begin_next sv st s0 d l0 h0
  have e1 := (move_mining_next sv s0 s1 _ l1 h3).1
  injection h2 with h4 h5
  subst h4 e1 e0
  simp

/-- A run that reaches the monster check has not moved the avatar, provided the
three collaborators called so far do not. -/
theorem move_upto_monster_position (sv : services) (st s : state) (d : tripoint) (l : locals)
    (hkeep : ∀ c w, attack_path_call c = true → (sv.run c w).2.you.position = w.you.position)
    (h : move_upto_monster sv st d = flow.next s l) :
    s.w.you.position = st.w.you.position := by
  unfold move_upto_monster at h
  obtain ⟨s2, l2, h2, h3⟩ := flow_andThen_eq_next _ _ _ _ h
  obtain ⟨s1, l1, h1, h4⟩ := flow_andThen_eq_next _ _ _ _ h2
  obtain ⟨s0, l0, h0, h5⟩ := flow_andThen_eq_next _ _ _ _ h1
  have e0 := (move_upto_amigara_next sv st s0 d l0 h0).1
  have e1 := (move_amigara_next sv s0 s1 l0 l1 h5).1
  have e2 := (move_robot_next sv s1 s2 l1 l2 h4).1
  have e3 := (move_effects_check_next sv s2 s l2 l h3).1
  subst e3 e2 e1
  simp only [invoke_w]
  rw [hkeep (call.move_effects _) _ rfl, hkeep (call.disable_robot _) _ rfl, e0,
    hkeep call.check_safe_mode_allowed _ rfl]

@[simp]
theorem one_in_you (n : Int) (st : state) : (one_in n st).2.w.you = st.w.you := by
  unfold one_in
  split <;> rfl

@[simp]
theorem one_in_trace (n : Int) (st : state) : (one_in n st).2.trace = st.trace := by
  unfold one_in
  split <;> rfl

@[simp]
theorem one_in_game (n : Int) (st : state) : (one_in n st).2.w.g = st.w.g := by
  unfold one_in
  split <;> rfl

/-- The melee attack and its aftermath keep the avatar in place when the three
collaborators involved do; its first event is the `melee_attack` call. -/
theorem move_melee_spec (sv : services) (dest_loc : tripoint) (id : Nat) (st : state)
    (hkeep : ∀ c w, attack_path_call c = true → (sv.run c w).2.you.position = w.you.position) :
    (move_melee sv dest_loc id st).w.you.position = st.w.you.position ∧
    ∃ rest, (move_melee sv dest_loc id st).trace =
      st.trace ++ event.called (call.melee_attack_monster id true) :: rest := by
  unfold move_melee
  simp only
  split
  · constructor
    · simp only [invoke_w]
      rw [hkeep (call.draw_hit_mon _ _ _) _ rfl, hkeep (call.monster_die _) _ rfl,
        hkeep (call.melee_attack_monster _ _) _ rfl]
    · exact ⟨_, (by simp only [invoke_trace, List.append_assoc]; rfl)⟩
  · constructor
    · simp only [invoke_w]
      rw [hkeep (call.draw_hit_mon _ _ _) _ rfl, hkeep (call.melee_attack_monster _ _) _ rfl]
    · exact ⟨_, (by simp only [invoke_trace, List.append_assoc]; rfl)⟩

theorem move_attack_position (sv : services) (dest_loc : tripoint) (id : Nat) (st : state)
    (hkeep : ∀ c w, attack_path_call c = true → (sv.run c w).2.you.position = w.you.position) :
    (move_attack sv dest_loc id st).w.you.position = st.w.you.position := by
  unfold move_attack
  split
  · split
    · rw [(move_melee_spec sv dest_loc id _ hkeep).1]
      simp
    · simp
  · exact (move_melee_spec sv dest_loc id st hkeep).1

/-- What `move` returns once it finds a hostile monster at the destination. -/
theorem move_hostile_monster_eq (sv : services) (st st1 : state) (d : tripoint) (l : locals)
    (id : Nat)
    (hreach : move_upto_monster sv st d = flow.next st1 l)
    (hmon : st1.w.g.monster_at l.dest_loc = some id)
    (hfriendly : (st1.w.g.monsters id).friendly = 0)
    (hpet : (st1.w.g.monsters id).effects efftype_id.pet = false) :
    move sv st d = (false,
      if st1.w.you.auto_moving = true then
        (invoke sv call.clear_destination
          (add_msg game_message_type.m_info "Move into the monster to attack."
            (add_msg game_message_type.m_warning "Monster in the way.  Auto-move canceled."
              st1))).2
      else move_attack sv l.dest_loc id st1) := by
  simp only [move, move_upto_tail, move_upto_water, move_upto_vehicle, hreach,
    flow_next_andThen, move_monster, hmon, hfriendly, hpet, and_self, if_true]
  split <;> simp

/-- C2: whenever the destination holds a monster with `friendly == 0` and no pet
effect (and the earlier checks passed), `move` returns false and the avatar's
position is the one before the call; an auto-moving avatar gets the two messages
and `clear_destination` and no melee attack; an avatar pacified by relax gas only
loses `rng( 2, 8 ) * 10` move points and is told so; otherwise the avatar attacks:
after the willpower message, if relax gas is in play, `melee_attack` is called,
then `die` if the monster attacked turns out to be a hallucination, then
`draw_hit_mon` with the monster's death flag, and nothing else happens. -/
theorem move_into_hostile_monster (sv : services) (st st1 : state) (d : tripoint)
    (l : locals) (id : Nat)
    (hkeep : ∀ c w, attack_path_call c = true → (sv.run c w).2.you.position = w.you.position)
    (hreach : move_upto_monster sv st d = flow.next st1 l)
    (hmon : st1.w.g.monster_at l.dest_loc = some id)
    (hfriendly : (st1.w.g.monsters id).friendly = 0)
    (hpet : (st1.w.g.monsters id).effects efftype_id.pet = false) :
    (move sv st d).1 = false ∧
    (move sv st d).2.w.you.position = st.w.you.position ∧
    (st1.w.you.auto_moving = true →
      (move sv st d).2.w = (sv.run call.clear_destination st1.w).2 ∧
      (move sv st d).2.trace = st1.trace ++
        [event.msg game_message_type.m_warning "Monster in the way.  Auto-move canceled.",
         event.msg game_message_type.m_info "Move into the monster to attack.",
         event.called call.clear_destination]) ∧
    (st1.w.you.auto_moving = false → pacified st1 = true →
      (move sv st d).2 =
        add_msg game_message_type.m_bad "You're too pacified to strike anything…"
          (sub_moves ((rng 2 8 (one_in 8 st1).2).1 * 10) (rng 2 8 (one_in 8 st1).2).2) ∧
      (move sv st d).2.w.you.moves =
        st1.w.you.moves - (rng 2 8 (one_in 8 st1).2).1 * 10 ∧
      (move sv st d).2.trace = st1.trace ++
        [event.msg game_message_type.m_bad "You're too pacified to strike anything…"]) ∧
    (st1.w.you.auto_moving = false → pacified st1 = false →
      ∀ s0 s1 s2 : state,
        s0 = (if st1.w.you.effects efftype_id.relax_gas = true then
            add_msg game_message_type.m_good "Your willpower asserts itself, and so do you!"
              (one_in 8 st1).2
          else st1) →
        s1 = (invoke sv (call.melee_attack_monster id true) s0).2 →
        s2 = (if (s1.w.g.monsters id).hallucination = true
          then (invoke sv (call.monster_die id) s1).2 else s1) →
        (move sv st d).2 =
          (invoke sv (call.draw_hit_mon l.dest_loc id (s2.w.g.monsters id).dead) s2).2 ∧
        (move sv st d).2.trace =
          st1.trace ++
            (if st1.w.you.effects efftype_id.relax_gas = true then
              [event.msg game_message_type.m_good
                "Your willpower asserts itself, and so do you!"]
             else []) ++
            [event.called (call.melee_attack_monster id true)] ++
            (if (s1.w.g.monsters id).hallucination = true
              then [event.called (call.monster_die id)] else []) ++
            [event.called (call.draw_hit_mon l.dest_loc id (s2.w.g.monsters id).dead)]) := by
  have hpos := move_upto_monster_position sv st st1 d l hkeep hreach
  rw [move_hostile_monster_eq sv st st1 d l id hreach hmon hfriendly hpet]
  refine ⟨rfl, ?_, ?_, ?_, ?_⟩
  · by_cases ha : st1.w.you.auto_moving = true
    · simp only [ha, if_true, invoke_w, add_msg_w]
      rw [hkeep call.clear_destination _ rfl, hpos]
    · rw [if_neg ha, move_attack_position sv l.dest_loc id st1 hkeep, hpos]
  · intro ha
    simp [ha]
  · intro ha hp
    simp only [pacified, Bool.and_eq_true, Bool.not_eq_true'] at hp
    simp [ha, move_attack, hp.1, hp.2]
  · intro ha hp s0 s1 s2 e0 e1 e2
    have hm : move_attack sv l.dest_loc id st1 = move_melee sv l.dest_loc id s0 := by
      by_cases hr : st1.w.you.effects efftype_id.relax_gas = true
      · have ho : (one_in 8 st1).1 = true := by
          simpa [pacified, hr] using hp
        simp only [move_attack, hr, ho, if_true, e0]
      · simp only [move_attack, hr, e0, if_false, Bool.false_eq_true]
    have hmm : move_melee sv l.dest_loc id s0 =
        (invoke sv (call.draw_hit_mon l.dest_loc id (s2.w.g.monsters id).dead) s2).2 := by
      rw [e2, e1]
      rfl
    simp only [ha, Bool.false_eq_true, if_false, hm, hmm]
    refine ⟨trivial, ?_⟩
    rw [invoke_trace, e2]
    have h1 : s1.trace = s0.trace ++ [event.called (call.melee_attack_monster id true)] := by
      rw [e1, invoke_trace]
    have h0 : s0.trace = st1.trace ++
        (if st1.w.you.effects efftype_id.relax_gas = true then
          [event.msg game_message_type.m_good "Your willpower asserts itself, and so do you!"]
         else []) := by
      rw [e0]
      split_ifs
      · simp only [add_msg_trace, one_in_trace]
      · simp only [List.append_nil]
    by_cases hh : (s1.w.g.monsters id).hallucination = true
    · simp only [hh, if_true, invoke_trace, h1, h0]
    · rw [if_neg hh, if_neg hh, h1, h0, List.append_nil]

/-- C2 in `hostile_world`: stepping east into the zombie returns false, the
avatar stays at `(5, 5, 0)`, and the zombie is attacked and drawn as hit. -/
theorem move_into_hostile_monster_witness :
    move_upto_monster example_services ⟨hostile_world, []⟩ ⟨1, 0, 0⟩ =
      flow.next (move_upto_monster example_services ⟨hostile_world, []⟩ ⟨1, 0, 0⟩).state
        ⟨⟨6, 5, 0⟩, false, false⟩ ∧
    (move example_services ⟨hostile_world, []⟩ ⟨1, 0, 0⟩).1 = false ∧
    (move example_services ⟨hostile_world, []⟩ ⟨1, 0, 0⟩).2.w.you.position = ⟨5, 5, 0⟩ ∧
    (move example_services ⟨hostile_world, []⟩ ⟨1, 0, 0⟩).2.trace =
      (move_upto_monster example_services ⟨hostile_world, []⟩ ⟨1, 0, 0⟩).state.trace ++
        [event.called (call.melee_attack_monster 7 true),
         event.called (call.draw_hit_mon ⟨6, 5, 0⟩ 7 false)] :=
  have h := move_into_hostile_monster example_services ⟨hostile_world, []⟩
    (move_upto_monster example_services ⟨hostile_world, []⟩ ⟨1, 0, 0⟩).state ⟨1, 0, 0⟩
    ⟨⟨6, 5, 0⟩, false, false⟩ 7 (fun _ _ _ => rfl) rfl rfl rfl rfl
  ⟨rfl, h.1, h.2.1, (h.2.2.2.2 rfl rfl _ _ _ rfl rfl rfl).2⟩

/-! ### The faultline check -/

theorem foldr_min_init (a d : Int) (ds : List Int) :
    ds.foldr min (min d a) = min d (ds.foldr min a) := by
  induction ds with
  | nil => rfl
  | cons x xs ih => simp only [List.foldr_cons, ih, min_left_comm]

/-- The loop of lines 216-227 computes, in each accumulator, the minimum of its
initial value and the distances of the fault tiles. -/
theorem fault_loop_eq (sv : services) (st : state) (dest_loc : tripoint)
    (pts : List tripoint) (a b : Int) :
    pts.foldl (fault_step sv st dest_loc) (a, b) =
      ((((pts.filter (fun pt => decide (st.w.m.ter pt = ter_id.t_fault))).map
          (fun pt => sv.rl_dist pt st.w.you.position)).foldr min a),
       (((pts.filter (fun pt => decide (st.w.m.ter pt = ter_id.t_fault))).map
          (fun pt => sv.rl_dist pt dest_loc)).foldr min b)) := by
  induction pts generalizing a b with
  | nil => rfl
  | cons p ps ih =>
    rw [List.foldl_cons]
    by_cases hp : st.w.m.ter p = ter_id.t_fault
    · have hstep : fault_step sv st dest_loc (a, b) p =
          (min (sv.rl_dist p st.w.you.position) a, min (sv.rl_dist p dest_loc) b) := by
        simp only [fault_step, hp, if_true]
        refine Prod.ext ?_ ?_
        · simp only
          split
          · exact (min_eq_left (le_of_lt (by assumption))).symm
          · exact (min_eq_right (not_lt.mp (by assumption))).symm
        · simp only
          split
          · exact (min_eq_left (le_of_lt (by assumption))).symm
          · exact (min_eq_right (not_lt.mp (by assumption))).symm
      rw [hstep, ih]
      simp [hp, foldr_min_init]
    · have hstep : fault_step sv st dest_loc (a, b) p = (a, b) := by
        simp [fault_step, hp]
      rw [hstep, ih]
      simp [hp]

/-- The two distances the code compares are the two minima of the claim. -/
theorem fault_dists_eq (sv : services) (st : state) (dest_loc : tripoint) :
    fault_dists sv st dest_loc =
      (min_fault_dist sv st st.w.you.position, min_fault_dist sv st dest_loc) := by
  unfold fault_dists min_fault_dist fault_tiles
  exact fault_loop_eq sv st dest_loc _ INT_MAX INT_MAX

/-- C4: for an avatar under the amigara effect that reaches the faultline check,
`move` is refused (false, the faultline message, move points and position as
before the call) when the minimum distance from the destination to a `t_fault`
tile of the level exceeds that from the avatar's position; when it does not
exceed it the check lets the move go on; and with no `t_fault` tile on the level
both minima are `INT_MAX` and the move goes on. -/
theorem move_amigara_refused_iff_farther (sv : services) (st st1 : state) (d : tripoint)
    (l : locals)
    (hframe : (sv.run call.check_safe_mode_allowed st.w).2.you = st.w.you)
    (hreach : move_upto_amigara sv st d = flow.next st1 l)
    (hamigara : st1.w.you.effects efftype_id.amigara = true) :
    (min_fault_dist sv st1 l.dest_loc > min_fault_dist sv st1 st1.w.you.position →
      move sv st d = (false,
        add_msg game_message_type.m_info "You cannot pull yourself away from the faultline…"
          st1) ∧
      (move sv st d).2.w.you.moves = st.w.you.moves ∧
      (move sv st d).2.w.you.position = st.w.you.position) ∧
    (¬ (min_fault_dist sv st1 l.dest_loc > min_fault_dist sv st1 st1.w.you.position) →
      (move_upto_amigara sv st d).andThen (move_amigara sv) = flow.next st1 l) ∧
    (fault_tiles st1 = [] →
      min_fault_dist sv st1 l.dest_loc = INT_MAX ∧
      min_fault_dist sv st1 st1.w.you.position = INT_MAX ∧
      (move_upto_amigara sv st d).andThen (move_amigara sv) = flow.next st1 l) := by
  have hn := move_upto_amigara_next sv st st1 d l hreach
  have hgo : ¬ (min_fault_dist sv st1 l.dest_loc > min_fault_dist sv st1 st1.w.you.position) →
      (move_upto_amigara sv st d).andThen (move_amigara sv) = flow.next st1 l := by
    intro h
    simp [hreach, move_amigara, hamigara, fault_dists_eq, h]
  refine ⟨?_, hgo, ?_⟩
  · intro h
    have hm : move sv st d = (false,
        add_msg game_message_type.m_info "You cannot pull yourself away from the faultline…"
          st1) := by
      simp [move, move_upto_tail, move_upto_water, move_upto_vehicle, move_upto_monster, hreach,
        move_amigara, hamigara, fault_dists_eq, h]
    rw [hm]
    refine ⟨rfl, ?_, ?_⟩
    · simp only [add_msg_w, hn.2.1, hframe]
    · simp only [add_msg_w, hn.1, hframe]
  · intro h
    have h1 : min_fault_dist sv st1 l.dest_loc = INT_MAX := by
      simp [min_fault_dist, h]
    have h2 : min_fault_dist sv st1 st1.w.you.position = INT_MAX := by
      simp [min_fault_dist, h]
    refine ⟨h1, h2, hgo ?_⟩
    rw [h1, h2]
    exact lt_irrefl _

/-- C4 in `fault_world`: the fault is 2 away from the avatar and 3 away from the
tile east of it, so the step east is refused and costs nothing. -/
theorem move_amigara_refused_iff_farther_witness :
    min_fault_dist example_services ⟨fault_world, []⟩ ⟨6, 5, 0⟩ = 3 ∧
    min_fault_dist example_services ⟨fault_world, []⟩ ⟨5, 5, 0⟩ = 2 ∧
    (move example_services ⟨fault_world, []⟩ ⟨1, 0, 0⟩).1 = false ∧
    (move example_services ⟨fault_world, []⟩ ⟨1, 0, 0⟩).2.w.you.moves = 100 ∧
    (move example_services ⟨fault_world, []⟩ ⟨1, 0, 0⟩).2.w.you.position = ⟨5, 5, 0⟩ :=
  have h := (move_amigara_refused_iff_farther example_services ⟨fault_world, []⟩
    (move_upto_amigara example_services ⟨fault_world, []⟩ ⟨1, 0, 0⟩).state ⟨1, 0, 0⟩
    ⟨⟨6, 5, 0⟩, false, false⟩ rfl rfl rfl).1 (by decide)
  ⟨by decide, by decide, congrArg Prod.fst h.1, h.2.1, h.2.2⟩

/-! ### The invalid-move tail -/

/-- Once the tail is reached, `move` is the tail. -/
theorem move_eq_tail (sv : services) (st st1 : state) (d : tripoint) (l : locals)
    (hreach : move_upto_tail sv st d = flow.next st1 l) :
    move sv st d = move_tail st1 l := by
  simp only [move, hreach, flow_next_finish]

/-- The tail returns false, never moves the avatar, and takes 100 move points
exactly from a blind or stunned avatar. -/
theorem move_tail_spec (st : state) (l : locals) :
    (move_tail st l).1 = false ∧
    (move_tail st l).2.w.you.position = st.w.you.position ∧
    (move_tail st l).2.w.you.moves =
      (if st.w.you.blind = true ∨ st.w.you.effects efftype_id.stunned = true
        then st.w.you.moves - 100 else st.w.you.moves) := by
  unfold move_tail
  by_cases hb : st.w.you.blind = true
  · simp [hb]
  · by_cases hs : st.w.you.effects efftype_id.stunned = true
    · simp [hs]
    · simp only [Bool.not_eq_true] at hb hs
      simp only [hb, hs, Bool.or_self, Bool.false_or, Bool.false_eq_true, or_self, if_false]
      split
      · simp
      · split
        · simp
        · split <;> simp

/-- C6 as stated fails: in `blind_door_world` the destination is a locked door
that can be neither walked into nor opened, the tail is entered with 100 move
points, and `move` returns with 0 move points. -/
theorem move_locked_door_blind_loses_moves :
    move_upto_tail example_services ⟨blind_door_world, []⟩ ⟨1, 0, 0⟩ =
      flow.next (move_upto_tail example_services ⟨blind_door_world, []⟩ ⟨1, 0, 0⟩).state
        ⟨⟨6, 5, 0⟩, false, false⟩ ∧
    (move_upto_tail example_services ⟨blind_door_world, []⟩ ⟨1, 0, 0⟩).state.w.m.ter ⟨6, 5, 0⟩ =
      ter_id.t_door_locked ∧
    (move_upto_tail example_services ⟨blind_door_world, []⟩ ⟨1, 0, 0⟩).state.w.you.moves = 100 ∧
    (move example_services ⟨blind_door_world, []⟩ ⟨1, 0, 0⟩).1 = false ∧
    (move example_services ⟨blind_door_world, []⟩ ⟨1, 0, 0⟩).2.w.you.moves = 0 :=
  ⟨rfl, rfl, rfl, rfl, rfl⟩

/-- C6, amended: when `move` ends at a destination whose terrain is a locked door
that could not be walked into or opened, and the avatar is neither blind nor
stunned, it does not drain move points: they equal those before the invalid-move
tail, and `move` returns false; on the avatar's own level the only event is the
locked-door message. -/
theorem move_locked_door_no_drain (sv : services) (st st1 : state) (d : tripoint) (l : locals)
    (hreach : move_upto_tail sv st d = flow.next st1 l)
    (hdoor : st1.w.m.ter l.dest_loc = ter_id.t_door_locked ∨
             st1.w.m.ter l.dest_loc = ter_id.t_door_locked_peep ∨
             st1.w.m.ter l.dest_loc = ter_id.t_door_locked_alarm ∨
             st1.w.m.ter l.dest_loc = ter_id.t_door_locked_interior)
    (hblind : st1.w.you.blind = false)
    (hstunned : st1.w.you.effects efftype_id.stunned = false) :
    (move sv st d).1 = false ∧
    (move sv st d).2.w.you.moves = st1.w.you.moves ∧
    (l.dest_loc.z = st1.w.you.position.z →
      (move sv st d).2 = add_msg game_message_type.m_neutral "That door is locked!" st1) := by
  rw [move_eq_tail sv st st1 d l hreach]
  have h := move_tail_spec st1 l
  refine ⟨h.1, ?_, ?_⟩
  · rw [h.2.2, if_neg (by simp [hblind, hstunned])]
  · intro hz
    simp [move_tail, hblind, hstunned, hz, hdoor]

/-- The amended C6 in `door_world`: the sighted avatar learns that the door is
locked and keeps its 100 move points. -/
theorem move_locked_door_no_drain_witness :
    (move_upto_tail example_services ⟨door_world, []⟩ ⟨1, 0, 0⟩).state.w.m.ter ⟨6, 5, 0⟩ =
      ter_id.t_door_locked ∧
    (move example_services ⟨door_world, []⟩ ⟨1, 0, 0⟩).1 = false ∧
    (move example_services ⟨door_world, []⟩ ⟨1, 0, 0⟩).2.w.you.moves = 100 ∧
    event.msg game_message_type.m_neutral "That door is locked!" ∈
      (move example_services ⟨door_world, []⟩ ⟨1, 0, 0⟩).2.trace :=
  have h := move_locked_door_no_drain example_services ⟨door_world, []⟩
    (move_upto_tail example_services ⟨door_world, []⟩ ⟨1, 0, 0⟩).state ⟨1, 0, 0⟩
    ⟨⟨6, 5, 0⟩, false, false⟩ rfl (Or.inl rfl) rfl rfl
  ⟨rfl, h.1, h.2.1, by rw [h.2.2 rfl]; simp⟩

/-! ### Diving into deep water -/

@[simp]
theorem prompts_shown_emit (e : event) (st : state) :
    prompts_shown (emit e st) = prompts_shown st ++ (if e.is_prompt then [e] else []) := by
  simp only [prompts_shown, emit_trace, List.filter_append, List.filter_cons, List.filter_nil]

@[simp]
theorem prompts_shown_add_msg (t : game_message_type) (s : String) (st : state) :
    prompts_shown (add_msg t s st) = prompts_shown st := by
  simp [add_msg, event.is_prompt]

@[simp]
theorem prompts_shown_invoke (sv : services) (c : call) (st : state) :
    prompts_shown (invoke sv c st).2 = prompts_shown st := by
  simp [prompts_shown, event.is_prompt]

@[simp]
theorem prompts_shown_query_yn (text : String) (st : state) :
    prompts_shown (query_yn text st).2 =
      prompts_shown st ++ [event.query_yn text (st.w.answers 0)] := by
  simp [prompts_shown, query_yn, event.is_prompt]

theorem prompts_shown_congr (s t : state) (h : t.trace = s.trace) :
    prompts_shown t = prompts_shown s := by
  simp only [prompts_shown, h]

@[simp]
theorem prompts_shown_sub_moves (n : Int) (st : state) :
    prompts_shown (sub_moves n st) = prompts_shown st := rfl

@[simp]
theorem prompts_shown_set_moves (n : Int) (st : state) :
    prompts_shown (set_moves n st) = prompts_shown st := rfl

@[simp]
theorem prompts_shown_setpos (p : tripoint) (st : state) :
    prompts_shown (setpos p st) = prompts_shown st := rfl

@[simp]
theorem prompts_shown_remove_effect (e : efftype_id) (st : state) :
    prompts_shown (remove_effect e st) = prompts_shown st := rfl

@[simp]
theorem prompts_shown_monster_remove_effect (id : Nat) (e : efftype_id) (st : state) :
    prompts_shown (monster_remove_effect id e st) = prompts_shown st := rfl

@[simp]
theorem prompts_shown_one_in (n : Int) (st : state) :
    prompts_shown (one_in n st).2 = prompts_shown st :=
  prompts_shown_congr _ _ (one_in_trace n st)

@[simp]
theorem prompts_shown_swim_wash (st : state) :
    prompts_shown (swim_wash st) = prompts_shown st := by
  unfold swim_wash
  simp only
  split_ifs <;> (try split) <;> (try split_ifs) <;> simp

@[simp]
theorem prompts_shown_swim_sink_body (st : state) :
    prompts_shown (swim_sink_body st) = prompts_shown st := by
  simp [swim_sink_body, prompts_shown]
  simp [event.is_prompt]

@[simp]
theorem prompts_shown_swim_sink (n : Int) (st : state) :
    prompts_shown (swim_sink n st) = prompts_shown st := by
  unfold swim_sink
  split_ifs <;> simp

@[simp]
theorem prompts_shown_swim_breath (n : Int) (st : state) :
    prompts_shown (swim_breath n st) = prompts_shown st := by
  unfold swim_breath
  split_ifs <;> simp [event.is_prompt]

@[simp]
theorem prompts_shown_swim_pay (n : Int) (b : Bool) (st : state) :
    prompts_shown (swim_pay n b st) = prompts_shown st := by
  unfold swim_pay
  split_ifs <;> simp

@[simp]
theorem prompts_shown_swim_arrive (sv : services) (n : Int) (b : Bool) (p : tripoint)
    (st : state) : prompts_shown (swim_arrive sv n b p st) = prompts_shown st := by
  unfold swim_arrive
  simp only
  split_ifs <;> simp

@[simp]
theorem prompts_shown_swim_board (sv : services) (n : Int) (p : tripoint) (st : state) :
    prompts_shown (swim_board sv n p st) = prompts_shown st := by
  unfold swim_board
  simp only
  split_ifs <;> (try split) <;> (try split_ifs) <;> simp

/-- The function `swim` shows no prompt. -/
@[simp]
theorem prompts_shown_swim (sv : services) (st : state) (p : tripoint) :
    prompts_shown (swim sv st p) = prompts_shown st := by
  unfold swim
  simp only
  split_ifs <;> simp [event.is_prompt]

@[simp]
theorem prompts_shown_dive_announce (b : Bool) (st : state) :
    prompts_shown (dive_announce b st) = prompts_shown st := by
  unfold dive_announce
  split_ifs <;> simp

theorem move_fast_vehicle_next (sv : services) (st s : state) (l : locals) (v : veh_locals)
    (y : locals × veh_locals) (h : move_fast_vehicle sv st l v = flow.next s y) :
    s = st ∧ y = (l, v) := by
  unfold move_fast_vehicle at h
  split at h
  · injection h with h1 h2
    exact ⟨h1.symm, h2.symm⟩
  · split at h
    · split at h
      · cases h
      · split at h
        · cases h
        · split at h
          · cases h
          · injection h with h1 h2
            exact ⟨h1.symm, h2.symm⟩
    · injection h with h1 h2
      exact ⟨h1.symm, h2.symm⟩

/-- A run that reaches the water check carries the vehicle locals computed from
the state it arrives in. -/
theorem move_upto_water_locals (sv : services) (st st1 : state) (d : tripoint)
    (x : locals × veh_locals) (hreach : move_upto_water sv st d = flow.next st1 x) :
    x.2 = veh_check st1 x.1.dest_loc := by
  unfold move_upto_water at hreach
  obtain ⟨s0, l0, _, h1⟩ := flow_andThen_eq_next _ _ _ _ hreach
  obtain ⟨e1, e2⟩ := move_fast_vehicle_next sv s0 st1 l0 _ x h1
  subst e1 e2
  rfl

/-- What `move` returns once it is about to dive. -/
theorem move_dive_eq (sv : services) (st st1 : state) (d : tripoint)
    (x : locals × veh_locals)
    (hreach : move_upto_water sv st d = flow.next st1 x)
    (hswim : st1.w.m.has_flag ter_flag.SWIMMABLE x.1.dest_loc = true)
    (hdeep : st1.w.m.has_flag ter_flag.DEEP_WATER x.1.dest_loc = true)
    (hboat : is_boat st1 (veh_pointer_or_null st1 x.1.dest_loc) = false)
    (hconsent : (mount_consent sv st1 x.1).1 = true)
    (hmount : (x.1.is_riding && mount_cannot_swim (mount_consent sv st1 x.1).2) = false) :
    move sv st d = (true, move_dive sv (mount_consent sv st1 x.1).2 x.1.dest_loc
      (in_open_deep_water st1 (veh_pointer_or_null st1 st1.w.you.position))
      (!st1.w.m.has_flag ter_flag.DEEP_WATER st1.w.you.position ||
        is_boat st1 (veh_pointer_or_null st1 st1.w.you.position))) := by
  have hv := move_upto_water_locals sv st st1 d x hreach
  have hb : is_boat st1 (x.2.vp1.map (fun vp => vp.veh)) = false := by
    rw [hv]
    exact hboat
  have h0 : x.2.veh0 = veh_pointer_or_null st1 st1.w.you.position := by
    rw [hv]
    rfl
  simp only [move, move_upto_tail, hreach, flow_next_andThen, move_water, hconsent, hswim,
    hdeep, hb, hmount, h0, in_open_deep_water]
  simp

/-- Swimmable deep water that `move` does not dive into: in `fast_boat_world`
the avatar stands on a boat that moves at velocity 500, the tile to the east is
swimmable deep water with no boat on it and there is no mount, yet `move`
returns false, and the one prompt shown is "Dive from moving vehicle?". -/
theorem move_from_fast_boat_into_water :
    fast_boat_world.m.has_flag ter_flag.SWIMMABLE ⟨6, 5, 0⟩ = true ∧
    fast_boat_world.m.has_flag ter_flag.DEEP_WATER ⟨6, 5, 0⟩ = true ∧
    is_boat ⟨fast_boat_world, []⟩ (veh_pointer_or_null ⟨fast_boat_world, []⟩ ⟨6, 5, 0⟩) = false ∧
    is_mounted ⟨fast_boat_world, []⟩ = false ∧
    in_open_deep_water ⟨fast_boat_world, []⟩
      (veh_pointer_or_null ⟨fast_boat_world, []⟩ ⟨5, 5, 0⟩) = false ∧
    (move example_services ⟨fast_boat_world, []⟩ ⟨1, 0, 0⟩).1 = false ∧
    prompts_shown (move example_services ⟨fast_boat_world, []⟩ ⟨1, 0, 0⟩).2 =
      [event.query_yn "Dive from moving vehicle?" true] :=
  ⟨rfl, rfl, rfl, rfl, rfl, rfl, rfl⟩

/-- C7: once the run reaches the water check (no earlier return) with a
destination that is swimmable deep water not covered by a boat (and a mount, if
any, consents and can swim while carrying the avatar), `move` returns
true.  If the avatar already stands in swimmable deep water outside a boat, no
prompt is shown and `swim` runs.  Otherwise exactly one prompt, "Dive into the
water?", is shown; `swim` runs if it is accepted, and if it is declined nothing
happens but `on_move_effects`, so the avatar's position stays the same (as long as
`on_move_effects` keeps it). -/
theorem move_dive_confirmation (sv : services) (st st1 : state) (d : tripoint)
    (x : locals × veh_locals)
    (hreach : move_upto_water sv st d = flow.next st1 x)
    (hswim : st1.w.m.has_flag ter_flag.SWIMMABLE x.1.dest_loc = true)
    (hdeep : st1.w.m.has_flag ter_flag.DEEP_WATER x.1.dest_loc = true)
    (hboat : is_boat st1 (veh_pointer_or_null st1 x.1.dest_loc) = false)
    (hconsent : (mount_consent sv st1 x.1).1 = true)
    (hmount : (x.1.is_riding && mount_cannot_swim (mount_consent sv st1 x.1).2) = false) :
    (move sv st d).1 = true ∧
    (in_open_deep_water st1 (veh_pointer_or_null st1 st1.w.you.position) = true →
      prompts_shown (move sv st d).2 = prompts_shown (mount_consent sv st1 x.1).2 ∧
      (move sv st d).2 =
        (invoke sv call.on_move_effects
          (swim sv
            (dive_announce
              (!st1.w.m.has_flag ter_flag.DEEP_WATER st1.w.you.position ||
                is_boat st1 (veh_pointer_or_null st1 st1.w.you.position))
              (mount_consent sv st1 x.1).2)
            x.1.dest_loc)).2) ∧
    (in_open_deep_water st1 (veh_pointer_or_null st1 st1.w.you.position) = false →
      prompts_shown (move sv st d).2 =
        prompts_shown (mount_consent sv st1 x.1).2 ++
          [event.query_yn "Dive into the water?" ((mount_consent sv st1 x.1).2.w.answers 0)] ∧
      ((mount_consent sv st1 x.1).2.w.answers 0 = true →
        (move sv st d).2 =
          (invoke sv call.on_move_effects
            (swim sv
              (dive_announce
                (!st1.w.m.has_flag ter_flag.DEEP_WATER st1.w.you.position ||
                  is_boat st1 (veh_pointer_or_null st1 st1.w.you.position))
                (query_yn "Dive into the water?" (mount_consent sv st1 x.1).2).2)
              x.1.dest_loc)).2) ∧
      ((mount_consent sv st1 x.1).2.w.answers 0 = false →
        (move sv st d).2 =
          (invoke sv call.on_move_effects
            (query_yn "Dive into the water?" (mount_consent sv st1 x.1).2).2).2 ∧
        (move sv st d).2.trace =
          (mount_consent sv st1 x.1).2.trace ++
            [event.query_yn "Dive into the water?" false,
             event.called call.on_move_effects] ∧
        ((∀ w, (sv.run call.on_move_effects w).2.you.position = w.you.position) →
          (move sv st d).2.w.you.position = (mount_consent sv st1 x.1).2.w.you.position))) := by
  rw [move_dive_eq sv st st1 d x hreach hswim hdeep hboat hconsent hmount]
  refine ⟨rfl, ?_, ?_⟩
  · intro ha
    simp [move_dive, ha]
  · intro ha
    have hq : (query_yn "Dive into the water?" (mount_consent sv st1 x.1).2).1 =
        (mount_consent sv st1 x.1).2.w.answers 0 := rfl
    refine ⟨?_, ?_, ?_⟩
    · simp only [move_dive, ha, Bool.false_eq_true, if_false]
      split_ifs <;> simp
    · intro hy
      simp [move_dive, ha, hq, hy]
    · intro hn
      refine ⟨?_, ?_, ?_⟩
      · simp [move_dive, ha, hq, hn]
      · simp [move_dive, ha, hq, hn, query_yn]
      · intro hk
        simp only [move_dive, ha, hq, hn, Bool.false_eq_true, if_false, invoke_w, hk]
        rfl

/-- C7 in `shore_world`: the avatar on dry land is asked once, accepts, and
`move` returns true with the avatar in the water at `(6, 5, 0)`. -/
theorem move_dive_confirmation_witness :
    in_open_deep_water ⟨shore_world, []⟩ none = false ∧
    (move example_services ⟨shore_world, []⟩ ⟨1, 0, 0⟩).1 = true ∧
    prompts_shown (move example_services ⟨shore_world, []⟩ ⟨1, 0, 0⟩).2 =
      [event.query_yn "Dive into the water?" true] ∧
    (move example_services ⟨shore_world, []⟩ ⟨1, 0, 0⟩).2.w.you.position = ⟨6, 5, 0⟩ :=
  have h := move_dive_confirmation example_services ⟨shore_world, []⟩
    (move_upto_water example_services ⟨shore_world, []⟩ ⟨1, 0, 0⟩).state ⟨1, 0, 0⟩
    (⟨⟨6, 5, 0⟩, false, false⟩, ⟨none, none, -1, false, true⟩) rfl rfl rfl rfl rfl rfl
  ⟨rfl, h.1, (h.2.2 rfl).1, by rw [(h.2.2 rfl).2.1 rfl]; rfl⟩

/-! ### Stepping around on a fast vehicle -/

/-- Once the vehicle check is reached, `move` is the rest of the function from
there. -/
theorem move_eq_from_vehicle (sv : services) (st st1 : state) (d : tripoint) (l : locals)
    (hreach : move_upto_vehicle sv st d = flow.next st1 l) :
    move sv st d =
      ((((move_fast_vehicle sv st1 l (veh_check st1 l.dest_loc)).andThen
        (move_water sv)).andThen (move_doors sv)).finish move_tail) := by
  simp only [move, move_upto_tail, move_upto_water, hreach, flow_next_andThen, move_vehicle]

/-- Within the range where the negation does not overflow, `std::abs` on `int`
is the absolute value. -/
theorem std_abs_of_fits (v : Int) (h : (v.natAbs : Int) ≤ INT_MAX) :
    std_abs v = (v.natAbs : Int) := by
  unfold std_abs wrap_int
  unfold INT_MAX at h
  split_ifs <;> omega

/-- At the most negative `int` the negation wraps around and `std::abs` returns
its argument. -/
theorem std_abs_int_min : std_abs (-2147483648) = -2147483648 := by decide

/-- A vehicle at the most negative velocity is not taken for a fast one: the
check of lines 320-333 refuses nothing. -/
theorem move_vehicle_at_int_min (sv : services) (st : state) (l : locals) (v0 : Nat)
    (hveh0 : veh_pointer_or_null st st.w.you.position = some v0)
    (hmin : (st.w.m.vehicles v0).velocity = -2147483648) :
    move_vehicle sv st l = flow.next st (l, veh_check st l.dest_loc) := by
  have hv0 : (veh_check st l.dest_loc).veh0 = some v0 := hveh0
  have hn : ¬ std_abs (st.w.m.vehicles v0).velocity > 100 := by
    rw [hmin, std_abs_int_min]
    decide
  simp only [move_vehicle, move_fast_vehicle, hv0, hn, if_false]

/-- A run of `move` that mines automatically returns true before the vehicle
check: in `mining_world` the avatar stands on vehicle 1, which moves at velocity
500, the tile to the east has no vehicle, and `move` uses the pickaxe on it and
returns true. -/
theorem move_mines_from_fast_vehicle :
    veh_pointer_or_null ⟨mining_world, []⟩ ⟨5, 5, 0⟩ = some 1 ∧
    (mining_world.m.vehicles 1).velocity = 500 ∧
    mining_world.m.veh_at ⟨6, 5, 0⟩ = none ∧
    (move example_services ⟨mining_world, []⟩ ⟨1, 0, 0⟩).1 = true ∧
    (move example_services ⟨mining_world, []⟩ ⟨1, 0, 0⟩).2.trace =
      [event.called call.check_safe_mode_allowed,
       event.called (call.invoke_item_weapon "PICKAXE" ⟨6, 5, 0⟩),
       event.called (call.defer_move ⟨6, 5, 0⟩)] :=
  ⟨rfl, rfl, rfl, rfl, rfl⟩

/-- C8: once the run reaches the vehicle check (no earlier return), if the avatar
stands in a vehicle whose velocity exceeds 100 in absolute value (and is not the
most negative `int`, whose absolute value is no `int`), `move` returns false
without stepping when the destination has no vehicle (the prompt "Dive from
moving vehicle?" is shown and `moving_vehicle_dismount` is called only if it is
accepted), when it belongs to another vehicle, and when it is a part of the same
vehicle without an enabled BOARDABLE feature; with an absolute velocity of 100 or
less the check refuses nothing. -/
theorem move_on_fast_vehicle (sv : services) (st st1 : state) (d : tripoint) (l : locals)
    (v0 : Nat)
    (hreach : move_upto_vehicle sv st d = flow.next st1 l)
    (hveh0 : veh_pointer_or_null st1 st1.w.you.position = some v0) :
    ((st1.w.m.vehicles v0).velocity.natAbs > 100 →
      ((st1.w.m.vehicles v0).velocity.natAbs : Int) ≤ INT_MAX →
      (st1.w.m.veh_at l.dest_loc = none →
        move sv st d = (false,
          if st1.w.answers 0 = true then
            (invoke sv (call.moving_vehicle_dismount l.dest_loc)
              (query_yn "Dive from moving vehicle?" st1).2).2
          else (query_yn "Dive from moving vehicle?" st1).2) ∧
        (move sv st d).2.trace =
          st1.trace ++ [event.query_yn "Dive from moving vehicle?" (st1.w.answers 0)] ++
            (if st1.w.answers 0 = true
              then [event.called (call.moving_vehicle_dismount l.dest_loc)] else []) ∧
        (st1.w.answers 0 = false →
          (move sv st d).2.w.you.position = st1.w.you.position)) ∧
      (∀ p1, st1.w.m.veh_at l.dest_loc = some p1 → p1.veh ≠ v0 →
        move sv st d = (false,
          add_msg game_message_type.m_info "There is another vehicle in the way." st1)) ∧
      (∀ p1, st1.w.m.veh_at l.dest_loc = some p1 → p1.veh = v0 → p1.boardable = false →
        move sv st d = (false,
          add_msg game_message_type.m_info "That part of the vehicle is currently unsafe."
            st1))) ∧
    ((st1.w.m.vehicles v0).velocity.natAbs ≤ 100 →
      move_vehicle sv st1 l = flow.next st1 (l, veh_check st1 l.dest_loc)) := by
  have hv0 : (veh_check st1 l.dest_loc).veh0 = some v0 := hveh0
  have hvp1 : (veh_check st1 l.dest_loc).vp1 = st1.w.m.veh_at l.dest_loc := rfl
  refine ⟨?_, ?_⟩
  · intro hfast0 hfits
    have hfast : std_abs (st1.w.m.vehicles v0).velocity > 100 := by
      rw [std_abs_of_fits _ hfits]
      omega
    rw [move_eq_from_vehicle sv st st1 d l hreach]
    refine ⟨?_, ?_, ?_⟩
    · intro hnone
      have hq : (query_yn "Dive from moving vehicle?" st1).1 = st1.w.answers 0 := rfl
      have hm : move_fast_vehicle sv st1 l (veh_check st1 l.dest_loc) =
          flow.done false
            (if st1.w.answers 0 = true then
              (invoke sv (call.moving_vehicle_dismount l.dest_loc)
                (query_yn "Dive from moving vehicle?" st1).2).2
            else (query_yn "Dive from moving vehicle?" st1).2) := by
        simp only [move_fast_vehicle, hv0, hvp1, hnone, hfast, if_true, hq]
      rw [hm]
      refine ⟨rfl, ?_, ?_⟩
      · simp only [flow_done_andThen, flow_done_finish]
        split_ifs <;> simp [query_yn]
      · intro hno
        simp only [flow_done_andThen, flow_done_finish, hno, Bool.false_eq_true, if_false]
        rfl
    · intro p1 hp1 hne
      simp [move_fast_vehicle, hv0, hvp1, hp1, hfast, hne]
    · intro p1 hp1 he hb
      simp [move_fast_vehicle, hv0, hvp1, hp1, hfast, he, hb]
  · intro hslow
    have hfits : ((st1.w.m.vehicles v0).velocity.natAbs : Int) ≤ INT_MAX := by
      unfold INT_MAX
      omega
    have hn : ¬ std_abs (st1.w.m.vehicles v0).velocity > 100 := by
      rw [std_abs_of_fits _ hfits]
      omega
    simp only [move_vehicle, move_fast_vehicle, hv0, hn, if_false]

/-- C8 in `speeding_world`: the avatar rides vehicle 1 at velocity 500 and the
tile to the east has no vehicle; the prompt is accepted, so the avatar dismounts
and `move` returns false. -/
theorem move_on_fast_vehicle_witness :
    veh_pointer_or_null ⟨speeding_world, []⟩ ⟨5, 5, 0⟩ = some 1 ∧
    (speeding_world.m.vehicles 1).velocity.natAbs > 100 ∧
    ((speeding_world.m.vehicles 1).velocity.natAbs : Int) ≤ INT_MAX ∧
    (move example_services ⟨speeding_world, []⟩ ⟨1, 0, 0⟩).1 = false ∧
    (move example_services ⟨speeding_world, []⟩ ⟨1, 0, 0⟩).2.trace =
      (move_upto_vehicle example_services ⟨speeding_world, []⟩ ⟨1, 0, 0⟩).state.trace ++
        [event.query_yn "Dive from moving vehicle?" true,
         event.called (call.moving_vehicle_dismount ⟨6, 5, 0⟩)] :=
  have h := ((move_on_fast_vehicle example_services ⟨speeding_world, []⟩
    (move_upto_vehicle example_services ⟨speeding_world, []⟩ ⟨1, 0, 0⟩).state ⟨1, 0, 0⟩
    ⟨⟨6, 5, 0⟩, false, false⟩ 1 rfl rfl).1 (by decide) (by decide)).1 rfl
  ⟨rfl, by decide, by decide, congrArg Prod.fst h.1, h.2.1⟩

/-! ### Every run of `move` leaves its mark on the trace -/

theorem prefix_append_of {α : Type} (t a b : List α) (h : t <+: a) : t <+: a ++ b :=
  h.trans (List.prefix_append a b)

@[simp]
theorem query_yn_trace (text : String) (st : state) :
    (query_yn text st).2.trace = st.trace ++ [event.query_yn text (st.w.answers 0)] := rfl

@[simp]
theorem set_moves_trace (n : Int) (st : state) : (set_moves n st).trace = st.trace := rfl

@[simp]
theorem setpos_trace (p : tripoint) (st : state) : (setpos p st).trace = st.trace := rfl

@[simp]
theorem remove_effect_trace (e : efftype_id) (st : state) :
    (remove_effect e st).trace = st.trace := rfl

@[simp]
theorem monster_remove_effect_trace (id : Nat) (e : efftype_id) (st : state) :
    (monster_remove_effect id e st).trace = st.trace := rfl

theorem swim_wash_grows (t : List event) (st : state) (h : t <+: st.trace) :
    t <+: (swim_wash st).trace := by
  unfold swim_wash
  simp only
  split_ifs <;> (try split) <;> (try split_ifs) <;> simp [h, prefix_append_of]

theorem swim_sink_grows (t : List event) (n : Int) (st : state) (h : t <+: st.trace) :
    t <+: (swim_sink n st).trace := by
  unfold swim_sink swim_sink_body
  split_ifs <;> simp [h, prefix_append_of]

theorem swim_breath_grows (t : List event) (n : Int) (st : state) (h : t <+: st.trace) :
    t <+: (swim_breath n st).trace := by
  unfold swim_breath
  split_ifs <;> simp [h, prefix_append_of]

theorem swim_arrive_grows (t : List event) (sv : services) (n : Int) (b : Bool) (p : tripoint)
    (st : state) (h : t <+: st.trace) : t <+: (swim_arrive sv n b p st).trace := by
  unfold swim_arrive swim_pay
  simp only
  split_ifs <;> simp [h, prefix_append_of]

theorem swim_board_grows (t : List event) (sv : services) (n : Int) (p : tripoint)
    (st : state) (h : t <+: st.trace) : t <+: (swim_board sv n p st).trace := by
  unfold swim_board
  simp only
  split_ifs <;> (try split) <;> (try split_ifs) <;>
    (first
      | exact swim_arrive_grows t sv n _ p _ (by simp [h, prefix_append_of])
      | simp [h, prefix_append_of])

theorem swim_grows (t : List event) (sv : services) (st : state) (p : tripoint)
    (h : t <+: st.trace) : t <+: (swim sv st p).trace := by
  unfold swim
  simp only
  split_ifs
  all_goals
    first
      | exact swim_board_grows t sv _ p _ (swim_breath_grows t _ _ (swim_sink_grows t _ _
          (by simp [swim_wash_grows t st h, prefix_append_of])))
      | simp [h, prefix_append_of]

theorem move_dive_grows (t : List event) (sv : services) (st : state) (p : tripoint)
    (a b : Bool) (h : t <+: st.trace) : t <+: (move_dive sv st p a b).trace := by
  unfold move_dive dive_announce
  split_ifs
  all_goals simp only [invoke_trace]
  all_goals
    first
      | exact prefix_append_of _ _ _ (swim_grows t sv _ p (by simp [h, prefix_append_of]))
      | simp [h, prefix_append_of]

theorem defer_if_auto_grows (t : List event) (sv : services) (p : tripoint) (st : state)
    (h : t <+: st.trace) : t <+: (defer_if_auto sv p st).trace := by
  unfold defer_if_auto
  split_ifs <;> simp [h, prefix_append_of]

theorem move_veh_door_grows (t : List event) (sv : services) (st : state) (l : locals)
    (v : veh_locals) (veh1 : Nat) (h : t <+: st.trace) :
    t <+: (move_veh_door sv st l v veh1).trace := by
  unfold move_veh_door
  simp only
  split_ifs
  all_goals
    first
      | exact defer_if_auto_grows t sv _ _ (by simp [h, prefix_append_of])
      | simp [h, prefix_append_of]

theorem move_melee_grows (t : List event) (sv : services) (p : tripoint) (id : Nat)
    (st : state) (h : t <+: st.trace) : t <+: (move_melee sv p id st).trace := by
  unfold move_melee
  simp only
  split_ifs <;> simp [h, prefix_append_of]

theorem move_attack_grows (t : List event) (sv : services) (p : tripoint) (id : Nat)
    (st : state) (h : t <+: st.trace) : t <+: (move_attack sv p id st).trace := by
  unfold move_attack
  split_ifs
  all_goals
    first
      | exact move_melee_grows t sv p id _ (by simp [h, prefix_append_of])
      | simp [h, prefix_append_of]

theorem flow_andThen_grows {α β : Type} (t : List event) (f : flow α)
    (k : state → α → flow β) (hf : t <+: f.state.trace)
    (hk : ∀ s x, t <+: s.trace → t <+: (k s x).state.trace) :
    t <+: (f.andThen k).state.trace := by
  cases f with
  | done r st => exact hf
  | next st x => exact hk st x hf

theorem flow_finish_grows {α : Type} (t : List event) (f : flow α)
    (k : state → α → Bool × state) (hf : t <+: f.state.trace)
    (hk : ∀ s x, t <+: s.trace → t <+: (k s x).2.trace) :
    t <+: (f.finish k).2.trace := by
  cases f with
  | done r st => exact hf
  | next st x => exact hk st x hf

theorem move_begin_grows (sv : services) (st : state) (d : tripoint) :
    st.trace ++ [event.called call.check_safe_mode_allowed] <+:
      (move_begin sv st d).state.trace := by
  unfold move_begin
  simp only
  split_ifs <;> simp [flow.state]

theorem move_mining_grows (t : List event) (sv : services) (st : state) (l : locals)
    (h : t <+: st.trace) : t <+: (move_mining sv st l).state.trace := by
  unfold move_mining
  split_ifs <;> simp [flow.state, h, prefix_append_of]

theorem move_amigara_grows (t : List event) (sv : services) (st : state) (l : locals)
    (h : t <+: st.trace) : t <+: (move_amigara sv st l).state.trace := by
  unfold move_amigara
  split_ifs <;> simp [flow.state, h, prefix_append_of]

theorem move_robot_grows (t : List event) (sv : services) (st : state) (l : locals)
    (h : t <+: st.trace) : t <+: (move_robot sv st l).state.trace := by
  unfold move_robot
  split_ifs <;> simp [flow.state, h, prefix_append_of]

theorem move_effects_check_grows (t : List event) (sv : services) (st : state) (l : locals)
    (h : t <+: st.trace) : t <+: (move_effects_check sv st l).state.trace := by
  unfold move_effects_check
  split_ifs <;> simp [flow.state, h, prefix_append_of]

theorem move_monster_grows (t : List event) (sv : services) (st : state) (l : locals)
    (h : t <+: st.trace) : t <+: (move_monster sv st l).state.trace := by
  unfold move_monster
  split
  · exact h
  · split_ifs
    all_goals
      first
        | exact move_attack_grows t sv _ _ _ h
        | simp [flow.state, h, prefix_append_of]

theorem move_npc_grows (t : List event) (sv : services) (st : state) (l : locals)
    (h : t <+: st.trace) : t <+: (move_npc sv st l).state.trace := by
  unfold move_npc
  split
  · exact h
  · split_ifs <;> simp [flow.state, h, prefix_append_of]

theorem move_vehicle_grows (t : List event) (sv : services) (st : state) (l : locals)
    (h : t <+: st.trace) : t <+: (move_vehicle sv st l).state.trace := by
  unfold move_vehicle move_fast_vehicle
  repeat' split
  all_goals simp [flow.state, h, prefix_append_of]

theorem mount_consent_grows (t : List event) (sv : services) (st : state) (l : locals)
    (h : t <+: st.trace) : t <+: (mount_consent sv st l).2.trace := by
  unfold mount_consent
  split_ifs <;> simp [h, prefix_append_of]

theorem move_water_grows (t : List event) (sv : services) (st : state)
    (x : locals × veh_locals) (h : t <+: st.trace) :
    t <+: (move_water sv st x).state.trace := by
  have hc := mount_consent_grows t sv st x.1 h
  unfold move_water
  simp only
  split_ifs
  all_goals
    first
      | exact move_dive_grows t sv _ _ _ _ hc
      | simp [flow.state, hc, prefix_append_of]

theorem move_doors_grows (t : List event) (sv : services) (st : state)
    (x : locals × veh_locals) (h : t <+: st.trace) :
    t <+: (move_doors sv st x).state.trace := by
  unfold move_doors
  simp only
  repeat' split
  all_goals simp only [flow.state]
  all_goals
    first
      | exact defer_if_auto_grows t sv _ _ (by simp [h, prefix_append_of])
      | exact move_veh_door_grows t sv _ _ _ _ (by simp [h, prefix_append_of])
      | simp [h, prefix_append_of]

theorem move_tail_grows (t : List event) (st : state) (l : locals) (h : t <+: st.trace) :
    t <+: (move_tail st l).2.trace := by
  unfold move_tail
  simp only
  split_ifs <;> simp [h, prefix_append_of]

/-- Every run of `move` records, as its first new event, the call of the
safe-mode check. -/
theorem move_records_safe_mode_check (sv : services) (st : state) (d : tripoint) :
    ∃ rest, (move sv st d).2.trace =
      st.trace ++ event.called call.check_safe_mode_allowed :: rest := by
  have h : st.trace ++ [event.called call.check_safe_mode_allowed] <+:
      (move sv st d).2.trace := by
    unfold move move_upto_tail move_upto_water move_upto_vehicle move_upto_monster
      move_upto_amigara
    refine flow_finish_grows _ _ _ ?_ (fun s x hs => move_tail_grows _ s x hs)
    refine flow_andThen_grows _ _ _ ?_ (fun s x hs => move_doors_grows _ sv s x hs)
    refine flow_andThen_grows _ _ _ ?_ (fun s x hs => move_water_grows _ sv s x hs)
    refine flow_andThen_grows _ _ _ ?_ (fun s x hs => move_vehicle_grows _ sv s x hs)
    refine flow_andThen_grows _ _ _ ?_ (fun s x hs => move_npc_grows _ sv s x hs)
    refine flow_andThen_grows _ _ _ ?_ (fun s x hs => move_monster_grows _ sv s x hs)
    refine flow_andThen_grows _ _ _ ?_ (fun s x hs => move_effects_check_grows _ sv s x hs)
    refine flow_andThen_grows _ _ _ ?_ (fun s x hs => move_robot_grows _ sv s x hs)
    refine flow_andThen_grows _ _ _ ?_ (fun s x hs => move_amigara_grows _ sv s x hs)
    refine flow_andThen_grows _ _ _ ?_ (fun s x hs => by simpa [flow.state] using hs)
    refine flow_andThen_grows _ _ _ ?_ (fun s x hs => move_mining_grows _ sv s _ hs)
    exact move_begin_grows sv st d
  obtain ⟨rest, hr⟩ := h
  exact ⟨rest, by rw [← hr]; simp⟩

/-! ## Claims about `avatar_action::ramp_move` -/

/-- C9: `ramp_move` is never recursive across z-levels: for a destination whose z
differs from the avatar's, it returns false and the state is the one it was given:
position and move points as before, no event recorded, whereas any run of `move`
would have recorded at least its safe-mode check. -/
theorem ramp_move_other_level (sv : services) (st : state) (dest_loc : tripoint)
    (hz : dest_loc.z ≠ st.w.you.position.z) :
    ramp_move sv st dest_loc = (false, st) ∧
    (ramp_move sv st dest_loc).2.w.you.position = st.w.you.position ∧
    (ramp_move sv st dest_loc).2.w.you.moves = st.w.you.moves ∧
    (ramp_move sv st dest_loc).2.trace = st.trace ∧
    ∀ d, (move sv st d).2.trace ≠ (ramp_move sv st dest_loc).2.trace := by
  have h : ramp_move sv st dest_loc = (false, st) := by
    simp only [ramp_move, hz, ne_eq, not_false_eq_true, if_true]
  rw [h]
  refine ⟨rfl, rfl, rfl, rfl, ?_⟩
  intro d hd
  obtain ⟨rest, hr⟩ := move_records_safe_mode_check sv st d
  rw [hr] at hd
  have hlen := congrArg List.length hd
  simp at hlen

/-- C9 in `ramp_world`: a destination one level up is refused and nothing is
recorded. -/
theorem ramp_move_other_level_witness :
    ramp_move walking_services ⟨ramp_world, []⟩ ⟨6, 5, 1⟩ = (false, ⟨ramp_world, []⟩) ∧
    (ramp_move walking_services ⟨ramp_world, []⟩ ⟨6, 5, 1⟩).2.trace = [] :=
  have h := ramp_move_other_level walking_services ⟨ramp_world, []⟩ ⟨6, 5, 1⟩ (by decide)
  ⟨h.1, h.2.2.2.1⟩

/-- C10: on the climbing path (destination on the avatar's level, with floor or
support, impassable; the avatar on a RAMP tile with no floor or support above),
`ramp_move` runs `move` with the xy displacement and z = +1 (its events are those
of that run) and returns true whatever `move` returned; if the avatar's position
is what it was, nothing more is charged; if it changed, the extra cost is exactly 50 move points when some tile
within radius 1 of the starting position has RAMP_END and `rl_dist` below 2 to the
destination, and exactly 100 otherwise. -/
theorem ramp_move_climb_cost (sv : services) (st : state) (dest_loc : tripoint)
    (hz : dest_loc.z = st.w.you.position.z)
    (hfloor : st.w.m.has_floor_or_support dest_loc = true)
    (hramp : st.w.m.has_flag ter_flag.RAMP st.w.you.position = true)
    (hwall : st.w.m.passable dest_loc = false)
    (hopen : st.w.m.has_floor_or_support
      ⟨st.w.you.position.x, st.w.you.position.y, st.w.you.position.z + 1⟩ = false) :
    (ramp_move sv st dest_loc).1 = true ∧
    (ramp_move sv st dest_loc).2.trace =
      (move sv st ⟨dest_loc.x - st.w.you.position.x, dest_loc.y - st.w.you.position.y,
        1⟩).2.trace ∧
    ((move sv st ⟨dest_loc.x - st.w.you.position.x, dest_loc.y - st.w.you.position.y,
        1⟩).2.w.you.position = st.w.you.position →
      (ramp_move sv st dest_loc).2 =
        (move sv st ⟨dest_loc.x - st.w.you.position.x, dest_loc.y - st.w.you.position.y,
          1⟩).2) ∧
    ((move sv st ⟨dest_loc.x - st.w.you.position.x, dest_loc.y - st.w.you.position.y,
        1⟩).2.w.you.position ≠ st.w.you.position →
      ((∃ pt ∈ st.w.m.points_in_radius st.w.you.position 1,
          sv.rl_dist pt dest_loc < 2 ∧ st.w.m.has_flag ter_flag.RAMP_END pt = true) →
        (ramp_move sv st dest_loc).2 =
          sub_moves 50 (move sv st ⟨dest_loc.x - st.w.you.position.x,
            dest_loc.y - st.w.you.position.y, 1⟩).2) ∧
      ((¬ ∃ pt ∈ st.w.m.points_in_radius st.w.you.position 1,
          sv.rl_dist pt dest_loc < 2 ∧ st.w.m.has_flag ter_flag.RAMP_END pt = true) →
        (ramp_move sv st dest_loc).2 =
          sub_moves 100 (move sv st ⟨dest_loc.x - st.w.you.position.x,
            dest_loc.y - st.w.you.position.y, 1⟩).2)) := by
  have h : ramp_move sv st dest_loc = ramp_climb sv st dest_loc := by
    simp [ramp_move, hz, hfloor, hramp, hwall, hopen]
  have ha : aligned_ramps sv st dest_loc = true ↔
      ∃ pt ∈ st.w.m.points_in_radius st.w.you.position 1,
        sv.rl_dist pt dest_loc < 2 ∧ st.w.m.has_flag ter_flag.RAMP_END pt = true := by
    simp [aligned_ramps, List.any_eq_true]
  rw [h]
  refine ⟨rfl, ?_, ?_, ?_⟩
  · simp only [ramp_climb]
    split_ifs <;> simp
  · intro hsame
    simp [ramp_climb, hsame]
  · intro hmoved
    refine ⟨?_, ?_⟩
    · intro hal
      simp [ramp_climb, hmoved, ha.mpr hal]
    · intro hal
      have hf : aligned_ramps sv st dest_loc = false := by
        rw [← Bool.not_eq_true]
        exact fun h => hal (ha.mp h)
      simp [ramp_climb, hmoved, hf]

/-- C10 in `ramp_world` with walking collaborators: the climb east succeeds, the
ramp end at `(6, 5, 0)` is aligned, and the avatar arrives at `(6, 5, 1)` having
paid 50 of its 100 move points. -/
theorem ramp_move_climb_cost_witness :
    (ramp_move walking_services ⟨ramp_world, []⟩ ⟨6, 5, 0⟩).1 = true ∧
    (ramp_move walking_services ⟨ramp_world, []⟩ ⟨6, 5, 0⟩).2.w.you.position = ⟨6, 5, 1⟩ ∧
    (ramp_move walking_services ⟨ramp_world, []⟩ ⟨6, 5, 0⟩).2.w.you.moves = 50 :=
  have h := ramp_move_climb_cost walking_services ⟨ramp_world, []⟩ ⟨6, 5, 0⟩ rfl rfl rfl rfl rfl
  have h2 := (h.2.2.2 (by decide)).1 ⟨⟨6, 5, 0⟩, by decide, by decide, by decide⟩
  ⟨h.1, by rw [h2]; rfl, by rw [h2]; rfl⟩

/-! ## Claims about `avatar_action::swim` -/

/-- On a target that is not swimmable `swim` only reports the debug message. -/
theorem swim_rejects_non_swimmable_state (sv : services) (st : state) (p : tripoint)
    (h : st.w.m.has_flag ter_flag.SWIMMABLE p = false) :
    swim sv st p =
      emit (event.debugmsg ("Tried to swim in " ++ st.w.m.tername p ++ "!")) st := by
  simp [swim, h]

/-- C11: `swim` rejects a non-swimmable target: when `p` lacks the SWIMMABLE flag
it reports the debug message and returns; the world is untouched, so the avatar's
position, move points, oxygen, underwater flag and effects (onfire and glowing
among them) are what they were. -/
theorem swim_rejects_non_swimmable (sv : services) (st : state) (p : tripoint)
    (h : st.w.m.has_flag ter_flag.SWIMMABLE p = false) :
    (swim sv st p).trace =
      st.trace ++ [event.debugmsg ("Tried to swim in " ++ st.w.m.tername p ++ "!")] ∧
    (swim sv st p).w = st.w ∧
    (swim sv st p).w.you.position = st.w.you.position ∧
    (swim sv st p).w.you.moves = st.w.you.moves ∧
    (swim sv st p).w.you.oxygen = st.w.you.oxygen ∧
    (swim sv st p).w.you.underwater = st.w.you.underwater ∧
    (swim sv st p).w.you.effects = st.w.you.effects := by
  rw [swim_rejects_non_swimmable_state sv st p h]
  exact ⟨rfl, rfl, rfl, rfl, rfl, rfl, rfl⟩

/-- C11 in the example world, where nothing is swimmable: the only trace of the
attempt to swim east is the debug message. -/
theorem swim_rejects_non_swimmable_witness :
    (swim example_services ⟨example_world, []⟩ ⟨6, 5, 0⟩).trace =
      [event.debugmsg "Tried to swim in wall!"] ∧
    (swim example_services ⟨example_world, []⟩ ⟨6, 5, 0⟩).w.you.position = ⟨5, 5, 0⟩ ∧
    (swim example_services ⟨example_world, []⟩ ⟨6, 5, 0⟩).w.you.moves = 100 :=
  have h := swim_rejects_non_swimmable example_services ⟨example_world, []⟩ ⟨6, 5, 0⟩ rfl
  ⟨h.1, h.2.2.1, h.2.2.2.1⟩

/-! ### Sinking -/

/-- The water of lines 495-508 leaves the avatar's breath, strength, fins and swim
speed alone. -/
theorem swim_wash_stats (st : state) :
    (swim_wash st).w.you.underwater = st.w.you.underwater ∧
    (swim_wash st).w.you.oxygen = st.w.you.oxygen ∧
    (swim_wash st).w.you.str_cur = st.w.you.str_cur ∧
    (swim_wash st).w.you.swim_fins = st.w.you.swim_fins ∧
    (swim_wash st).w.you.swim_speed = st.w.you.swim_speed := by
  unfold swim_wash
  simp only
  split_ifs <;> (try split) <;> (try split_ifs) <;> exact ⟨rfl, rfl, rfl, rfl, rfl⟩

theorem swim_wash_swim_speed (st : state) :
    (swim_wash st).w.you.swim_speed = st.w.you.swim_speed :=
  (swim_wash_stats st).2.2.2.2

@[simp]
theorem swim_breath_w (n : Int) (st : state) : (swim_breath n st).w = st.w := by
  unfold swim_breath
  split_ifs <;> rfl

theorem swim_pay_breath (n : Int) (b : Bool) (st : state) :
    (swim_pay n b st).w.you.breath = st.w.you.breath := by
  unfold swim_pay
  split_ifs <;> rfl

theorem invoke_breath (sv : services) (c : call) (st : state)
    (hk : ∀ c w, swim_call c = true → (sv.run c w).2.you.breath = w.you.breath)
    (hc : swim_call c = true) :
    (invoke sv c st).2.w.you.breath = st.w.you.breath :=
  hk c st.w hc

theorem swim_arrive_breath (sv : services) (n : Int) (b : Bool) (p : tripoint) (st : state)
    (hk : ∀ c w, swim_call c = true → (sv.run c w).2.you.breath = w.you.breath) :
    (swim_arrive sv n b p st).w.you.breath = st.w.you.breath := by
  have hp : (setpos p st).w.you.breath = st.w.you.breath := rfl
  unfold swim_arrive
  simp only
  split_ifs <;> simp [hk, swim_call, swim_pay_breath, hp]

theorem swim_board_breath (sv : services) (n : Int) (p : tripoint) (st : state)
    (hk : ∀ c w, swim_call c = true → (sv.run c w).2.you.breath = w.you.breath) :
    (swim_board sv n p st).w.you.breath = st.w.you.breath := by
  have h1 : (if st.w.you.in_vehicle = true
      then (invoke sv (call.unboard_vehicle st.w.you.position) st).2 else st).w.you.breath =
      st.w.you.breath := by
    split_ifs
    · exact invoke_breath sv _ _ hk rfl
    · rfl
  have ht : ∀ v s, (invoke sv (call.handle_potential_theft v) s).2.w.you.breath =
      s.w.you.breath := fun v s => invoke_breath sv _ _ hk rfl
  unfold swim_board
  simp only
  generalize (if st.w.you.in_vehicle = true
      then (invoke sv (call.unboard_vehicle st.w.you.position) st).2 else st) = s1 at h1 ⊢
  split_ifs
  · simpa using h1
  · split
    · split_ifs
      · rw [ht, h1]
      · rw [swim_arrive_breath sv _ _ _ _ hk, ht, h1]
      · rw [swim_arrive_breath sv _ _ _ _ hk, h1]
    · rw [swim_arrive_breath sv _ _ _ _ hk, h1]

/-- On a swimmable target, what `swim` leaves of the breath is what the sinking
test (lines 511-520) made of it. -/
theorem swim_breath_eq (sv : services) (st : state) (p : tripoint)
    (hk : ∀ c w, swim_call c = true → (sv.run c w).2.you.breath = w.you.breath)
    (hsw : st.w.m.has_flag ter_flag.SWIMMABLE p = true) :
    (swim sv st p).w.you.breath =
      (swim_sink st.w.you.swim_speed
        (invoke sv (call.practice_swimming (if (swim_wash st).w.you.underwater then 2 else 1))
          (swim_wash st)).2).w.you.breath := by
  unfold swim
  simp only [hsw, Bool.not_true, Bool.false_eq_true, if_false]
  rw [swim_board_breath sv _ _ _ hk, swim_breath_w, swim_wash_swim_speed]

/-- What the sinking test finds after the water and the swimming practice. -/
theorem swim_practice_stats (sv : services) (st : state) (n : Int)
    (hk : ∀ c w, swim_call c = true → (sv.run c w).2.you.breath = w.you.breath)
    (hp : ∀ n w, (sv.run (call.practice_swimming n) w).2.you.sink_inputs = w.you.sink_inputs) :
    (invoke sv (call.practice_swimming n) (swim_wash st)).2.w.you.underwater =
      st.w.you.underwater ∧
    (invoke sv (call.practice_swimming n) (swim_wash st)).2.w.you.oxygen = st.w.you.oxygen ∧
    (invoke sv (call.practice_swimming n) (swim_wash st)).2.w.you.str_cur = st.w.you.str_cur ∧
    (invoke sv (call.practice_swimming n) (swim_wash st)).2.w.you.swim_fins =
      st.w.you.swim_fins := by
  have h1 := hk (call.practice_swimming n) (swim_wash st).w rfl
  have h2 := hp n (swim_wash st).w
  have h3 := swim_wash_stats st
  simp only [avatar.breath, avatar.sink_inputs, Prod.mk.injEq] at h1 h2
  exact ⟨h1.1.trans h3.1, h1.2.trans h3.2.1, h2.1.trans h3.2.2.1, h2.2.trans h3.2.2.2.1⟩

theorem swim_sink_sinks (n : Int) (st : state) (h500 : n ≥ 500)
    (hu : st.w.you.underwater = false) (hf : st.w.you.swim_fins = 0) :
    swim_sink n st = swim_sink_body st := by
  simp [swim_sink, h500, hu, hf]

theorem swim_sink_floats (n : Int) (st : state)
    (h : st.w.you.swim_fins = 2 ∨ n < 500) : swim_sink n st = st := by
  unfold swim_sink
  rcases h with h | h
  · simp [h]
  · have : ¬ n ≥ 500 := by omega
    simp [this]

/-- A sum that fits a 32-bit `int` is not changed by the wrap-around. -/
theorem wrap_int_of_fits (v : Int) (h1 : -INT_MAX - 1 ≤ v) (h2 : v ≤ INT_MAX) :
    wrap_int v = v := by
  unfold wrap_int
  unfold INT_MAX at h1 h2
  omega

/-- The breath after `swim` of an avatar that sinks: the oxygen is the sum
`30 + 2 * str_cur` as a 32-bit `int` holds it. -/
theorem swim_breath_sunk (sv : services) (st : state) (p : tripoint)
    (hk : ∀ c w, swim_call c = true → (sv.run c w).2.you.breath = w.you.breath)
    (hp : ∀ n w, (sv.run (call.practice_swimming n) w).2.you.sink_inputs = w.you.sink_inputs)
    (hsw : st.w.m.has_flag ter_flag.SWIMMABLE p = true)
    (h500 : st.w.you.swim_speed ≥ 500)
    (hu : st.w.you.underwater = false)
    (hf : st.w.you.swim_fins = 0) :
    (swim sv st p).w.you.underwater = true ∧
    (swim sv st p).w.you.oxygen = wrap_int (30 + 2 * st.w.you.str_cur) := by
  have hb := swim_breath_eq sv st p hk hsw
  have h2 := swim_practice_stats sv st (if (swim_wash st).w.you.underwater then 2 else 1) hk hp
  rw [swim_sink_sinks _ _ h500 (by rw [h2.1, hu]) (by rw [h2.2.2.2, hf])] at hb
  simp only [avatar.breath, Prod.mk.injEq] at hb
  refine ⟨hb.1.trans rfl, ?_⟩
  rw [hb.2]
  simp only [swim_sink_body, add_msg_w]
  rw [h2.2.2.1]

/-- With strength 2^30 the sum `30 + 2 * str_cur` does not fit an `int`: the
oxygen it leaves is negative. -/
theorem wrap_int_strength_overflow : wrap_int (30 + 2 * 1073741824) = -2147483618 := by
  decide

/-- A target that is not swimmable: in `sinking_world` the avatar has swim speed
600, is not underwater and wears no fins, yet `swim` toward the dry tile west of
it leaves the avatar above water with the oxygen it had. -/
theorem swim_dry_target_does_not_sink :
    sinking_world.you.swim_speed ≥ 500 ∧
    sinking_world.you.underwater = false ∧
    sinking_world.you.swim_fins = 0 ∧
    sinking_world.m.has_flag ter_flag.SWIMMABLE ⟨4, 5, 0⟩ = false ∧
    (swim example_services ⟨sinking_world, []⟩ ⟨4, 5, 0⟩).w.you.underwater = false ∧
    (swim example_services ⟨sinking_world, []⟩ ⟨4, 5, 0⟩).w.you.oxygen = 10 ∧
    30 + 2 * sinking_world.you.str_cur = 46 :=
  ⟨by decide, rfl, rfl, rfl, rfl, rfl, rfl⟩

/-- C13: strength increases breath-holding capacity while sinking: if the target
is swimmable, `swim_speed` is at least 500, the avatar is not underwater and wears
no swim fins, then after `swim` the avatar is underwater, with oxygen exactly
`30 + 2 * str_cur` whenever that sum fits a 32-bit `int`, and among such sums the
oxygen is strictly increasing in `str_cur`; an avatar wearing exactly two swim
fins, or with `swim_speed` below 500, keeps its underwater flag and oxygen.  The
collaborators `swim` calls are taken not to touch the underwater flag and the
oxygen, and the swimming practice not to touch strength and fins. -/
theorem swim_sinks_without_fins (sv : services) (st : state) (p : tripoint)
    (hk : ∀ c w, swim_call c = true → (sv.run c w).2.you.breath = w.you.breath)
    (hp : ∀ n w, (sv.run (call.practice_swimming n) w).2.you.sink_inputs = w.you.sink_inputs) :
    (st.w.m.has_flag ter_flag.SWIMMABLE p = true → st.w.you.swim_speed ≥ 500 →
      st.w.you.underwater = false → st.w.you.swim_fins = 0 →
      (swim sv st p).w.you.underwater = true ∧
      (-INT_MAX - 1 ≤ 30 + 2 * st.w.you.str_cur → 30 + 2 * st.w.you.str_cur ≤ INT_MAX →
        (swim sv st p).w.you.oxygen = 30 + 2 * st.w.you.str_cur ∧
        ∀ (st2 : state) (p2 : tripoint),
          st2.w.m.has_flag ter_flag.SWIMMABLE p2 = true → st2.w.you.swim_speed ≥ 500 →
          st2.w.you.underwater = false → st2.w.you.swim_fins = 0 →
          -INT_MAX - 1 ≤ 30 + 2 * st2.w.you.str_cur → 30 + 2 * st2.w.you.str_cur ≤ INT_MAX →
          st.w.you.str_cur < st2.w.you.str_cur →
          (swim sv st p).w.you.oxygen < (swim sv st2 p2).w.you.oxygen)) ∧
    (st.w.you.swim_fins = 2 ∨ st.w.you.swim_speed < 500 →
      (swim sv st p).w.you.underwater = st.w.you.underwater ∧
      (swim sv st p).w.you.oxygen = st.w.you.oxygen) := by
  refine ⟨?_, ?_⟩
  · intro hsw h500 hu hf
    have h1 := swim_breath_sunk sv st p hk hp hsw h500 hu hf
    refine ⟨h1.1, ?_⟩
    intro hlo hhi
    have ho : (swim sv st p).w.you.oxygen = 30 + 2 * st.w.you.str_cur := by
      rw [h1.2, wrap_int_of_fits _ hlo hhi]
    refine ⟨ho, ?_⟩
    intro st2 p2 hsw2 h5002 hu2 hf2 hlo2 hhi2 hlt
    rw [ho, (swim_breath_sunk sv st2 p2 hk hp hsw2 h5002 hu2 hf2).2,
      wrap_int_of_fits _ hlo2 hhi2]
    omega
  · intro h
    by_cases hsw : st.w.m.has_flag ter_flag.SWIMMABLE p = true
    · have hb := swim_breath_eq sv st p hk hsw
      have h2 := swim_practice_stats sv st
        (if (swim_wash st).w.you.underwater then 2 else 1) hk hp
      rw [swim_sink_floats _ _ (by rw [h2.2.2.2]; exact h)] at hb
      simp only [avatar.breath, Prod.mk.injEq] at hb
      exact ⟨hb.1.trans h2.1, hb.2.trans h2.2.1⟩
    · have hw := (swim_rejects_non_swimmable_state sv st p (by simpa using hsw))
      rw [hw]
      exact ⟨rfl, rfl⟩

/-- C13 in `sinking_world`: the avatar of strength 8 and swim speed 600, without
fins, ends up underwater with 46 units of oxygen. -/
theorem swim_sinks_without_fins_witness :
    (swim example_services ⟨sinking_world, []⟩ ⟨6, 5, 0⟩).w.you.underwater = true ∧
    (swim example_services ⟨sinking_world, []⟩ ⟨6, 5, 0⟩).w.you.oxygen = 46 :=
  have h := (swim_sinks_without_fins example_services ⟨sinking_world, []⟩ ⟨6, 5, 0⟩
    (fun _ _ _ => rfl) (fun _ _ => rfl)).1 rfl (by decide) rfl rfl
  ⟨h.1, (h.2 (by decide) (by decide)).1⟩

/-! ### The cost of a swimming step -/

/-- The truncated product with the square root of two is within one of the exact
product: with `d` the amount taken, `d - 1 <= c * sqrt 2 < d + 1`, stated on squares. -/
theorem sub_times_sqrt2_near (moves c : Int) (hc : 0 < c) :
    (moves - sub_times_sqrt2 moves c - 1) * (moves - sub_times_sqrt2 moves c - 1) ≤ 2 * c * c ∧
    2 * c * c < (moves - sub_times_sqrt2 moves c + 1) * (moves - sub_times_sqrt2 moves c + 1) ∧
    0 ≤ moves - sub_times_sqrt2 moves c := by
  have hn : ((2 * c.natAbs * c.natAbs : Nat) : Int) = 2 * c * c := by
    push_cast
    rw [abs_of_pos hc]
  have h1 := Nat.sqrt_le (2 * c.natAbs * c.natAbs)
  have h2 := Nat.lt_succ_sqrt (2 * c.natAbs * c.natAbs)
  have hpos : 0 < Nat.sqrt (2 * c.natAbs * c.natAbs) := by
    rw [Nat.sqrt_pos]
    have : 0 < c.natAbs := Int.natAbs_pos.mpr (ne_of_gt hc)
    positivity
  have hne : c ≠ 0 := ne_of_gt hc
  simp only [sub_times_sqrt2, hne, hc, if_true, if_false]
  generalize Nat.sqrt (2 * c.natAbs * c.natAbs) = f at h1 h2 hpos ⊢
  have h1i : (f : Int) * f ≤ 2 * c * c := by
    rw [← hn]
    exact_mod_cast h1
  have h2i : 2 * c * c < ((f : Int) + 1) * (f + 1) := by
    rw [← hn]
    exact_mod_cast h2
  have hfpos : (1 : Int) ≤ f := by exact_mod_cast hpos
  split_ifs
  · refine ⟨?_, ?_, ?_⟩ <;> nlinarith
  · refine ⟨?_, ?_, ?_⟩ <;> nlinarith

theorem swim_wash_purse (st : state) : (swim_wash st).w.purse = st.w.purse := by
  unfold swim_wash
  simp only
  split_ifs <;> (try split) <;> (try split_ifs) <;> rfl

theorem swim_wash_position (st : state) :
    (swim_wash st).w.you.position = st.w.you.position := by
  unfold swim_wash
  simp only
  split_ifs <;> (try split) <;> (try split_ifs) <;> rfl

theorem swim_sink_purse (n : Int) (st : state) : (swim_sink n st).w.purse = st.w.purse := by
  unfold swim_sink one_in
  split_ifs <;> rfl

theorem swim_sink_position (n : Int) (st : state) :
    (swim_sink n st).w.you.position = st.w.you.position := by
  unfold swim_sink one_in
  split_ifs <;> rfl

/-- What the statement of line 549 leaves in `you.moves`. -/
theorem swim_pay_moves (n : Int) (b : Bool) (st : state) :
    (swim_pay n b st).w.you.moves =
      (if (st.w.g.trigdist && b) = true
        then sub_times_sqrt2 st.w.you.moves (if n > 200 then 200 else n)
        else st.w.you.moves - (if n > 200 then 200 else n)) := by
  unfold swim_pay
  split_ifs <;> rfl

/-- A completed arrival (lines 541-565) leaves the move points the statement of
line 549 made, when the collaborators do not touch them. -/
theorem swim_arrive_moves (sv : services) (n : Int) (b : Bool) (p : tripoint) (st : state)
    (hk : ∀ c w, swim_call c = true → (sv.run c w).2.purse = w.purse) :
    (swim_arrive sv n b p st).w.you.moves =
      (if (st.w.g.trigdist && b) = true
        then sub_times_sqrt2 st.w.you.moves (if n > 200 then 200 else n)
        else st.w.you.moves - (if n > 200 then 200 else n)) := by
  have hi : ∀ c s, swim_call c = true → (invoke sv c s).2.w.purse = s.w.purse :=
    fun c s hc => hk c s.w hc
  have hm : ∀ s t : state, s.w.purse = t.w.purse →
      s.w.you.moves = t.w.you.moves ∧ s.w.g.trigdist = t.w.g.trigdist := by
    intro s t h
    simpa [world.purse] using h
  have h1 : (invoke sv (call.avatar_moves p)
      (invoke sv call.update_map (setpos p st)).2).2.w.purse = st.w.purse := by
    rw [hi (call.avatar_moves _) _ rfl, hi call.update_map _ rfl]
    rfl
  have h2 : ∀ s : state, s.w.purse = st.w.purse →
      (swim_pay n b s).w.you.moves =
        (if (st.w.g.trigdist && b) = true
          then sub_times_sqrt2 st.w.you.moves (if n > 200 then 200 else n)
          else st.w.you.moves - (if n > 200 then 200 else n)) := by
    intro s hs
    rw [swim_pay_moves, (hm s st hs).1, (hm s st hs).2]
  have h3 : ∀ s t : state, s.w.purse = t.w.purse → s.w.you.moves = t.w.you.moves :=
    fun s t h => (hm s t h).1
  generalize (if (st.w.g.trigdist && b) = true
      then sub_times_sqrt2 st.w.you.moves (if n > 200 then 200 else n)
      else st.w.you.moves - (if n > 200 then 200 else n)) = r at h2 ⊢
  unfold swim_arrive
  simp only
  rw [h3 _ _ (hi (call.drench _ _ _) _ rfl)]
  split_ifs
  · rw [h3 _ _ (hi (call.burn_move_stamina _) _ rfl), h3 _ _ (hi call.rust_iron_items _ rfl)]
    exact h2 _ ((hi (call.board_vehicle _) _ rfl).trans h1)
  · rw [h3 _ _ (hi call.rust_iron_items _ rfl)]
    exact h2 _ ((hi (call.board_vehicle _) _ rfl).trans h1)
  · rw [h3 _ _ (hi (call.burn_move_stamina _) _ rfl), h3 _ _ (hi call.rust_iron_items _ rfl)]
    exact h2 _ h1
  · rw [h3 _ _ (hi call.rust_iron_items _ rfl)]
    exact h2 _ h1

theorem swim_board_moves (sv : services) (n : Int) (p : tripoint) (st : state)
    (hk : ∀ c w, swim_call c = true → (sv.run c w).2.purse = w.purse)
    (hdone : swim_completed (swim_board sv n p st)) :
    (swim_board sv n p st).w.you.moves =
      (if (st.w.g.trigdist && diagonal_step st p) = true
        then sub_times_sqrt2 st.w.you.moves (if n > 200 then 200 else n)
        else st.w.you.moves - (if n > 200 then 200 else n)) := by
  have hi : ∀ c s, swim_call c = true → (invoke sv c s).2.w.purse = s.w.purse :=
    fun c s hc => hk c s.w hc
  have hm : ∀ s t : state, s.w.purse = t.w.purse →
      s.w.you.moves = t.w.you.moves ∧ s.w.g.trigdist = t.w.g.trigdist := by
    intro s t h
    simpa [world.purse] using h
  have hf : ∀ s : state, s.w.purse = st.w.purse →
      (swim_arrive sv n (diagonal_step st p) p s).w.you.moves =
        (if (st.w.g.trigdist && diagonal_step st p) = true
          then sub_times_sqrt2 st.w.you.moves (if n > 200 then 200 else n)
          else st.w.you.moves - (if n > 200 then 200 else n)) := by
    intro s hs
    rw [swim_arrive_moves sv n _ p s hk, (hm s st hs).1, (hm s st hs).2]
  have h1 : (if st.w.you.in_vehicle = true
      then (invoke sv (call.unboard_vehicle st.w.you.position) st).2 else st).w.purse =
      st.w.purse := by
    split_ifs
    · exact hi (call.unboard_vehicle _) _ rfl
    · rfl
  generalize (if (st.w.g.trigdist && diagonal_step st p) = true
      then sub_times_sqrt2 st.w.you.moves (if n > 200 then 200 else n)
      else st.w.you.moves - (if n > 200 then 200 else n)) = r at hf ⊢
  unfold swim_board at hdone ⊢
  simp only at hdone ⊢
  generalize (if st.w.you.in_vehicle = true
      then (invoke sv (call.unboard_vehicle st.w.you.position) st).2 else st) = s1
    at h1 hdone ⊢
  rcases hv : s1.w.m.veh_at p with _ | vp
  · simp only [hv] at hdone ⊢
    split_ifs at hdone ⊢
    · simp [swim_completed] at hdone
    · exact hf _ h1
  · simp only [hv] at hdone ⊢
    split_ifs at hdone ⊢
    · simp [swim_completed] at hdone
    · simp [swim_completed] at hdone
    · exact hf _ ((hi (call.handle_potential_theft _) _ rfl).trans h1)
    · exact hf _ h1

/-- C12: when `swim` goes through to the end (no early return), the move points
it deducts are capped: with `movecost` the swim speed, a step that is not diagonal
or is made with `trigdist` off costs exactly `min(movecost, 200)`, so at most 200;
a diagonal step with `trigdist` on costs that capped amount times the square root
of two, the resulting move points being truncated to an integer (so the amount
taken is within one of the exact product).  The collaborators `swim` calls are
taken not to touch the move points or the `trigdist` option, and `practice` not
to move the avatar. -/
theorem swim_cost_capped (sv : services) (st : state) (p : tripoint)
    (hk : ∀ c w, swim_call c = true → (sv.run c w).2.purse = w.purse)
    (hpos : ∀ n w, (sv.run (call.practice_swimming n) w).2.you.position = w.you.position)
    (hdone : swim_completed (swim sv st p)) :
    ((st.w.g.trigdist && diagonal_step st p) = false →
      (swim sv st p).w.you.moves = st.w.you.moves - min st.w.you.swim_speed 200 ∧
      st.w.you.moves - (swim sv st p).w.you.moves ≤ 200) ∧
    ((st.w.g.trigdist && diagonal_step st p) = true →
      (swim sv st p).w.you.moves =
        sub_times_sqrt2 st.w.you.moves (min st.w.you.swim_speed 200) ∧
      (0 < st.w.you.swim_speed →
        (st.w.you.moves - (swim sv st p).w.you.moves - 1) *
            (st.w.you.moves - (swim sv st p).w.you.moves - 1) ≤
          2 * min st.w.you.swim_speed 200 * min st.w.you.swim_speed 200 ∧
        2 * min st.w.you.swim_speed 200 * min st.w.you.swim_speed 200 <
          (st.w.you.moves - (swim sv st p).w.you.moves + 1) *
            (st.w.you.moves - (swim sv st p).w.you.moves + 1))) := by
  have hcap : ∀ n : Int, (if n > 200 then 200 else n) = min n 200 := by
    intro n
    split_ifs with h
    · exact (min_eq_right (le_of_lt h)).symm
    · exact (min_eq_left (not_lt.mp h)).symm
  have hsw : st.w.m.has_flag ter_flag.SWIMMABLE p = true := by
    by_contra hns
    rw [swim_rejects_non_swimmable_state sv st p (by simpa using hns)] at hdone
    simp [swim_completed] at hdone
  have hs : swim sv st p = swim_board sv st.w.you.swim_speed p
      (swim_breath st.w.you.swim_speed (swim_sink st.w.you.swim_speed
        (invoke sv (call.practice_swimming (if (swim_wash st).w.you.underwater then 2 else 1))
          (swim_wash st)).2)) := by
    unfold swim
    simp only [hsw, Bool.not_true, Bool.false_eq_true, if_false, swim_wash_swim_speed]
  have hpurse : (swim_breath st.w.you.swim_speed (swim_sink st.w.you.swim_speed
      (invoke sv (call.practice_swimming (if (swim_wash st).w.you.underwater then 2 else 1))
        (swim_wash st)).2)).w.purse = st.w.purse := by
    rw [swim_breath_w, swim_sink_purse, invoke_w, hk (call.practice_swimming _) _ rfl,
      swim_wash_purse]
  have hposn : (swim_breath st.w.you.swim_speed (swim_sink st.w.you.swim_speed
      (invoke sv (call.practice_swimming (if (swim_wash st).w.you.underwater then 2 else 1))
        (swim_wash st)).2)).w.you.position = st.w.you.position := by
    rw [swim_breath_w, swim_sink_position, invoke_w, hpos, swim_wash_position]
  rw [hs] at hdone ⊢
  have hmv := swim_board_moves sv _ p _ hk hdone
  have hd : diagonal_step (swim_breath st.w.you.swim_speed (swim_sink st.w.you.swim_speed
      (invoke sv (call.practice_swimming (if (swim_wash st).w.you.underwater then 2 else 1))
        (swim_wash st)).2)) p = diagonal_step st p := by
    simp only [diagonal_step, hposn]
  simp only [world.purse, Prod.mk.injEq] at hpurse
  rw [hd, hpurse.1, hpurse.2, hcap] at hmv
  refine ⟨?_, ?_⟩
  · intro hflat
    rw [hmv]
    simp only [hflat, Bool.false_eq_true, if_false]
    refine ⟨trivial, ?_⟩
    have := min_le_right st.w.you.swim_speed 200
    omega
  · intro hdiag
    rw [hmv]
    simp only [hdiag, if_true]
    refine ⟨trivial, ?_⟩
    intro hspeed
    have hc : 0 < min st.w.you.swim_speed 200 := lt_min hspeed (by norm_num)
    have h := sub_times_sqrt2_near st.w.you.moves _ hc
    exact ⟨h.1, h.2.1⟩

/-- C12 in `shore_world`: the avatar with swim speed 100 and 100 move points
swims east (not a diagonal step), goes through to the drenching, and is left
with 0 move points. -/
theorem swim_cost_capped_witness :
    swim_completed (swim example_services ⟨shore_world, []⟩ ⟨6, 5, 0⟩) ∧
    (swim example_services ⟨shore_world, []⟩ ⟨6, 5, 0⟩).w.you.moves = 0 :=
  have hdone : swim_completed (swim example_services ⟨shore_world, []⟩ ⟨6, 5, 0⟩) :=
    ⟨drenchFlags false, rfl⟩
  have h := (swim_cost_capped example_services ⟨shore_world, []⟩ ⟨6, 5, 0⟩
    (fun _ _ _ => rfl) (fun _ _ => rfl) hdone).1 rfl
  ⟨hdone, h.1⟩

/-! ## Claims about `can_fire_turret` -/

/-- When the common checks leave the world alone, the loop over the gun modes
answers true exactly when some mode passes. -/
theorem turret_modes_iff (sv : services)
    (hpure : ∀ m w, (sv.run (call.gunmode_checks_common m) w).2 = w)
    (modes : List Nat) (messages : List String) (st : state) :
    (turret_modes sv modes messages st).1 = true ↔
      ∃ m ∈ modes, (sv.run (call.gunmode_checks_common m) st.w).1 = true := by
  induction modes generalizing messages st with
  | nil => simp [turret_modes]
  | cons m rest ih =>
    unfold turret_modes
    by_cases hm : (sv.run (call.gunmode_checks_common m) st.w).1 = true
    · simp [hm]
    · simp only [invoke_fst, hm, Bool.false_eq_true, if_false, List.mem_cons, exists_eq_or_imp,
        false_or]
      rw [ih]
      simp only [invoke_w, hpure]

/-- The state in which the gun modes are tried, when relax gas lets the avatar aim. -/
theorem turret_relax_next (st : state) (h : pacified_aim st = false) :
    turret_relax st = flow.next (turret_relax st).state () := by
  unfold turret_relax
  by_cases hr : st.w.you.effects efftype_id.relax_gas = true
  · have ho : (one_in 5 st).1 = true := by
      simpa [pacified_aim, hr] using h
    simp [hr, ho, flow.state]
  · simp [hr, flow.state]

/-- C14: `can_fire_turret` returns true if all of its conditions are true and
false otherwise: true exactly when the turret base is a gun, `query()` is ready,
the pacification check passes and at least one gun mode passes
`gunmode_checks_common`; in particular it is false for a base that is not a gun,
for `no_ammo`, `no_power` and any other status than ready, for an avatar too
pacified to aim (who loses `rng( 2, 5 ) * 10` move points), and for a weapon with
no gun mode.  The common checks are taken to leave the world alone. -/
theorem can_fire_turret_iff (sv : services) (st : state) (turret : turret_data)
    (hpure : ∀ m w, (sv.run (call.gunmode_checks_common m) w).2 = w) :
    ((can_fire_turret sv st turret).1 = true ↔
      turret.base_is_gun = true ∧ turret.query = turret_status.ready ∧
      pacified_aim st = false ∧
      ∃ m ∈ turret.gun_all_modes,
        (sv.run (call.gunmode_checks_common m) (turret_relax st).state.w).1 = true) ∧
    (turret.base_is_gun = false →
      can_fire_turret sv st turret =
        (false, emit (event.debugmsg "Expected turret base to be a gun.") st)) ∧
    (turret.base_is_gun = true → turret.query = turret_status.no_ammo →
      can_fire_turret sv st turret =
        (false, add_msg game_message_type.m_bad
          ("The " ++ turret.name ++ " is out of ammo.") st)) ∧
    (turret.base_is_gun = true → turret.query = turret_status.no_power →
      can_fire_turret sv st turret =
        (false, add_msg game_message_type.m_bad
          ("The " ++ turret.name ++ " is not powered.") st)) ∧
    (turret.base_is_gun = true → (∀ n, turret.query = turret_status.other n →
      can_fire_turret sv st turret =
        (false, emit (event.debugmsg "Unknown turret status") st))) ∧
    (turret.base_is_gun = true → turret.query = turret_status.ready →
      pacified_aim st = true →
      (can_fire_turret sv st turret).1 = false ∧
      (can_fire_turret sv st turret).2.w.you.moves =
        st.w.you.moves - (rng 2 5 (one_in 5 st).2).1 * 10) ∧
    (turret.gun_all_modes = [] → (can_fire_turret sv st turret).1 = false) := by
  have hfalse_gun : turret.base_is_gun = false →
      can_fire_turret sv st turret =
        (false, emit (event.debugmsg "Expected turret base to be a gun.") st) := by
    intro hg
    simp [can_fire_turret, hg]
  have hpac : turret.base_is_gun = true → turret.query = turret_status.ready →
      pacified_aim st = true →
      can_fire_turret sv st turret = (false,
        add_msg game_message_type.m_bad "You are too pacified to aim the turret…"
          (sub_moves ((rng 2 5 (one_in 5 st).2).1 * 10) (rng 2 5 (one_in 5 st).2).2)) := by
    intro hg hq hp
    simp only [pacified_aim, Bool.and_eq_true, Bool.not_eq_true'] at hp
    simp [can_fire_turret, hg, hq, turret_relax, hp.1, hp.2]
  have hready : turret.base_is_gun = true → turret.query = turret_status.ready →
      pacified_aim st = false →
      can_fire_turret sv st turret = turret_try_modes sv turret (turret_relax st).state := by
    intro hg hq hp
    simp only [can_fire_turret, hg, hq, Bool.not_true, Bool.false_eq_true, if_false]
    rw [turret_relax_next st hp]
    rfl
  have htry : ∀ s, (turret_try_modes sv turret s).1 = true ↔
      ∃ m ∈ turret.gun_all_modes, (sv.run (call.gunmode_checks_common m) s.w).1 = true := by
    intro s
    rw [← turret_modes_iff sv hpure turret.gun_all_modes [] s]
    unfold turret_try_modes
    split_ifs with h
    · simp [h]
    · simp [h]
  have hiff : (can_fire_turret sv st turret).1 = true ↔
      turret.base_is_gun = true ∧ turret.query = turret_status.ready ∧
      pacified_aim st = false ∧
      ∃ m ∈ turret.gun_all_modes,
        (sv.run (call.gunmode_checks_common m) (turret_relax st).state.w).1 = true := by
    by_cases hg : turret.base_is_gun = true
    · cases hq : turret.query with
      | no_ammo => simp [can_fire_turret, hg, hq]
      | no_power => simp [can_fire_turret, hg, hq]
      | other n => simp [can_fire_turret, hg, hq]
      | ready =>
        by_cases hp : pacified_aim st = true
        · rw [hpac hg hq hp]
          simp [hp]
        · simp only [Bool.not_eq_true] at hp
          rw [hready hg hq hp, htry]
          simp [hg, hp]
    · simp only [Bool.not_eq_true] at hg
      rw [hfalse_gun hg]
      simp [hg]
  refine ⟨hiff, hfalse_gun, ?_, ?_, ?_, ?_, ?_⟩
  · intro hg hq
    simp [can_fire_turret, hg, hq]
  · intro hg hq
    simp [can_fire_turret, hg, hq]
  · intro hg n hq
    simp [can_fire_turret, hg, hq]
  · intro hg hq hp
    rw [hpac hg hq hp]
    exact ⟨rfl, rfl⟩
  · intro hm
    rw [← Bool.not_eq_true]
    intro ht
    obtain ⟨_, _, _, m, hmem, _⟩ := hiff.mp ht
    rw [hm] at hmem
    simp at hmem

/-- C14 with the example turret: gun mode 1 passes the common checks, so the
avatar can fire it; without any gun mode it cannot. -/
theorem can_fire_turret_iff_witness :
    (can_fire_turret turret_services ⟨example_world, []⟩ example_turret).1 = true ∧
    (can_fire_turret turret_services ⟨example_world, []⟩
      { example_turret with gun_all_modes := [] }).1 = false :=
  ⟨(can_fire_turret_iff turret_services ⟨example_world, []⟩ example_turret
      (fun _ _ => rfl)).1.mpr ⟨rfl, rfl, rfl, 1, by decide, rfl⟩,
   (can_fire_turret_iff turret_services ⟨example_world, []⟩
      { example_turret with gun_all_modes := [] } (fun _ _ => rfl)).2.2.2.2.2.2 rfl⟩

/-! ## Claims about `avatar_action::eat_here` -/

@[simp]
theorem graze_down_you (st : state) : (graze_down st).w.you = st.w.you := by
  unfold graze_down
  split_ifs <;> rfl

@[simp]
theorem graze_down_trace (st : state) : (graze_down st).trace = st.trace := by
  unfold graze_down
  split_ifs <;> rfl

/-- What `eat_here` does for a grazer on grass that is not too full: 400 move
points are taken, the message is logged, the avatar eats, and the grass is
grazed down. -/
theorem eat_here_graze_eq (sv : services) (st : state)
    (hg : st.w.you.active_mutation trait_id.GRAZER = true)
    (hgrass : is_grazing_grass (st.w.m.ter st.w.you.position) = true)
    (hfull : too_full st st.w.g.kcal_grass = false) :
    eat_here sv st = (true, graze_down (invoke sv (call.eat food_kind.grass)
      (add_msg game_message_type.m_neutral "You eat the grass." (sub_moves 400 st))).2) := by
  have hnb : ¬ (st.w.m.ter st.w.you.position = ter_id.t_underbrush ∨
      st.w.m.ter st.w.you.position = ter_id.t_shrub) := by
    intro h
    rcases h with h | h <;> simp [is_grazing_grass, h] at hgrass
  have hgrass2 := hgrass
  simp only [is_grazing_grass] at hgrass2
  simp only [not_or] at hnb
  simp [eat_here, hg, hnb.1, hnb.2, hgrass2, hfull]

/-- One grazing call of a grazer that is not too full: it returns true, takes 400
move points, eats (the move points left are those `eat` leaves of them) and makes
the grass under the avatar one step shorter. -/
theorem eat_here_graze (sv : services) (st : state) (heat : eating_keeps_place sv)
    (hg : st.w.you.active_mutation trait_id.GRAZER = true)
    (hgrass : is_grazing_grass (st.w.m.ter st.w.you.position) = true)
    (hfull : too_full st st.w.g.kcal_grass = false) :
    (eat_here sv st).1 = true ∧
    (eat_here sv st).2.w.m.ter st.w.you.position = grass_step (st.w.m.ter st.w.you.position) ∧
    (eat_here sv st).2.w.you.position = st.w.you.position ∧
    (eat_here sv st).2.w.you.moves =
      (sv.run (call.eat food_kind.grass) (sub_moves 400 st).w).2.you.moves ∧
    (eat_here sv st).2.trace = st.trace ++
      [event.msg game_message_type.m_neutral "You eat the grass.",
       event.called (call.eat food_kind.grass)] := by
  have he := eat_here_graze_eq sv st hg hgrass hfull
  have hp : (invoke sv (call.eat food_kind.grass)
      (add_msg game_message_type.m_neutral "You eat the grass."
        (sub_moves 400 st))).2.w.you.position = st.w.you.position := by
    rw [invoke_w, (heat _ _).1]
    rfl
  have hm : (invoke sv (call.eat food_kind.grass)
      (add_msg game_message_type.m_neutral "You eat the grass."
        (sub_moves 400 st))).2.w.you.moves =
      (sv.run (call.eat food_kind.grass) (sub_moves 400 st).w).2.you.moves := rfl
  have ht : (invoke sv (call.eat food_kind.grass)
      (add_msg game_message_type.m_neutral "You eat the grass."
        (sub_moves 400 st))).2.w.m.ter = st.w.m.ter := by
    rw [invoke_w, (heat _ _).2]
    rfl
  have htr : (invoke sv (call.eat food_kind.grass)
      (add_msg game_message_type.m_neutral "You eat the grass." (sub_moves 400 st))).2.trace =
      st.trace ++ [event.msg game_message_type.m_neutral "You eat the grass.",
        event.called (call.eat food_kind.grass)] := by
    simp
  rw [he]
  generalize (invoke sv (call.eat food_kind.grass)
      (add_msg game_message_type.m_neutral "You eat the grass." (sub_moves 400 st))).2 = s1
    at hp hm ht htr ⊢
  have hcur : s1.w.m.ter s1.w.you.position = st.w.m.ter st.w.you.position := by
    rw [ht, hp]
  have hgd : graze_down s1 =
      ter_set st.w.you.position (grass_step (st.w.m.ter st.w.you.position)) s1 := by
    unfold graze_down
    rw [hcur, hp]
    simp only [is_grazing_grass, Bool.or_eq_true, decide_eq_true_eq] at hgrass
    rcases hgrass with (h | h) | h <;> simp [h, grass_step]
  rw [hgd]
  simp [ter_set, hp, hm, htr]

/-- On dirt `eat_here` finds nothing to eat: it returns false and changes nothing. -/
theorem eat_here_on_dirt (sv : services) (st : state)
    (h : st.w.m.ter st.w.you.position = ter_id.t_dirt) :
    eat_here sv st = (false, st) := by
  simp [eat_here, h]

/-- Eating that takes time of its own: under `slow_eating_services` eating
neither moves the avatar nor alters terrain, and the grazer of `meadow_world`,
not too full and with 100 move points, is left with -550 after one call of
`eat_here` on tall grass: the call has cost 650 move points, not 400. -/
theorem eat_here_grass_costs_more :
    eating_keeps_place slow_eating_services ∧
    meadow_world.you.active_mutation trait_id.GRAZER = true ∧
    too_full ⟨meadow_world, []⟩ meadow_world.g.kcal_grass = false ∧
    meadow_world.m.ter meadow_world.you.position = ter_id.t_grass_tall ∧
    meadow_world.you.moves = 100 ∧
    (eat_here slow_eating_services ⟨meadow_world, []⟩).1 = true ∧
    (eat_here slow_eating_services ⟨meadow_world, []⟩).2.w.m.ter ⟨5, 5, 0⟩ =
      ter_id.t_grass_long ∧
    (eat_here slow_eating_services ⟨meadow_world, []⟩).2.w.you.moves = -550 :=
  ⟨fun _ _ => ⟨rfl, rfl⟩, rfl, rfl, rfl, rfl, rfl, rfl, rfl⟩

/-- C17: grazing degrades grass one step at a time.  For an avatar with GRAZER
active that is not too full, a call of `eat_here` on tall grass leaves long grass,
on long grass leaves grass, and on grass leaves dirt; it takes exactly 400 move
points before eating (so it costs exactly 400 when eating itself is free) and
returns true.  Hence, starting on tall grass, three calls that find the grazer
active and not too full reach dirt, and the next call returns false and changes
nothing (eating is taken not to move the avatar or alter terrain). -/
theorem eat_here_grazes_down (sv : services) (st : state) (heat : eating_keeps_place sv)
    (hg : st.w.you.active_mutation trait_id.GRAZER = true)
    (hfull : too_full st st.w.g.kcal_grass = false) :
    (is_grazing_grass (st.w.m.ter st.w.you.position) = true →
      (eat_here sv st).1 = true ∧
      (eat_here sv st).2.w.m.ter st.w.you.position =
        grass_step (st.w.m.ter st.w.you.position) ∧
      (eat_here sv st).2.w.you.moves =
        (sv.run (call.eat food_kind.grass) (sub_moves 400 st).w).2.you.moves ∧
      (eating_keeps_moves sv → (eat_here sv st).2.w.you.moves = st.w.you.moves - 400)) ∧
    grass_step ter_id.t_grass_tall = ter_id.t_grass_long ∧
    grass_step ter_id.t_grass_long = ter_id.t_grass ∧
    grass_step ter_id.t_grass = ter_id.t_dirt ∧
    (st.w.m.ter st.w.you.position = ter_id.t_grass_tall →
      (eat_here sv st).2.w.you.active_mutation trait_id.GRAZER = true →
      too_full (eat_here sv st).2 (eat_here sv st).2.w.g.kcal_grass = false →
      (eat_here sv (eat_here sv st).2).2.w.you.active_mutation trait_id.GRAZER = true →
      too_full (eat_here sv (eat_here sv st).2).2
        (eat_here sv (eat_here sv st).2).2.w.g.kcal_grass = false →
      (eat_here sv st).1 = true ∧
      (eat_here sv (eat_here sv st).2).1 = true ∧
      (eat_here sv (eat_here sv (eat_here sv st).2).2).1 = true ∧
      (eat_here sv st).2.w.m.ter st.w.you.position = ter_id.t_grass_long ∧
      (eat_here sv (eat_here sv st).2).2.w.m.ter st.w.you.position = ter_id.t_grass ∧
      (eat_here sv (eat_here sv (eat_here sv st).2).2).2.w.m.ter st.w.you.position =
        ter_id.t_dirt ∧
      (eating_keeps_moves sv →
        (eat_here sv (eat_here sv (eat_here sv st).2).2).2.w.you.moves =
          st.w.you.moves - 1200) ∧
      eat_here sv (eat_here sv (eat_here sv (eat_here sv st).2).2).2 =
        (false, (eat_here sv (eat_here sv (eat_here sv st).2).2).2)) := by
  refine ⟨?_, rfl, rfl, rfl, ?_⟩
  · intro hgrass
    have h := eat_here_graze sv st heat hg hgrass hfull
    refine ⟨h.1, h.2.1, h.2.2.2.1, ?_⟩
    intro hmv
    rw [h.2.2.2.1, hmv]
    rfl
  intro htall hg1 hf1 hg2 hf2
  have h1 := eat_here_graze sv st heat hg (by rw [htall]; rfl) hfull
  rw [htall] at h1
  have hl : (eat_here sv st).2.w.m.ter (eat_here sv st).2.w.you.position =
      ter_id.t_grass_long := by
    rw [h1.2.2.1]
    exact h1.2.1
  have h2 := eat_here_graze sv (eat_here sv st).2 heat hg1 (by rw [hl]; rfl) hf1
  rw [hl, h1.2.2.1] at h2
  have hgr : (eat_here sv (eat_here sv st).2).2.w.m.ter
      (eat_here sv (eat_here sv st).2).2.w.you.position = ter_id.t_grass := by
    rw [h2.2.2.1]
    exact h2.2.1
  have h3 := eat_here_graze sv (eat_here sv (eat_here sv st).2).2 heat hg2
    (by rw [hgr]; rfl) hf2
  rw [hgr, h2.2.2.1] at h3
  refine ⟨h1.1, h2.1, h3.1, h1.2.1, h2.2.1, h3.2.1, ?_, ?_⟩
  · intro hmv
    rw [h3.2.2.2.1, hmv, sub_moves_moves, h2.2.2.2.1, hmv, sub_moves_moves, h1.2.2.2.1, hmv,
      sub_moves_moves]
    omega
  · apply eat_here_on_dirt
    rw [h3.2.2.1]
    exact h3.2.1

/-- C17 in `meadow_world`, where eating itself is free: three calls take the tall
grass under the grazer to dirt and its 100 move points to -1100, and the fourth
returns false. -/
theorem eat_here_grazes_down_witness :
    (eat_here example_services (eat_here example_services
      (eat_here example_services ⟨meadow_world, []⟩).2).2).2.w.m.ter ⟨5, 5, 0⟩ =
      ter_id.t_dirt ∧
    (eat_here example_services (eat_here example_services
      (eat_here example_services ⟨meadow_world, []⟩).2).2).2.w.you.moves = -1100 ∧
    (eat_here example_services (eat_here example_services (eat_here example_services
      (eat_here example_services ⟨meadow_world, []⟩).2).2).2).1 = false :=
  have h := (eat_here_grazes_down example_services ⟨meadow_world, []⟩
    (fun _ _ => ⟨rfl, rfl⟩) rfl rfl).2.2.2.2 rfl rfl rfl rfl rfl
  ⟨h.2.2.2.2.2.1, h.2.2.2.2.2.2.1 (fun _ _ => rfl), congrArg Prod.fst h.2.2.2.2.2.2.2⟩

/-- Eating that takes time of its own, on a shrub: under `slow_eating_services`
the grazer of `shrub_world`, whose stored kcal are within the bound and who has
100 move points, is left with -550 after `eat_here`: it has paid 650 move
points, not 400. -/
theorem eat_here_shrub_costs_more :
    shrub_world.you.active_mutation trait_id.GRAZER = true ∧
    shrub_world.m.ter shrub_world.you.position = ter_id.t_shrub ∧
    shrub_world.you.stored_kcal ≤ shrub_world.you.max_stored_kcal - shrub_world.g.kcal_underbrush ∧
    shrub_world.you.moves = 100 ∧
    (eat_here slow_eating_services ⟨shrub_world, []⟩).1 = true ∧
    (eat_here slow_eating_services ⟨shrub_world, []⟩).2.w.m.ter ⟨5, 5, 0⟩ = ter_id.t_grass ∧
    (eat_here slow_eating_services ⟨shrub_world, []⟩).2.w.you.moves = -550 :=
  ⟨rfl, rfl, by decide, rfl, rfl, rfl, rfl⟩

/-- C18: `eat_here` is atomic when the avatar is too full: a RUMINANT or GRAZER
avatar on underbrush or a shrub, or a GRAZER avatar on grass, long grass or tall
grass, whose stored kcal exceed the maximum minus the default kcal of the food,
gets true and only a message: move points, stored kcal and terrain stay as they
were.  When the stored kcal are at most that bound, `eat_here` takes 400 move
points, turns underbrush or a shrub into grass, and then the avatar eats: the
avatar has paid exactly 400 move points when eating itself takes none, and the
tile is grass afterwards when eating does not alter terrain. -/
theorem eat_here_too_full (sv : services) (st : state) :
    ((st.w.you.active_mutation trait_id.RUMINANT = true ∨
        st.w.you.active_mutation trait_id.GRAZER = true) →
      (st.w.m.ter st.w.you.position = ter_id.t_underbrush ∨
        st.w.m.ter st.w.you.position = ter_id.t_shrub) →
      (st.w.you.stored_kcal > st.w.you.max_stored_kcal - st.w.g.kcal_underbrush →
        (eat_here sv st).1 = true ∧
        (eat_here sv st).2.w = st.w ∧
        (eat_here sv st).2.w.you.moves = st.w.you.moves ∧
        (eat_here sv st).2.w.you.stored_kcal = st.w.you.stored_kcal ∧
        (eat_here sv st).2.w.m.ter = st.w.m.ter ∧
        (eat_here sv st).2.trace = st.trace ++
          [event.msg game_message_type.m_neutral
            ("You're too full to eat the leaves from the " ++
              st.w.m.ter_name (st.w.m.ter st.w.you.position) ++ ".")]) ∧
      (st.w.you.stored_kcal ≤ st.w.you.max_stored_kcal - st.w.g.kcal_underbrush →
        (eat_here sv st).1 = true ∧
        (eat_here sv st).2 =
          (invoke sv (call.eat food_kind.underbrush)
            (add_msg game_message_type.m_neutral "You eat the underbrush."
              (ter_set st.w.you.position ter_id.t_grass (sub_moves 400 st)))).2 ∧
        (ter_set st.w.you.position ter_id.t_grass (sub_moves 400 st)).w.you.moves =
          st.w.you.moves - 400 ∧
        (ter_set st.w.you.position ter_id.t_grass (sub_moves 400 st)).w.m.ter
          st.w.you.position = ter_id.t_grass ∧
        (eat_here sv st).2.w.you.moves =
          (sv.run (call.eat food_kind.underbrush)
            (ter_set st.w.you.position ter_id.t_grass (sub_moves 400 st)).w).2.you.moves ∧
        ((∀ w, (sv.run (call.eat food_kind.underbrush) w).2.you.moves = w.you.moves) →
          (eat_here sv st).2.w.you.moves = st.w.you.moves - 400) ∧
        ((∀ w, (sv.run (call.eat food_kind.underbrush) w).2.m.ter = w.m.ter) →
          (eat_here sv st).2.w.m.ter st.w.you.position = ter_id.t_grass) ∧
        (eat_here sv st).2.trace = st.trace ++
          [event.msg game_message_type.m_neutral "You eat the underbrush.",
           event.called (call.eat food_kind.underbrush)])) ∧
    (st.w.you.active_mutation trait_id.GRAZER = true →
      is_grazing_grass (st.w.m.ter st.w.you.position) = true →
      (st.w.you.stored_kcal > st.w.you.max_stored_kcal - st.w.g.kcal_grass →
        (eat_here sv st).1 = true ∧
        (eat_here sv st).2.w = st.w ∧
        (eat_here sv st).2.w.you.moves = st.w.you.moves ∧
        (eat_here sv st).2.w.you.stored_kcal = st.w.you.stored_kcal ∧
        (eat_here sv st).2.w.m.ter = st.w.m.ter ∧
        (eat_here sv st).2.trace = st.trace ++
          [event.msg game_message_type.m_neutral "You're too full to graze."]) ∧
      (st.w.you.stored_kcal ≤ st.w.you.max_stored_kcal - st.w.g.kcal_grass →
        (eat_here sv st).1 = true ∧
        (sub_moves 400 st).w.you.moves = st.w.you.moves - 400 ∧
        (eat_here sv st).2.w.you.moves =
          (sv.run (call.eat food_kind.grass) (sub_moves 400 st).w).2.you.moves ∧
        ((∀ w, (sv.run (call.eat food_kind.grass) w).2.you.moves = w.you.moves) →
          (eat_here sv st).2.w.you.moves = st.w.you.moves - 400) ∧
        (eat_here sv st).2.trace = st.trace ++
          [event.msg game_message_type.m_neutral "You eat the grass.",
           event.called (call.eat food_kind.grass)])) := by
  refine ⟨?_, ?_⟩
  · intro hmut hter
    have hc : ((st.w.you.active_mutation trait_id.RUMINANT ||
        st.w.you.active_mutation trait_id.GRAZER) &&
        (decide (st.w.m.ter st.w.you.position = ter_id.t_underbrush) ||
          decide (st.w.m.ter st.w.you.position = ter_id.t_shrub))) = true := by
      simpa using ⟨hmut, hter⟩
    refine ⟨?_, ?_⟩
    · intro hfull
      have hf : too_full st st.w.g.kcal_underbrush = true := by
        simpa [too_full] using hfull
      have he : eat_here sv st = (true, add_msg game_message_type.m_neutral
          ("You're too full to eat the leaves from the " ++
            st.w.m.ter_name (st.w.m.ter st.w.you.position) ++ ".") st) := by
        unfold eat_here
        rw [if_pos hc, if_pos hf]
      rw [he]
      exact ⟨rfl, rfl, rfl, rfl, rfl, rfl⟩
    · intro hle
      have hf : ¬ too_full st st.w.g.kcal_underbrush = true := by
        simp only [too_full, decide_eq_true_eq, not_lt]
        exact hle
      have he : eat_here sv st = (true, (invoke sv (call.eat food_kind.underbrush)
          (add_msg game_message_type.m_neutral "You eat the underbrush."
            (ter_set st.w.you.position ter_id.t_grass (sub_moves 400 st)))).2) := by
        unfold eat_here
        rw [if_pos hc, if_neg hf]
      rw [he]
      refine ⟨rfl, rfl, rfl, ?_, rfl, ?_, ?_, ?_⟩
      · simp [ter_set]
      · intro hmv
        rw [invoke_w, hmv]
        rfl
      · intro htr
        rw [invoke_w, htr]
        simp [ter_set]
      · simp [ter_set]
  · intro hg hgrass
    refine ⟨?_, ?_⟩
    · intro hfull
      have hnb : ¬ (st.w.m.ter st.w.you.position = ter_id.t_underbrush ∨
          st.w.m.ter st.w.you.position = ter_id.t_shrub) := by
        intro h
        rcases h with h | h <;> simp [is_grazing_grass, h] at hgrass
      have hf : too_full st st.w.g.kcal_grass = true := by
        simpa [too_full] using hfull
      have he : eat_here sv st = (true,
          add_msg game_message_type.m_neutral "You're too full to graze." st) := by
        have hgrass2 := hgrass
        simp only [is_grazing_grass] at hgrass2
        simp only [not_or] at hnb
        simp [eat_here, hg, hnb.1, hnb.2, hgrass2, hf]
      rw [he]
      exact ⟨rfl, rfl, rfl, rfl, rfl, rfl⟩
    · intro hle
      have hf : too_full st st.w.g.kcal_grass = false := by
        simp only [too_full, decide_eq_false_iff_not, not_lt]
        exact hle
      rw [eat_here_graze_eq sv st hg hgrass hf]
      refine ⟨rfl, rfl, ?_, ?_, ?_⟩
      · simp only [graze_down_you]
        rfl
      · intro hmv
        simp only [graze_down_you, invoke_w, hmv]
        rfl
      · simp

/-- C18 in `full_meadow_world` and `shrub_world`, eating itself being free: the
grazer with 1990 of 2000 kcal stored is told it is too full, keeps its 100 move
points, and the grass stays tall; the grazer on the shrub, with 1000 kcal
stored, is left with -300 move points on a tile of grass. -/
theorem eat_here_too_full_witness :
    (eat_here example_services ⟨full_meadow_world, []⟩).1 = true ∧
    (eat_here example_services ⟨full_meadow_world, []⟩).2.w.you.moves = 100 ∧
    (eat_here example_services ⟨full_meadow_world, []⟩).2.w.m.ter ⟨5, 5, 0⟩ =
      ter_id.t_grass_tall ∧
    (eat_here example_services ⟨full_meadow_world, []⟩).2.trace =
      [event.msg game_message_type.m_neutral "You're too full to graze."] ∧
    (eat_here example_services ⟨shrub_world, []⟩).1 = true ∧
    (eat_here example_services ⟨shrub_world, []⟩).2.w.you.moves = -300 ∧
    (eat_here example_services ⟨shrub_world, []⟩).2.w.m.ter ⟨5, 5, 0⟩ = ter_id.t_grass :=
  have h := ((eat_here_too_full example_services ⟨full_meadow_world, []⟩).2 rfl rfl).1
    (by decide)
  have k := ((eat_here_too_full example_services ⟨shrub_world, []⟩).1 (Or.inr rfl)
    (Or.inr rfl)).2 (by decide)
  ⟨h.1, h.2.2.1, by rw [h.2.2.2.2.1]; rfl, h.2.2.2.2.2,
    k.1, k.2.2.2.2.2.1 (fun _ => rfl), k.2.2.2.2.2.2.1 (fun _ => rfl)⟩

/-! ## Claims about `avatar_action::plthrow` -/

/-- Once target selection is reached, `plthrow` is the rest of the function
from there. -/
theorem plthrow_eq_from_aim (sv : services) (st st1 : state) (loc : item_location)
    (blind : Option tripoint) (x : item_location × item)
    (hreach : plthrow_upto_aim sv st loc = flow.next st1 x) :
    plthrow sv st loc blind = plthrow_from_aim sv st1 x blind := by
  simp only [plthrow, hreach, flow_next_finish]

/-- C15: `plthrow` restores the avatar's position after a blind throw: for every
`blind_throw_from_pos`, once target selection has returned the position is the one
the avatar had before the shift, whatever target selection did; this is the state
`plthrow` returns in when targeting was cancelled (empty trajectory), and the state
from which the throw goes on when a trajectory was chosen.  Without
`blind_throw_from_pos` the position is never written: the state after target
selection is the one `mode_throw` left. -/
theorem plthrow_restores_position (sv : services) (st st1 : state) (loc : item_location)
    (blind : Option tripoint) (x : item_location × item)
    (hreach : plthrow_upto_aim sv st loc = flow.next st1 x) :
    (∀ p, blind = some p →
      (plthrow_aim sv st1 x.1 blind).2.w.you.position = st1.w.you.position ∧
      (plthrow_aim sv st1 x.1 blind).2 =
        setpos st1.w.you.position (invoke sv (call.mode_throw x.1 true) (setpos p st1)).2) ∧
    (blind = none →
      (plthrow_aim sv st1 x.1 blind).2 = (invoke sv (call.mode_throw x.1 false) st1).2) ∧
    ((plthrow_aim sv st1 x.1 blind).1 = [] →
      plthrow sv st loc blind = (plthrow_aim sv st1 x.1 blind).2) ∧
    (∀ target, (plthrow_aim sv st1 x.1 blind).1.getLast? = some target →
      plthrow sv st loc blind =
        plthrow_release sv (plthrow_aim sv st1 x.1 blind).2 x.1 x.2 target blind) := by
  rw [plthrow_eq_from_aim sv st st1 loc blind x hreach]
  refine ⟨?_, ?_, ?_, ?_⟩
  · intro p hp
    subst hp
    exact ⟨rfl, rfl⟩
  · intro hn
    subst hn
    rfl
  · intro he
    simp [plthrow_from_aim, he]
  · intro target ht
    simp [plthrow_from_aim, ht]

/-- C15 in the example world: a blind throw of the rocks in place 3 from
`(4, 4, 0)` leaves the avatar at `(5, 5, 0)` after target selection. -/
theorem plthrow_restores_position_witness :
    plthrow_upto_aim throwing_services ⟨example_world, []⟩ (item_location.slot 3) =
      flow.next ⟨example_world, []⟩ (item_location.slot 3, example_rock) ∧
    (plthrow_aim throwing_services ⟨example_world, []⟩ (item_location.slot 3)
      (some ⟨4, 4, 0⟩)).2.w.you.position = ⟨5, 5, 0⟩ ∧
    (plthrow_aim throwing_services ⟨example_world, []⟩ (item_location.slot 3)
      (some ⟨4, 4, 0⟩)).2.trace = [event.called (call.mode_throw (item_location.slot 3) true)] :=
  have h := (plthrow_restores_position throwing_services ⟨example_world, []⟩
    ⟨example_world, []⟩ (item_location.slot 3) (some ⟨4, 4, 0⟩)
    (item_location.slot 3, example_rock) rfl).1 ⟨4, 4, 0⟩ rfl
  ⟨rfl, h.1, by rw [h.2]; rfl⟩

theorem item_at_remove_item (loc : item_location) (st : state) :
    item_at (remove_item loc st).w loc = none := by
  cases loc with
  | nowhere => rfl
  | weapon => rfl
  | slot i => simp [remove_item, item_at]

theorem item_at_mod_charges (loc : item_location) (n : Int) (st : state) (it : item)
    (h : item_at st.w loc = some it) :
    item_at (mod_charges loc n st).w loc = some { it with charges := it.charges + n } := by
  cases loc with
  | nowhere => simp [item_at] at h
  | weapon =>
    simp only [item_at] at h
    split_ifs at h with ha
    injection h with h
    subst h
    simp [mod_charges, item_at, ha]
  | slot i =>
    simp only [item_at] at h
    simp [mod_charges, item_at, h]

theorem item_at_of_count_by_charges (w : world) (loc : item_location)
    (h : (deref w loc).count_by_charges = true) : item_at w loc = some (deref w loc) := by
  unfold deref at h ⊢
  cases hi : item_at w loc with
  | none =>
    rw [hi] at h
    simp [null_item] at h
  | some it => rfl

/-- C16: once a non-empty trajectory is chosen, if the item at the location
counts by charges and has more than one charge, the original loses exactly one
charge and the thrown copy has exactly one (thrown plus remaining charges equal
the original count); otherwise the original is removed from its location and the
thrown copy is the copy made of it, charges included.  In both cases the events
after the handling cost are exactly one `throw_item` call, at `trajectory.back()`,
and `reenter_fullscreen`. -/
theorem plthrow_splits_charges (sv : services) (st st1 : state) (loc : item_location)
    (blind : Option tripoint) (x : item_location × item) (target : tripoint)
    (hreach : plthrow_upto_aim sv st loc = flow.next st1 x)
    (htraj : (plthrow_aim sv st1 x.1 blind).1.getLast? = some target) :
    plthrow sv st loc blind =
      (invoke sv call.reenter_fullscreen
        (invoke sv (call.throw_item target
            (plthrow_thrown (plthrow_at_take sv st1 x blind) x.1 x.2) blind)
          (plthrow_take (plthrow_at_take sv st1 x blind) x.1)).2).2 ∧
    (plthrow sv st loc blind).trace =
      (plthrow_at_take sv st1 x blind).trace ++
        [event.called (call.throw_item target
          (plthrow_thrown (plthrow_at_take sv st1 x blind) x.1 x.2) blind),
         event.called call.reenter_fullscreen] ∧
    ((deref (plthrow_at_take sv st1 x blind).w x.1).count_by_charges = true ∧
      (deref (plthrow_at_take sv st1 x blind).w x.1).charges > 1 →
      item_at (plthrow_take (plthrow_at_take sv st1 x blind) x.1).w x.1 =
        some { deref (plthrow_at_take sv st1 x blind).w x.1 with
          charges := (deref (plthrow_at_take sv st1 x blind).w x.1).charges - 1 } ∧
      plthrow_thrown (plthrow_at_take sv st1 x blind) x.1 x.2 = { x.2 with charges := 1 } ∧
      (plthrow_thrown (plthrow_at_take sv st1 x blind) x.1 x.2).charges +
          (deref (plthrow_take (plthrow_at_take sv st1 x blind) x.1).w x.1).charges =
        (deref (plthrow_at_take sv st1 x blind).w x.1).charges) ∧
    (¬ ((deref (plthrow_at_take sv st1 x blind).w x.1).count_by_charges = true ∧
        (deref (plthrow_at_take sv st1 x blind).w x.1).charges > 1) →
      item_at (plthrow_take (plthrow_at_take sv st1 x blind) x.1).w x.1 = none ∧
      plthrow_thrown (plthrow_at_take sv st1 x blind) x.1 x.2 = x.2) := by
  have he : plthrow sv st loc blind =
      (invoke sv call.reenter_fullscreen
        (invoke sv (call.throw_item target
            (plthrow_thrown (plthrow_at_take sv st1 x blind) x.1 x.2) blind)
          (plthrow_take (plthrow_at_take sv st1 x blind) x.1)).2).2 := by
    rw [plthrow_eq_from_aim sv st st1 loc blind x hreach]
    simp only [plthrow_from_aim, htraj, plthrow_release, plthrow_at_take]
  have htake : (plthrow_take (plthrow_at_take sv st1 x blind) x.1).trace =
      (plthrow_at_take sv st1 x blind).trace := by
    unfold plthrow_take
    split_ifs
    · cases x.1 <;> rfl
    · cases x.1 <;> rfl
  refine ⟨he, ?_, ?_, ?_⟩
  · rw [he]
    simp [htake]
  · intro hc
    have hcond : ((deref (plthrow_at_take sv st1 x blind).w x.1).count_by_charges &&
        decide ((deref (plthrow_at_take sv st1 x blind).w x.1).charges > 1)) = true := by
      simp [hc.1, hc.2]
    have hat := item_at_mod_charges x.1 (-1) (plthrow_at_take sv st1 x blind) _
      (item_at_of_count_by_charges _ _ hc.1)
    have hsub : ∀ a : Int, a + -1 = a - 1 := fun a => by omega
    rw [hsub] at hat
    have htk : plthrow_take (plthrow_at_take sv st1 x blind) x.1 =
        mod_charges x.1 (-1) (plthrow_at_take sv st1 x blind) := by
      unfold plthrow_take
      rw [if_pos hcond]
    have hth : plthrow_thrown (plthrow_at_take sv st1 x blind) x.1 x.2 =
        { x.2 with charges := 1 } := by
      unfold plthrow_thrown
      rw [if_pos hcond]
    refine ⟨?_, hth, ?_⟩
    · rw [htk]
      exact hat
    · rw [hth, htk]
      have hd : (deref (mod_charges x.1 (-1) (plthrow_at_take sv st1 x blind)).w x.1).charges =
          (deref (plthrow_at_take sv st1 x blind).w x.1).charges - 1 := by
        rw [deref, hat]
        rfl
      rw [hd]
      show 1 + _ = _
      omega
  · intro hc
    have hcond : ¬ ((deref (plthrow_at_take sv st1 x blind).w x.1).count_by_charges &&
        decide ((deref (plthrow_at_take sv st1 x blind).w x.1).charges > 1)) = true := by
      simpa using hc
    refine ⟨?_, ?_⟩
    · unfold plthrow_take
      rw [if_neg hcond]
      exact item_at_remove_item _ _
    · unfold plthrow_thrown
      rw [if_neg hcond]

/-- C16 in the example world: of the five rocks in place 3 one is thrown at
`(8, 5, 0)`, the end of the trajectory, and four stay. -/
theorem plthrow_splits_charges_witness :
    (plthrow throwing_services ⟨example_world, []⟩ (item_location.slot 3) none).trace =
      [event.called (call.mode_throw (item_location.slot 3) false),
       event.called (call.throw_item ⟨8, 5, 0⟩ { example_rock with charges := 1 } none),
       event.called call.reenter_fullscreen] ∧
    item_at (plthrow throwing_services ⟨example_world, []⟩ (item_location.slot 3) none).w
      (item_location.slot 3) = some { example_rock with charges := 4 } :=
  have h := plthrow_splits_charges throwing_services ⟨example_world, []⟩ ⟨example_world, []⟩
    (item_location.slot 3) none (item_location.slot 3, example_rock) ⟨8, 5, 0⟩ rfl rfl
  ⟨by rw [h.2.1]; rfl, by rw [h.1]; rfl⟩

/-! ## Claims about `language.cpp` -/

/-- The loop of `get_lang_info` returns the first entry with the requested id. -/
theorem find_lang_first (pre post : List language_info) (li : language_info) (lang : String)
    (hid : li.id = lang) (hpre : ∀ x ∈ pre, x.id ≠ lang) :
    find_lang (pre ++ li :: post) lang = some li := by
  induction pre with
  | nil => simp [find_lang, hid]
  | cons a rest ih =>
    have ha : a.id ≠ lang := hpre a (List.mem_cons_self a rest)
    have hr : ∀ x ∈ rest, x.id ≠ lang := fun x hx => hpre x (List.mem_cons_of_mem a hx)
    simp only [List.cons_append, find_lang, ha, if_false]
    exact ih hr

/-- The loop of `get_lang_info` finds nothing when no entry has the requested id. -/
theorem find_lang_none (table : List language_info) (lang : String)
    (h : ∀ x ∈ table, x.id ≠ lang) : find_lang table lang = none := by
  induction table with
  | nil => rfl
  | cons a rest ih =>
    have ha : a.id ≠ lang := h a (List.mem_cons_self a rest)
    simp only [find_lang, ha, if_false]
    exact ih (fun x hx => h x (List.mem_cons_of_mem a hx))

/-- C19: `update_global_locale` leaves the global locale untouched when `USE_LANG`
is empty.  Otherwise it looks the option up with `get_lang_info`, which returns
the first entry of `lang_options` whose id equals the requested language and, for
an id that is not in the list, reports a debug message and falls back to the first
entry (id "en", locale "en_US.UTF-8"); the global locale becomes that entry's
locale, and if constructing it throws, the global locale is set to a copy of the
current one, so it stays what it was, and nothing is propagated. -/
theorem update_global_locale_spec (LOCALIZE : Bool) (s : locale_state) :
    (s.USE_LANG = "" → update_global_locale LOCALIZE s = s) ∧
    (∀ pre li post, lang_options LOCALIZE = pre ++ li :: post → li.id = s.USE_LANG →
      (∀ x ∈ pre, x.id ≠ s.USE_LANG) → get_lang_info LOCALIZE s.USE_LANG = (li, [])) ∧
    ((∀ x ∈ lang_options LOCALIZE, x.id ≠ s.USE_LANG) →
      get_lang_info LOCALIZE s.USE_LANG =
        ({ id := "en", name := "English", locale := "en_US.UTF-8" },
         [event.debugmsg ("'" ++ s.USE_LANG ++ "' is not a valid language")])) ∧
    (s.USE_LANG ≠ "" →
      s.constructible (get_lang_info LOCALIZE s.USE_LANG).1.locale = true →
      (update_global_locale LOCALIZE s).global_locale =
        (get_lang_info LOCALIZE s.USE_LANG).1.locale ∧
      (update_global_locale LOCALIZE s).trace =
        s.trace ++ (get_lang_info LOCALIZE s.USE_LANG).2) ∧
    (s.USE_LANG ≠ "" →
      s.constructible (get_lang_info LOCALIZE s.USE_LANG).1.locale = false →
      (update_global_locale LOCALIZE s).global_locale = s.global_locale ∧
      (update_global_locale LOCALIZE s).trace =
        s.trace ++ (get_lang_info LOCALIZE s.USE_LANG).2) := by
  refine ⟨?_, ?_, ?_, ?_, ?_⟩
  · intro h
    simp [update_global_locale, h]
  · intro pre li post htable hid hpre
    unfold get_lang_info
    rw [htable, find_lang_first pre post li s.USE_LANG hid hpre]
  · intro h
    unfold get_lang_info
    rw [find_lang_none _ _ h]
    rfl
  · intro hne hc
    simp [update_global_locale, hne, hc]
  · intro hne hc
    simp [update_global_locale, hne, hc]

/-- C19 on a localized build with `USE_LANG` set to the unknown language "xx":
the debug message is reported and the global locale becomes "en_US.UTF-8"; with
"de", the second entry, the lookup returns the German entry. -/
theorem update_global_locale_spec_witness :
    (update_global_locale true example_locale_state).global_locale = "en_US.UTF-8" ∧
    (update_global_locale true example_locale_state).trace =
      [event.debugmsg "'xx' is not a valid language"] ∧
    get_lang_info true "de" = ({ id := "de", name := "Deutsch", locale := "de_DE.UTF-8" }, []) :=
  have h := update_global_locale_spec true example_locale_state
  have h2 := update_global_locale_spec true { example_locale_state with USE_LANG := "de" }
  ⟨by rw [(h.2.2.2.1 (by decide) rfl).1, h.2.2.1 (by decide)],
   by rw [(h.2.2.2.1 (by decide) rfl).2, h.2.2.1 (by decide)]; rfl,
   h2.2.1 [{ id := "en", name := "English", locale := "en_US.UTF-8" }]
     { id := "de", name := "Deutsch", locale := "de_DE.UTF-8" } _ rfl rfl (by decide)⟩

end cata
